import Mathlib

/-!
ESP32_IO_Expander: register access, retry engine and I2C bridge.

A shallow embedding of `src/port/esp_io_expander_tca95xx_16bit.c`,
`src/port/esp_io_expander_ht8574.c` and `src/port/esp_expander_i2c_ng.c`.

The C code talks to collaborators that are not part of the repository (the
ESP-IDF `i2c_master` driver, the Arduino HAL, FreeRTOS, the C allocator).  They
are modelled by an immutable `Env` of answers (one answer per call, indexed by
how many calls of that kind were made before) and a mutable `World` that holds
the call counters, the module-global `s_port_speed_hz`, the set of devices
registered at the transport and a chronological trace of every external call.
Logging (`ESP_LOGI`, `ESP_LOGE`) has no effect on any of this and is left out.
-/

/-- Status codes are the `int` of `esp_err.h`. -/
abbrev esp_err_t := Int

/-- Success status of `esp_err.h`. -/
def ESP_OK : esp_err_t := 0
/-- Generic failure status of `esp_err.h`. -/
def ESP_FAIL : esp_err_t := -1
/-- Out-of-memory status of `esp_err.h`. -/
def ESP_ERR_NO_MEM : esp_err_t := 0x101
/-- Invalid-argument status of `esp_err.h`. -/
def ESP_ERR_INVALID_ARG : esp_err_t := 0x102
/-- Invalid-state status of `esp_err.h`. -/
def ESP_ERR_INVALID_STATE : esp_err_t := 0x103
/-- Timeout status of `esp_err.h`. -/
def ESP_ERR_TIMEOUT : esp_err_t := 0x107

/-- Value of `I2C_ADDR_BIT_LEN_7` in `driver/i2c_types.h`. -/
def I2C_ADDR_BIT_LEN_7 : Nat := 0
/-- Value of `I2C_MODE_MASTER` in `hal/i2c_types.h`. -/
def I2C_MODE_MASTER : Nat := 1

/-- The fields of `i2c_device_config_t` that `esp_expander_i2c_ng_add_device`
sets; `scl_speed_hz` is the result of a cast to `int`. -/
structure i2c_device_config_t where
  dev_addr_length : Nat
  device_address : Nat
  scl_speed_hz : Int
deriving DecidableEq, Repr

/-- The fields of the legacy `i2c_config_t` that the bridge reads. -/
structure i2c_config_t where
  mode : Nat
  sda_io_num : Int
  scl_io_num : Int
  clk_speed : Nat
deriving DecidableEq, Repr

/-- One call into a collaborator, with the arguments it was given and, for
the calls whose status the code looks at, the status it answered. -/
inductive Event where
  | busLookup (i2c_num : Nat)
  | busReset (bus : Nat)
  | transmit (dev : Option Nat) (data : List Nat) (timeout_ms : Nat) (status : esp_err_t)
  | receive (dev : Option Nat) (len : Nat) (timeout_ms : Nat) (status : esp_err_t)
  | delay (ticks : Nat)
  | addDevice (bus : Nat) (cfg : i2c_device_config_t) (status : esp_err_t)
  | rmDevice (dev : Nat)
  | i2cInit (i2c_num : Nat) (sda : Int) (scl : Int) (frequency : Nat)
  | calloc (ok : Bool)
  | free
deriving DecidableEq, Repr

/-- Answer of the transport to one transmit or receive: the status, and for
a receive the bytes it delivers. -/
structure XferReply where
  status : esp_err_t
  data : List Nat

/-- Answer of the transport to one `i2c_master_bus_add_device`. -/
structure AttachReply where
  status : esp_err_t
  dev : Nat

/-- What the collaborators answer. `I2C_NUM_MAX` and `pdMS_TO_TICKS` are
platform macros that are not part of the sources. Every other field gives the
answer to the n-th call of its kind. -/
structure Env where
  I2C_NUM_MAX : Nat
  pdMS_TO_TICKS : Nat → Nat
  busHandle : Nat → Nat → Option Nat
  xfer : Nat → XferReply
  attach : Nat → AttachReply
  allocOk : Nat → Bool
  initOk : Nat → Bool

/-- Mutable state outside the device structures. -/
structure World where
  lookups : Nat
  xfers : Nat
  attaches : Nat
  allocs : Nat
  inits : Nat
  attached : List Nat
  s_port_speed_hz : Nat → Nat
  trace : List Event

/-- The events appended to the trace between world `w` and a later world. -/
def newEvents (w w' : World) : List Event := w'.trace.drop w.trace.length

/-- Event test: an invocation of a transport operation (transmit or receive). -/
def Event.isXfer : Event → Bool
  | .transmit _ _ _ _ => true
  | .receive _ _ _ _ => true
  | _ => false

/-- Event test: a transmit. -/
def Event.isTransmit : Event → Bool
  | .transmit _ _ _ _ => true
  | _ => false

/-- Event test: a receive. -/
def Event.isReceive : Event → Bool
  | .receive _ _ _ _ => true
  | _ => false

/-- Event test: a bus reset. -/
def Event.isReset : Event → Bool
  | .busReset _ => true
  | _ => false

/-- Event test: a sleep. -/
def Event.isDelay : Event → Bool
  | .delay _ => true
  | _ => false

/-- Event test: a bus-handle lookup. -/
def Event.isLookup : Event → Bool
  | .busLookup _ => true
  | _ => false

/-! ## Collaborator calls -/

/-- Arduino HAL `i2cBusHandle(i2c_num)`: `none` is `NULL`. -/
def i2cBusHandle (env : Env) (i2c_num : Nat) (w : World) : Option Nat × World :=
  (env.busHandle w.lookups i2c_num,
   { w with lookups := w.lookups + 1, trace := w.trace ++ [Event.busLookup i2c_num] })

/-- ESP-IDF `i2c_master_bus_reset(bus)`; every caller discards its status. -/
def i2c_master_bus_reset (bus : Nat) (w : World) : World :=
  { w with trace := w.trace ++ [Event.busReset bus] }

/-- ESP-IDF `i2c_master_transmit(dev, data, len, timeout)`. -/
def i2c_master_transmit (env : Env) (dev : Option Nat) (data : List Nat) (len : Nat)
    (timeout_ms : Nat) (w : World) : esp_err_t × World :=
  let st := (env.xfer w.xfers).status
  (st, { w with xfers := w.xfers + 1,
                trace := w.trace ++ [Event.transmit dev (data.take len) timeout_ms st] })

/-- Buffer contents after the transport stored the delivered bytes `ds` at
its start. -/
def fillBuffer (buf ds : List Nat) : List Nat :=
  ds.take buf.length ++ buf.drop ds.length

/-- ESP-IDF `i2c_master_receive(dev, buf, len, timeout)`: at most `len`
delivered bytes are stored in the buffer. -/
def i2c_master_receive (env : Env) (dev : Option Nat) (buf : List Nat) (len : Nat)
    (timeout_ms : Nat) (w : World) : esp_err_t × List Nat × World :=
  let r := env.xfer w.xfers
  (r.status, fillBuffer buf ((r.data.take len).map (· % 256)),
   { w with xfers := w.xfers + 1,
            trace := w.trace ++ [Event.receive dev len timeout_ms r.status] })

/-- FreeRTOS `vTaskDelay(ticks)`. -/
def vTaskDelay (ticks : Nat) (w : World) : World :=
  { w with trace := w.trace ++ [Event.delay ticks] }

/-- ESP-IDF `i2c_master_bus_add_device(bus, cfg, out)`: on success the new
device handle is stored through `out` and the device is registered. -/
def i2c_master_bus_add_device (env : Env) (bus : Nat) (cfg : i2c_device_config_t)
    (out_dev : Option Nat) (w : World) : esp_err_t × Option Nat × World :=
  let r := env.attach w.attaches
  let w1 : World := { w with attaches := w.attaches + 1,
                             trace := w.trace ++ [Event.addDevice bus cfg r.status] }
  if r.status = ESP_OK then
    (r.status, some r.dev, { w1 with attached := r.dev :: w1.attached })
  else
    (r.status, out_dev, w1)

/-- ESP-IDF `i2c_master_bus_rm_device(dev)`; every caller discards its status. -/
def i2c_master_bus_rm_device (dev : Nat) (w : World) : World :=
  { w with attached := w.attached.erase dev, trace := w.trace ++ [Event.rmDevice dev] }

/-- Arduino HAL `i2cInit(i2c_num, sda, scl, frequency)`. -/
def i2cInit (env : Env) (i2c_num : Nat) (sda scl : Int) (frequency : Nat) (w : World) :
    Bool × World :=
  (env.initOk w.inits,
   { w with inits := w.inits + 1,
            trace := w.trace ++ [Event.i2cInit i2c_num sda scl frequency] })

/-- C `calloc(1, size)`: `false` is a `NULL` result. -/
def calloc (env : Env) (w : World) : Bool × World :=
  (env.allocOk w.allocs,
   { w with allocs := w.allocs + 1, trace := w.trace ++ [Event.calloc (env.allocOk w.allocs)] })

/-- C `free(p)`. -/
def free (w : World) : World :=
  { w with trace := w.trace ++ [Event.free] }

/-! ## `esp_expander_i2c_ng.c` -/

/-- `ESP_EXPANDER_I2C_DEFAULT_SPEED_HZ`. -/
def ESP_EXPANDER_I2C_DEFAULT_SPEED_HZ : Nat := 100000

/-- The C cast `(int)x` of a `uint32_t`. -/
def toInt32 (x : Nat) : Int :=
  if x % 2 ^ 32 < 2 ^ 31 then ((x % 2 ^ 32 : Nat) : Int) else ((x % 2 ^ 32 : Nat) : Int) - 2 ^ 32

/-- `esp_expander_i2c_ng_init_from_legacy_config`; `cfg = none` is a null
pointer. -/
def esp_expander_i2c_ng_init_from_legacy_config (env : Env) (port : Nat)
    (cfg : Option i2c_config_t) (w : World) : esp_err_t × World :=
  match cfg with
  | none => (ESP_ERR_INVALID_ARG, w)
  | some cfg =>
    if ¬ (port < env.I2C_NUM_MAX) then (ESP_ERR_INVALID_ARG, w) else
    let w := if cfg.mode = I2C_MODE_MASTER then
        { w with s_port_speed_hz := Function.update w.s_port_speed_hz port cfg.clk_speed }
      else w
    let (ok, w) := i2cInit env (port % 256) cfg.sda_io_num cfg.scl_io_num cfg.clk_speed w
    (if ok then ESP_OK else ESP_FAIL, w)

/-- `esp_expander_i2c_ng_get_speed_hz`. -/
def esp_expander_i2c_ng_get_speed_hz (env : Env) (port : Nat) (w : World) : Nat :=
  if port ≥ env.I2C_NUM_MAX then 0 else w.s_port_speed_hz port

/-- `esp_expander_i2c_ng_add_device`; `out_nonnull` tells whether the
pointer `out_dev` is non-null and `out_dev` is what it points to before the
call. The second component of the result is what it points to afterwards. -/
def esp_expander_i2c_ng_add_device (env : Env) (port addr7 : Nat) (out_nonnull : Bool)
    (out_dev : Option Nat) (w : World) : esp_err_t × Option Nat × World :=
  if ¬ out_nonnull then (ESP_ERR_INVALID_ARG, out_dev, w) else
  if ¬ (port < env.I2C_NUM_MAX) then (ESP_ERR_INVALID_ARG, out_dev, w) else
  let (bus, w) := i2cBusHandle env (port % 256) w
  match bus with
  | none => (ESP_ERR_INVALID_STATE, out_dev, w)
  | some bus =>
    let dev_cfg : i2c_device_config_t :=
      { dev_addr_length := I2C_ADDR_BIT_LEN_7,
        device_address := addr7,
        scl_speed_hz := toInt32 (if w.s_port_speed_hz port ≠ 0 then w.s_port_speed_hz port
                                 else ESP_EXPANDER_I2C_DEFAULT_SPEED_HZ) }
    i2c_master_bus_add_device env bus dev_cfg out_dev w

/-- `esp_expander_i2c_ng_deinit`: does nothing, reports success. -/
def esp_expander_i2c_ng_deinit (_port : Nat) (w : World) : esp_err_t × World :=
  (ESP_OK, w)

/-! ## `esp_io_expander_tca95xx_16bit.c` -/

namespace tca95xx_16bit

/-- `I2C_TIMEOUT_MS` of the 16-bit driver. -/
def I2C_TIMEOUT_MS : Nat := 150

/-- `reset_i2c_bus_on_timeout`: look the bus up, reset it when it is live. -/
def reset_i2c_bus_on_timeout (env : Env) (port : Nat) (w : World) : World :=
  let (bus, w1) := i2cBusHandle env (port % 256) w
  match bus with
  | some b => i2c_master_bus_reset b w1
  | none => w1

/-- Context `i2c_tx_ctx_t` of a transmit. -/
structure i2c_tx_ctx_t where
  dev : Option Nat
  data : List Nat
  len : Nat

/-- `i2c_tx_op`: one transmit; the context is only read. -/
def i2c_tx_op (env : Env) (c : i2c_tx_ctx_t) (w : World) : esp_err_t × i2c_tx_ctx_t × World :=
  let (st, w1) := i2c_master_transmit env c.dev c.data c.len I2C_TIMEOUT_MS w
  (st, c, w1)

/-- Context `i2c_rx_ctx_t` of a receive; `data` is the caller's buffer. -/
structure i2c_rx_ctx_t where
  dev : Option Nat
  data : List Nat
  len : Nat

/-- `i2c_rx_op`: one receive into the context's buffer. -/
def i2c_rx_op (env : Env) (c : i2c_rx_ctx_t) (w : World) : esp_err_t × i2c_rx_ctx_t × World :=
  let (st, buf, w1) := i2c_master_receive env c.dev c.data c.len I2C_TIMEOUT_MS w
  (st, { c with data := buf }, w1)

/-- `retry_if_timeout`: sleep when the status is a timeout, hand the status
back. -/
def retry_if_timeout (err : esp_err_t) (backoff_ticks : Nat) (w : World) : esp_err_t × World :=
  if err = ESP_ERR_TIMEOUT then (err, vTaskDelay backoff_ticks w) else (err, w)

/-- `retry_i2c_op_if_timeout`: the four unrolled attempts of the source. The
operation gets the context `ctx` and may change what it points to. -/
def retry_i2c_op_if_timeout {γ : Type} (env : Env) (port : Nat)
    (op : γ → World → esp_err_t × γ × World) (ctx : γ) (w : World) : esp_err_t × γ × World :=
  let (err, ctx, w) := op ctx w
  if err ≠ ESP_ERR_TIMEOUT then (err, ctx, w) else
  let w := reset_i2c_bus_on_timeout env port w
  let w := (retry_if_timeout err (env.pdMS_TO_TICKS 2) w).2
  let (err, ctx, w) := op ctx w
  if err ≠ ESP_ERR_TIMEOUT then (err, ctx, w) else
  let w := reset_i2c_bus_on_timeout env port w
  let w := (retry_if_timeout err (env.pdMS_TO_TICKS 5) w).2
  let (err, ctx, w) := op ctx w
  if err ≠ ESP_ERR_TIMEOUT then (err, ctx, w) else
  let w := reset_i2c_bus_on_timeout env port w
  let w := (retry_if_timeout err (env.pdMS_TO_TICKS 10) w).2
  op ctx w

/-- `IO_COUNT` of the 16-bit driver. -/
def IO_COUNT : Nat := 16
/-- Register address of the input port pair. -/
def INPUT_REG_ADDR : Nat := 0x00
/-- Register address of the output port pair. -/
def OUTPUT_REG_ADDR : Nat := 0x02
/-- Register address of the configuration (direction) port pair. -/
def DIRECTION_REG_ADDR : Nat := 0x06
/-- Power-up value of the direction register. -/
def DIR_REG_DEFAULT_VAL : Nat := 0xffff
/-- Power-up value of the output register. -/
def OUT_REG_DEFAULT_VAL : Nat := 0xffff

/-- Device structure `esp_io_expander_tca95xx_16bit_t`: the two `base.config`
fields the driver sets, the binding and the cached registers (`uint16_t`).
The function table is fixed per driver and is not stored. -/
structure esp_io_expander_tca95xx_16bit_t where
  io_count : Nat
  dir_out_bit_zero : Nat
  i2c_num : Nat
  i2c_address : Nat
  i2c_dev : Option Nat
  direction : Nat
  output : Nat
deriving DecidableEq, Repr

/-- `read_input_reg`: selector transmit, then a two-byte receive. The second
component is what was stored through `value` (`none`: nothing stored). -/
def read_input_reg (env : Env) (tca : esp_io_expander_tca95xx_16bit_t) (w : World) :
    esp_err_t × Option Nat × World :=
  let temp : List Nat := [0, 0]
  let reg : Nat := INPUT_REG_ADDR
  let tx : i2c_tx_ctx_t := { dev := tca.i2c_dev, data := [reg], len := 1 }
  let (err, _, w) := retry_i2c_op_if_timeout env tca.i2c_num (i2c_tx_op env) tx w
  if err ≠ ESP_OK then (err, none, w) else
  let rx : i2c_rx_ctx_t := { dev := tca.i2c_dev, data := temp, len := 2 }
  let (err, rx, w) := retry_i2c_op_if_timeout env tca.i2c_num (i2c_rx_op env) rx w
  if err ≠ ESP_OK then (err, none, w) else
  let temp := rx.data
  (ESP_OK, some ((((temp.getD 1 0) <<< 8) % 2 ^ 32) ||| (temp.getD 0 0)), w)

/-- `write_output_reg`: three-byte transmit, cache update on success. -/
def write_output_reg (env : Env) (tca : esp_io_expander_tca95xx_16bit_t) (value : Nat)
    (w : World) : esp_err_t × esp_io_expander_tca95xx_16bit_t × World :=
  let value := value &&& 0xffff
  let data : List Nat := [OUTPUT_REG_ADDR % 256, (value &&& 0xff) % 256, (value >>> 8) % 256]
  let tx : i2c_tx_ctx_t := { dev := tca.i2c_dev, data := data, len := 3 }
  let (err, _, w) := retry_i2c_op_if_timeout env tca.i2c_num (i2c_tx_op env) tx w
  if err ≠ ESP_OK then (err, tca, w) else
  (ESP_OK, { tca with output := value % 2 ^ 16 }, w)

/-- `read_output_reg`: the cached output value. -/
def read_output_reg (tca : esp_io_expander_tca95xx_16bit_t) : esp_err_t × Nat :=
  (ESP_OK, tca.output)

/-- `write_direction_reg`: three-byte transmit, cache update on success. -/
def write_direction_reg (env : Env) (tca : esp_io_expander_tca95xx_16bit_t) (value : Nat)
    (w : World) : esp_err_t × esp_io_expander_tca95xx_16bit_t × World :=
  let value := value &&& 0xffff
  let data : List Nat := [DIRECTION_REG_ADDR % 256, (value &&& 0xff) % 256, (value >>> 8) % 256]
  let tx : i2c_tx_ctx_t := { dev := tca.i2c_dev, data := data, len := 3 }
  let (err, _, w) := retry_i2c_op_if_timeout env tca.i2c_num (i2c_tx_op env) tx w
  if err ≠ ESP_OK then (err, tca, w) else
  (ESP_OK, { tca with direction := value % 2 ^ 16 }, w)

/-- `read_direction_reg`: the cached direction value. -/
def read_direction_reg (tca : esp_io_expander_tca95xx_16bit_t) : esp_err_t × Nat :=
  (ESP_OK, tca.direction)

/-- `reset`: direction register first, output register second. -/
def reset (env : Env) (tca : esp_io_expander_tca95xx_16bit_t) (w : World) :
    esp_err_t × esp_io_expander_tca95xx_16bit_t × World :=
  let (err, tca, w) := write_direction_reg env tca DIR_REG_DEFAULT_VAL w
  if err ≠ ESP_OK then (err, tca, w) else
  let (err, tca, w) := write_output_reg env tca OUT_REG_DEFAULT_VAL w
  if err ≠ ESP_OK then (err, tca, w) else
  (ESP_OK, tca, w)

/-- `del`: detach when attached, release the structure. -/
def del (tca : esp_io_expander_tca95xx_16bit_t) (w : World) : esp_err_t × World :=
  let w := match tca.i2c_dev with
    | some d => i2c_master_bus_rm_device d w
    | none => w
  (ESP_OK, free w)

/-- `esp_io_expander_new_i2c_tca95xx_16bit`; `handle` tells whether the
caller's handle pointer is non-null. The second component of the result is
what was stored through it (`none`: nothing stored). -/
def esp_io_expander_new_i2c_tca95xx_16bit (env : Env) (i2c_num i2c_address : Nat)
    (handle : Bool) (w : World) :
    esp_err_t × Option esp_io_expander_tca95xx_16bit_t × World :=
  if ¬ (i2c_num < env.I2C_NUM_MAX) then (ESP_ERR_INVALID_ARG, none, w) else
  if ¬ handle then (ESP_ERR_INVALID_ARG, none, w) else
  let (ok, w) := calloc env w
  if ¬ ok then (ESP_ERR_NO_MEM, none, w) else
  let tca : esp_io_expander_tca95xx_16bit_t :=
    { io_count := IO_COUNT, dir_out_bit_zero := 1, i2c_num := i2c_num,
      i2c_address := i2c_address, i2c_dev := none, direction := 0, output := 0 }
  let (ret, dev, w) :=
    esp_expander_i2c_ng_add_device env i2c_num (i2c_address % 2 ^ 16) true tca.i2c_dev w
  let tca := { tca with i2c_dev := dev }
  if ret ≠ ESP_OK then (ret, none, free w) else
  let (ret, tca, w) := reset env tca w
  if ret ≠ ESP_OK then (ret, none, free w) else
  (ESP_OK, some tca, w)

end tca95xx_16bit

/-! ## `esp_io_expander_ht8574.c` -/

namespace ht8574

/-- `I2C_TIMEOUT_MS` of the 8-bit driver. -/
def I2C_TIMEOUT_MS : Nat := 10
/-- `IO_COUNT` of the 8-bit driver. -/
def IO_COUNT : Nat := 8
/-- Power-up value of the direction register, as the source declares it. -/
def DIR_REG_DEFAULT_VAL : Nat := 0xff
/-- Power-up value of the output register. -/
def OUT_REG_DEFAULT_VAL : Nat := 0xff

/-- Device structure `esp_io_expander_ht8574_t`: the two `base.config` fields
the driver sets, the binding and the cached registers (`uint8_t`). -/
structure esp_io_expander_ht8574_t where
  io_count : Nat
  dir_out_bit_zero : Nat
  i2c_num : Nat
  i2c_address : Nat
  i2c_dev : Option Nat
  direction : Nat
  output : Nat
deriving DecidableEq, Repr

/-- `read_input_reg`: one single-byte receive, no retry. The second
component is what was stored through `value` (`none`: nothing stored). -/
def read_input_reg (env : Env) (ht8574 : esp_io_expander_ht8574_t) (w : World) :
    esp_err_t × Option Nat × World :=
  let temp : List Nat := [0]
  let (err, temp, w) := i2c_master_receive env ht8574.i2c_dev temp 1 I2C_TIMEOUT_MS w
  if err ≠ ESP_OK then (err, none, w) else
  (ESP_OK, some (temp.getD 0 0), w)

/-- `write_output_reg`: one single-byte transmit, cache update on success. -/
def write_output_reg (env : Env) (ht8574 : esp_io_expander_ht8574_t) (value : Nat)
    (w : World) : esp_err_t × esp_io_expander_ht8574_t × World :=
  let value := value &&& 0xff
  let data : Nat := value % 256
  let (err, w) := i2c_master_transmit env ht8574.i2c_dev [data] 1 I2C_TIMEOUT_MS w
  if err ≠ ESP_OK then (err, ht8574, w) else
  (ESP_OK, { ht8574 with output := value % 2 ^ 8 }, w)

/-- `read_output_reg`: the cached output value. -/
def read_output_reg (ht8574 : esp_io_expander_ht8574_t) : esp_err_t × Nat :=
  (ESP_OK, ht8574.output)

/-- `write_direction_reg`: cache only, nothing is sent. -/
def write_direction_reg (ht8574 : esp_io_expander_ht8574_t) (value : Nat) (w : World) :
    esp_err_t × esp_io_expander_ht8574_t × World :=
  let value := value &&& 0xff
  (ESP_OK, { ht8574 with direction := value % 2 ^ 8 }, w)

/-- `read_direction_reg`: the cached direction value. -/
def read_direction_reg (ht8574 : esp_io_expander_ht8574_t) : esp_err_t × Nat :=
  (ESP_OK, ht8574.direction)

/-- `reset`: the output register only. -/
def reset (env : Env) (ht8574 : esp_io_expander_ht8574_t) (w : World) :
    esp_err_t × esp_io_expander_ht8574_t × World :=
  let (err, ht8574, w) := write_output_reg env ht8574 OUT_REG_DEFAULT_VAL w
  if err ≠ ESP_OK then (err, ht8574, w) else
  (ESP_OK, ht8574, w)

/-- `del`: detach when attached, release the structure. -/
def del (ht8574 : esp_io_expander_ht8574_t) (w : World) : esp_err_t × World :=
  let w := match ht8574.i2c_dev with
    | some d => i2c_master_bus_rm_device d w
    | none => w
  (ESP_OK, free w)

/-- `esp_io_expander_new_i2c_ht8574`; `handle` tells whether the caller's
handle pointer is non-null. The second component of the result is what was
stored through it (`none`: nothing stored). -/
def esp_io_expander_new_i2c_ht8574 (env : Env) (i2c_num i2c_address : Nat)
    (handle : Bool) (w : World) : esp_err_t × Option esp_io_expander_ht8574_t × World :=
  if ¬ (i2c_num < env.I2C_NUM_MAX) then (ESP_ERR_INVALID_ARG, none, w) else
  if ¬ handle then (ESP_ERR_INVALID_ARG, none, w) else
  let (ok, w) := calloc env w
  if ¬ ok then (ESP_ERR_NO_MEM, none, w) else
  let ht8574 : esp_io_expander_ht8574_t :=
    { io_count := IO_COUNT, dir_out_bit_zero := 1, i2c_num := i2c_num,
      i2c_address := i2c_address, i2c_dev := none, direction := 0, output := 0 }
  let (ret, dev, w) :=
    esp_expander_i2c_ng_add_device env i2c_num (i2c_address % 2 ^ 16) true ht8574.i2c_dev w
  let ht8574 := { ht8574 with i2c_dev := dev }
  if ret ≠ ESP_OK then (ret, none, free w) else
  let (ret, ht8574, w) := reset env ht8574 w
  if ret ≠ ESP_OK then (ret, none, free w) else
  (ESP_OK, some ht8574, w)

end ht8574

/-! ## Specification-side definitions -/

/-- The events of one `reset_i2c_bus_on_timeout` when `lookups` lookups were
made before: the lookup, and the reset when the bus is live. -/
def resetEvents (env : Env) (port lookups : Nat) : List Event :=
  Event.busLookup (port % 256) ::
    (match env.busHandle lookups (port % 256) with
     | some b => [Event.busReset b]
     | none => [])

/-- Status of the `i`-th transport answer counted from answer `n`. -/
def statusAt (env : Env) (n i : Nat) : esp_err_t := (env.xfer (n + i)).status

/-- How many of the transport answers from `n` on the retry engine consumes:
one more than the number of leading timeouts, at most four. -/
def retryAttempts (env : Env) (n : Nat) : Nat :=
  if statusAt env n 0 ≠ ESP_ERR_TIMEOUT then 1
  else if statusAt env n 1 ≠ ESP_ERR_TIMEOUT then 2
  else if statusAt env n 2 ≠ ESP_ERR_TIMEOUT then 3
  else 4

/-- The first status among the four answers from `n` on that is not a
timeout; the fourth answer when the first three are timeouts. -/
def firstNonTimeoutOfFour (env : Env) (n : Nat) : esp_err_t :=
  if statusAt env n 0 ≠ ESP_ERR_TIMEOUT then statusAt env n 0
  else if statusAt env n 1 ≠ ESP_ERR_TIMEOUT then statusAt env n 1
  else if statusAt env n 2 ≠ ESP_ERR_TIMEOUT then statusAt env n 2
  else statusAt env n 3

/-- The first status in `sts` that is not a timeout; timeout when there is
none. -/
def firstNonTimeout (sts : List esp_err_t) : esp_err_t :=
  (sts.find? (fun s => decide (s ≠ ESP_ERR_TIMEOUT))).getD ESP_ERR_TIMEOUT

/-- The chronological events of one run of the retry engine that starts
after `l` lookups and `n` transport answers, `xev s` being the event of one
invocation answered with status `s`. -/
def retryEvents (env : Env) (port : Nat) (xev : esp_err_t → Event) (l n : Nat) : List Event :=
  xev (statusAt env n 0) ::
    (if statusAt env n 0 ≠ ESP_ERR_TIMEOUT then [] else
      resetEvents env port l ++ Event.delay (env.pdMS_TO_TICKS 2) :: xev (statusAt env n 1) ::
        (if statusAt env n 1 ≠ ESP_ERR_TIMEOUT then [] else
          resetEvents env port (l + 1) ++ Event.delay (env.pdMS_TO_TICKS 5) ::
            xev (statusAt env n 2) ::
            (if statusAt env n 2 ≠ ESP_ERR_TIMEOUT then [] else
              resetEvents env port (l + 2) ++ Event.delay (env.pdMS_TO_TICKS 10) ::
                [xev (statusAt env n 3)])))

/-- Buffer after the receive answered by transport answer `i`. -/
def rxFill (env : Env) (len : Nat) (buf : List Nat) (i : Nat) : List Nat :=
  fillBuffer buf (((env.xfer i).data.take len).map (· % 256))

/-- Buffer after one run of the retry engine on a receive that starts at
transport answer `n`. -/
def retryBuffer (env : Env) (len : Nat) (buf : List Nat) (n : Nat) : List Nat :=
  if statusAt env n 0 ≠ ESP_ERR_TIMEOUT then rxFill env len buf n
  else if statusAt env n 1 ≠ ESP_ERR_TIMEOUT then rxFill env len (rxFill env len buf n) (n + 1)
  else if statusAt env n 2 ≠ ESP_ERR_TIMEOUT then
    rxFill env len (rxFill env len (rxFill env len buf n) (n + 1)) (n + 2)
  else rxFill env len (rxFill env len (rxFill env len (rxFill env len buf n) (n + 1)) (n + 2)) (n + 3)

/-- One call of the register interface of a device. -/
inductive RegOp where
  | read_input
  | write_output (value : Nat)
  | read_output
  | write_direction (value : Nat)
  | read_direction
  | reset
deriving DecidableEq, Repr

/-- The 16-bit device executes one call of its register interface. -/
def tca95xx_16bit.step (env : Env) (op : RegOp)
    (tca : tca95xx_16bit.esp_io_expander_tca95xx_16bit_t) (w : World) :
    esp_err_t × tca95xx_16bit.esp_io_expander_tca95xx_16bit_t × World :=
  match op with
  | .read_input => ((tca95xx_16bit.read_input_reg env tca w).1, tca,
                    (tca95xx_16bit.read_input_reg env tca w).2.2)
  | .write_output v => tca95xx_16bit.write_output_reg env tca v w
  | .read_output => ((tca95xx_16bit.read_output_reg tca).1, tca, w)
  | .write_direction v => tca95xx_16bit.write_direction_reg env tca v w
  | .read_direction => ((tca95xx_16bit.read_direction_reg tca).1, tca, w)
  | .reset => tca95xx_16bit.reset env tca w

/-- The 16-bit device executes a sequence of calls, in order. -/
def tca95xx_16bit.run (env : Env) :
    List RegOp → tca95xx_16bit.esp_io_expander_tca95xx_16bit_t → World →
      tca95xx_16bit.esp_io_expander_tca95xx_16bit_t × World
  | [], tca, w => (tca, w)
  | op :: ops, tca, w =>
    tca95xx_16bit.run env ops (tca95xx_16bit.step env op tca w).2.1
      (tca95xx_16bit.step env op tca w).2.2

/-- The 8-bit device executes one call of its register interface. -/
def ht8574.step (env : Env) (op : RegOp) (ht : ht8574.esp_io_expander_ht8574_t) (w : World) :
    esp_err_t × ht8574.esp_io_expander_ht8574_t × World :=
  match op with
  | .read_input => ((ht8574.read_input_reg env ht w).1, ht, (ht8574.read_input_reg env ht w).2.2)
  | .write_output v => ht8574.write_output_reg env ht v w
  | .read_output => ((ht8574.read_output_reg ht).1, ht, w)
  | .write_direction v => ht8574.write_direction_reg ht v w
  | .read_direction => ((ht8574.read_direction_reg ht).1, ht, w)
  | .reset => ht8574.reset env ht w

/-- The 8-bit device executes a sequence of calls, in order; the first
component is the log of the calls with the status each reported. -/
def ht8574.run (env : Env) :
    List RegOp → ht8574.esp_io_expander_ht8574_t → World →
      List (RegOp × esp_err_t) × ht8574.esp_io_expander_ht8574_t × World
  | [], ht, w => ([], ht, w)
  | op :: ops, ht, w =>
    let r := ht8574.run env ops (ht8574.step env op ht w).2.1 (ht8574.step env op ht w).2.2
    ((op, (ht8574.step env op ht w).1) :: r.1, r.2.1, r.2.2)

/-- Bookkeeping of the value last written with success to register `reg` of
the 16-bit device `dev`: a successful three-byte transmit to that register
replaces the value by `low | (high << 8)`, every other event keeps it. -/
def noteWrite16 (dev : Option Nat) (reg : Nat) (acc : Option Nat) (e : Event) : Option Nat :=
  match e with
  | .transmit d [r, lo, hi] _ st =>
    if d = dev ∧ r = reg ∧ st = ESP_OK then some (lo ||| (hi <<< 8)) else acc
  | _ => acc

/-- The value last written with success to register `reg` of the 16-bit
device `dev` in the events `evs`; `none` when there was no such write. -/
def lastWritten16 (dev : Option Nat) (reg : Nat) (evs : List Event) : Option Nat :=
  evs.foldl (noteWrite16 dev reg) none

/-- Bookkeeping of the byte last written with success to the 8-bit device
`dev`: a successful one-byte transmit replaces it. -/
def noteWrite8 (dev : Option Nat) (acc : Option Nat) (e : Event) : Option Nat :=
  match e with
  | .transmit d [b] _ st => if d = dev ∧ st = ESP_OK then some b else acc
  | _ => acc

/-- The byte last written with success to the 8-bit device `dev` in the
events `evs`; `none` when there was no such write. -/
def lastWritten8 (dev : Option Nat) (evs : List Event) : Option Nat :=
  evs.foldl (noteWrite8 dev) none

/-- Bookkeeping of the direction value last written with success through
the register interface of the 8-bit device: a `write_direction` call that
reported success replaces it by the masked value. -/
def noteDirection (acc : Option Nat) (x : RegOp × esp_err_t) : Option Nat :=
  match x with
  | (RegOp.write_direction v, st) => if st = ESP_OK then some (v &&& 0xff) else acc
  | _ => acc

/-- The masked value of the last `write_direction` call in the log that
reported success; `none` when there was none. -/
def lastDirectionWrite (log : List (RegOp × esp_err_t)) : Option Nat :=
  log.foldl noteDirection none

/-- The events `evs` account for the caches of the 16-bit device going from
those of `a` to those of `b`: for each of the two registers, either the last
successful write in `evs` carries the value `b` caches, or `evs` hold no
successful write to it and `b` caches what `a` cached. -/
def Accounts16 (a b : tca95xx_16bit.esp_io_expander_tca95xx_16bit_t) (evs : List Event) : Prop :=
  b.i2c_dev = a.i2c_dev ∧
  (∀ acc, evs.foldl (noteWrite16 a.i2c_dev tca95xx_16bit.OUTPUT_REG_ADDR) acc = some b.output ∨
    (evs.foldl (noteWrite16 a.i2c_dev tca95xx_16bit.OUTPUT_REG_ADDR) acc = acc ∧
      b.output = a.output)) ∧
  (∀ acc, evs.foldl (noteWrite16 a.i2c_dev tca95xx_16bit.DIRECTION_REG_ADDR) acc =
      some b.direction ∨
    (evs.foldl (noteWrite16 a.i2c_dev tca95xx_16bit.DIRECTION_REG_ADDR) acc = acc ∧
      b.direction = a.direction))

/-- Event test: a detach of a device from the transport. -/
def Event.isRmDevice : Event → Bool
  | .rmDevice _ => true
  | _ => false

/-- Event test: an attach of a device to the transport. -/
def Event.isAddDevice : Event → Bool
  | .addDevice _ _ _ => true
  | _ => false

/-- The ticks an event sleeps: those of a `vTaskDelay`, zero otherwise. -/
def Event.sleepTicks : Event → Nat
  | .delay t => t
  | _ => 0

/-- The `uint32_t` an `int` converts to. In ESP-IDF the field
`scl_speed_hz` of `i2c_device_config_t` is a `uint32_t`, so this is what the
transport reads from the field after the `(int)` cast of the source. -/
def asUint32 (x : Int) : Nat := (x % 2 ^ 32).toNat

/-- The retry schedule written as a loop: for every backoff `ms` of the
schedule one round made of an invocation that timed out, the events of
`reset_i2c_bus_on_timeout` and the sleep of `pdMS_TO_TICKS ms` ticks, in this
order; `l` counts the bus lookups made before. -/
def backoffRounds (env : Env) (port : Nat) (xev : esp_err_t → Event) (l : Nat) :
    List Nat → List Event
  | [] => []
  | ms :: rest =>
    xev ESP_ERR_TIMEOUT ::
      (resetEvents env port l ++
        Event.delay (env.pdMS_TO_TICKS ms) :: backoffRounds env port xev (l + 1) rest)

/-- One call of the bridge interface of `esp_expander_i2c_ng.c`. -/
inductive BridgeCall where
  | init_from_legacy_config (port : Nat) (cfg : Option i2c_config_t)
  | get_speed_hz (port : Nat)
  | add_device (port addr7 : Nat) (out_nonnull : Bool)
  | deinit (port : Nat)

/-- The state after one call of the bridge interface. -/
def BridgeCall.exec (env : Env) (c : BridgeCall) (w : World) : World :=
  match c with
  | .init_from_legacy_config port cfg =>
    (esp_expander_i2c_ng_init_from_legacy_config env port cfg w).2
  | .get_speed_hz _ => w
  | .add_device port addr7 nn => (esp_expander_i2c_ng_add_device env port addr7 nn none w).2.2
  | .deinit port => (esp_expander_i2c_ng_deinit port w).2

/-- The state after a sequence of calls of the bridge interface, in order. -/
def runBridge (env : Env) : List BridgeCall → World → World
  | [], w => w
  | c :: cs, w => runBridge env cs (c.exec env w)

/-- The speed a call records for port `p`: the clock speed of a non-null
master-mode configuration given to `init_from_legacy_config` for that port,
the port being in range; `none` for every other call. -/
def BridgeCall.recorded (env : Env) (p : Nat) : BridgeCall → Option Nat
  | .init_from_legacy_config port (some cfg) =>
    if port = p ∧ port < env.I2C_NUM_MAX ∧ cfg.mode = I2C_MODE_MASTER then some cfg.clk_speed
    else none
  | _ => none

/-- The speed last recorded for port `p` by a sequence of calls; `none`
when none of them records one. -/
def lastRecorded (env : Env) (p : Nat) (calls : List BridgeCall) : Option Nat :=
  calls.foldl (fun acc c => match c.recorded env p with
    | some s => some s
    | none => acc) none

/-! ## Concrete environments for evaluation -/

/-- A platform with two ports and a 1 kHz tick whose transport answers the
statuses `sts` in order (success afterwards), delivering the bytes `0x34 0x12`
to every receive; the bus handle is `7` when `live`. -/
def scriptedEnv (sts : List esp_err_t) (live : Bool) : Env :=
  { I2C_NUM_MAX := 2
    pdMS_TO_TICKS := fun ms => ms
    busHandle := fun _ _ => if live then some 7 else none
    xfer := fun i => { status := sts.getD i ESP_OK, data := [0x34, 0x12] }
    attach := fun i => { status := ESP_OK, dev := 40 + i }
    allocOk := fun _ => true
    initOk := fun _ => true }

/-- The state before any call was made. -/
def bootWorld : World :=
  { lookups := 0, xfers := 0, attaches := 0, allocs := 0, inits := 0, attached := [],
    s_port_speed_hz := fun _ => 0, trace := [] }

/-- A transport that answers success to the two writes of a construction,
then four timeouts, then success. -/
def flakyEnv : Env :=
  scriptedEnv [ESP_OK, ESP_OK, ESP_ERR_TIMEOUT, ESP_ERR_TIMEOUT, ESP_ERR_TIMEOUT,
    ESP_ERR_TIMEOUT] true

/-- A failed output write followed by a successful direction write. -/
def flakyOps : List RegOp := [RegOp.write_output 0x1234, RegOp.write_direction 0x100F0]

/-- A 16-bit device as a successful construction on port 0 leaves it. -/
def sampleTca : tca95xx_16bit.esp_io_expander_tca95xx_16bit_t :=
  { io_count := 16, dir_out_bit_zero := 1, i2c_num := 0, i2c_address := 0x21,
    i2c_dev := some 40, direction := 0xFFFF, output := 0xFFFF }

/-- An 8-bit device as a successful construction on port 0 leaves it. -/
def sampleHt : ht8574.esp_io_expander_ht8574_t :=
  { io_count := 8, dir_out_bit_zero := 1, i2c_num := 0, i2c_address := 0x20,
    i2c_dev := some 40, direction := 0, output := 0xFF }

/-- A legacy master-mode configuration at 400 kHz. -/
def sampleMasterCfg : i2c_config_t :=
  { mode := I2C_MODE_MASTER, sda_io_num := 21, scl_io_num := 22, clk_speed := 400000 }

/-- A legacy configuration at 400 kHz whose mode is not master. -/
def sampleSlaveCfg : i2c_config_t :=
  { mode := 0, sda_io_num := 21, scl_io_num := 22, clk_speed := 400000 }

/-- A platform like `scriptedEnv [] true` on which `i2cInit` fails. -/
def failingInitEnv : Env :=
  { scriptedEnv [] true with initOk := fun _ => false }

/-! ## Auxiliary facts -/

theorem newEvents_append (w w' : World) (evs : List Event) (h : w'.trace = w.trace ++ evs) :
    newEvents w w' = evs := by
  simp [newEvents, h]

theorem newEvents_mk (w : World) (a b c d e : Nat) (f : List Nat) (g : Nat → Nat)
    (evs : List Event) :
    newEvents w { lookups := a, xfers := b, attaches := c, allocs := d, inits := e,
                  attached := f, s_port_speed_hz := g, trace := w.trace ++ evs } = evs := by
  simp [newEvents]

theorem newEvents_self (w : World) : newEvents w w = [] := by
  simp [newEvents]

theorem reset_i2c_bus_on_timeout_eq (env : Env) (port : Nat) (w : World) :
    tca95xx_16bit.reset_i2c_bus_on_timeout env port w =
      { w with lookups := w.lookups + 1, trace := w.trace ++ resetEvents env port w.lookups } := by
  unfold tca95xx_16bit.reset_i2c_bus_on_timeout resetEvents i2cBusHandle
  cases h : env.busHandle w.lookups (port % 256) <;> simp [i2c_master_bus_reset]

theorem retry_tx_eq (env : Env) (port : Nat) (c : tca95xx_16bit.i2c_tx_ctx_t) (w : World) :
    tca95xx_16bit.retry_i2c_op_if_timeout env port (tca95xx_16bit.i2c_tx_op env) c w =
      (firstNonTimeoutOfFour env w.xfers, c,
       { w with lookups := w.lookups + (retryAttempts env w.xfers - 1),
                xfers := w.xfers + retryAttempts env w.xfers,
                trace := w.trace ++ retryEvents env port
                  (Event.transmit c.dev (c.data.take c.len) tca95xx_16bit.I2C_TIMEOUT_MS)
                  w.lookups w.xfers }) := by
  unfold firstNonTimeoutOfFour retryAttempts retryEvents
  by_cases h0 : statusAt env w.xfers 0 = ESP_ERR_TIMEOUT
  · by_cases h1 : statusAt env w.xfers 1 = ESP_ERR_TIMEOUT
    · by_cases h2 : statusAt env w.xfers 2 = ESP_ERR_TIMEOUT
      · simp [statusAt] at h0 h1 h2
        simp [tca95xx_16bit.retry_i2c_op_if_timeout, tca95xx_16bit.i2c_tx_op, i2c_master_transmit,
          tca95xx_16bit.retry_if_timeout, vTaskDelay, reset_i2c_bus_on_timeout_eq, statusAt, h0, h1, h2,
          Nat.add_assoc]
      · simp [statusAt] at h0 h1 h2
        simp [tca95xx_16bit.retry_i2c_op_if_timeout, tca95xx_16bit.i2c_tx_op, i2c_master_transmit,
          tca95xx_16bit.retry_if_timeout, vTaskDelay, reset_i2c_bus_on_timeout_eq, statusAt, h0, h1, h2,
          Nat.add_assoc]
    · simp [statusAt] at h0 h1
      simp [tca95xx_16bit.retry_i2c_op_if_timeout, tca95xx_16bit.i2c_tx_op, i2c_master_transmit,
        tca95xx_16bit.retry_if_timeout, vTaskDelay, reset_i2c_bus_on_timeout_eq, statusAt, h0, h1,
        Nat.add_assoc]
  · simp [statusAt] at h0
    simp [tca95xx_16bit.retry_i2c_op_if_timeout, tca95xx_16bit.i2c_tx_op, i2c_master_transmit,
      tca95xx_16bit.retry_if_timeout, vTaskDelay, reset_i2c_bus_on_timeout_eq, statusAt, h0]

theorem retry_rx_eq (env : Env) (port : Nat) (c : tca95xx_16bit.i2c_rx_ctx_t) (w : World) :
    tca95xx_16bit.retry_i2c_op_if_timeout env port (tca95xx_16bit.i2c_rx_op env) c w =
      (firstNonTimeoutOfFour env w.xfers, { c with data := retryBuffer env c.len c.data w.xfers },
       { w with lookups := w.lookups + (retryAttempts env w.xfers - 1),
                xfers := w.xfers + retryAttempts env w.xfers,
                trace := w.trace ++ retryEvents env port
                  (Event.receive c.dev c.len tca95xx_16bit.I2C_TIMEOUT_MS)
                  w.lookups w.xfers }) := by
  unfold firstNonTimeoutOfFour retryAttempts retryEvents retryBuffer
  by_cases h0 : statusAt env w.xfers 0 = ESP_ERR_TIMEOUT
  · by_cases h1 : statusAt env w.xfers 1 = ESP_ERR_TIMEOUT
    · by_cases h2 : statusAt env w.xfers 2 = ESP_ERR_TIMEOUT
      · simp [statusAt] at h0 h1 h2
        simp [tca95xx_16bit.retry_i2c_op_if_timeout, tca95xx_16bit.i2c_rx_op, i2c_master_receive,
          tca95xx_16bit.retry_if_timeout, vTaskDelay, reset_i2c_bus_on_timeout_eq, statusAt, h0, h1, h2,
          Nat.add_assoc, rxFill]
      · simp [statusAt] at h0 h1 h2
        simp [tca95xx_16bit.retry_i2c_op_if_timeout, tca95xx_16bit.i2c_rx_op, i2c_master_receive,
          tca95xx_16bit.retry_if_timeout, vTaskDelay, reset_i2c_bus_on_timeout_eq, statusAt, h0, h1, h2,
          Nat.add_assoc, rxFill]
    · simp [statusAt] at h0 h1
      simp [tca95xx_16bit.retry_i2c_op_if_timeout, tca95xx_16bit.i2c_rx_op, i2c_master_receive,
        tca95xx_16bit.retry_if_timeout, vTaskDelay, reset_i2c_bus_on_timeout_eq, statusAt, h0, h1,
        Nat.add_assoc, rxFill]
  · simp [statusAt] at h0
    simp [tca95xx_16bit.retry_i2c_op_if_timeout, tca95xx_16bit.i2c_rx_op, i2c_master_receive,
      tca95xx_16bit.retry_if_timeout, vTaskDelay, reset_i2c_bus_on_timeout_eq, statusAt, h0, rxFill]

theorem ESP_OK_ne_TIMEOUT : ESP_OK ≠ ESP_ERR_TIMEOUT := by decide

theorem resetEvents_countP_isXfer (env : Env) (port l : Nat) :
    (resetEvents env port l).countP Event.isXfer = 0 := by
  unfold resetEvents
  cases env.busHandle l (port % 256) <;> simp [Event.isXfer]

theorem resetEvents_countP_isDelay (env : Env) (port l : Nat) :
    (resetEvents env port l).countP Event.isDelay = 0 := by
  unfold resetEvents
  cases env.busHandle l (port % 256) <;> simp [Event.isDelay]

theorem resetEvents_countP_isReset (env : Env) (port l : Nat) :
    (resetEvents env port l).countP Event.isReset =
      if (env.busHandle l (port % 256)).isSome then 1 else 0 := by
  unfold resetEvents
  cases env.busHandle l (port % 256) <;> simp [Event.isReset]

theorem isXfer_delay (t : Nat) : (Event.delay t).isXfer = false := rfl

theorem isReset_delay (t : Nat) : (Event.delay t).isReset = false := rfl

theorem isDelay_delay (t : Nat) : (Event.delay t).isDelay = true := rfl

theorem retryEvents_countP_isXfer (env : Env) (port : Nat) (xev : esp_err_t → Event) (l n : Nat)
    (hx : ∀ s, (xev s).isXfer = true) :
    (retryEvents env port xev l n).countP Event.isXfer = retryAttempts env n := by
  unfold retryEvents retryAttempts
  split_ifs <;>
    simp [List.countP_cons, List.countP_append, resetEvents_countP_isXfer, hx, isXfer_delay]

theorem retryEvents_countP_isReset_le (env : Env) (port : Nat) (xev : esp_err_t → Event)
    (l n : Nat) (hx : ∀ s, (xev s).isReset = false) :
    (retryEvents env port xev l n).countP Event.isReset ≤ retryAttempts env n - 1 := by
  unfold retryEvents retryAttempts
  split_ifs <;>
    simp [List.countP_cons, List.countP_append, resetEvents_countP_isReset, hx, isReset_delay] <;>
    split_ifs <;> omega

theorem retryEvents_countP_isReset_live (env : Env) (port : Nat) (xev : esp_err_t → Event)
    (l n : Nat) (hx : ∀ s, (xev s).isReset = false)
    (hbus : ∀ j, (env.busHandle j (port % 256)).isSome = true) :
    (retryEvents env port xev l n).countP Event.isReset = retryAttempts env n - 1 := by
  unfold retryEvents retryAttempts
  split_ifs <;>
    simp [List.countP_cons, List.countP_append, resetEvents_countP_isReset, hx, isReset_delay, hbus]

theorem retryEvents_countP_isReset_dead (env : Env) (port : Nat) (xev : esp_err_t → Event)
    (l n : Nat) (hx : ∀ s, (xev s).isReset = false)
    (hbus : ∀ j, env.busHandle j (port % 256) = none) :
    (retryEvents env port xev l n).countP Event.isReset = 0 := by
  unfold retryEvents
  split_ifs <;>
    simp [List.countP_cons, List.countP_append, resetEvents_countP_isReset, hx, isReset_delay, hbus]

theorem getLast?_cons_append_two (a x y : Event) (l : List Event) :
    (a :: (l ++ [x, y])).getLast? = some y := by
  have : a :: (l ++ [x, y]) = (a :: l ++ [x]) ++ [y] := by simp
  rw [this, List.getLast?_concat]

theorem retryEvents_last (env : Env) (port : Nat) (xev : esp_err_t → Event) (l n : Nat) :
    (retryEvents env port xev l n).getLast? = some (xev (firstNonTimeoutOfFour env n)) := by
  unfold retryEvents firstNonTimeoutOfFour
  split_ifs
  · simp
  · exact getLast?_cons_append_two _ _ _ _
  · have : ∀ (a b c d e : Event) (l m : List Event),
        a :: (l ++ b :: c :: (m ++ [d, e])) = a :: ((l ++ b :: c :: m) ++ [d, e]) := by simp
    rw [this]
    exact getLast?_cons_append_two _ _ _ _
  · have : ∀ (a b c d e f g : Event) (l m k : List Event),
        a :: (l ++ b :: c :: (m ++ d :: e :: (k ++ [f, g]))) =
          a :: ((l ++ b :: c :: (m ++ d :: e :: k)) ++ [f, g]) := by simp
    rw [this]
    exact getLast?_cons_append_two _ _ _ _

theorem retryAttempts_of_leading (env : Env) (n k : Nat) (hk : k ≤ 4)
    (hto : ∀ i, i < k → (env.xfer (n + i)).status = ESP_ERR_TIMEOUT)
    (hok : k < 4 → (env.xfer (n + k)).status = ESP_OK) :
    retryAttempts env n = min (k + 1) 4 := by
  have h0 := hto 0
  have h1 := hto 1
  have h2 := hto 2
  have h3 := hto 3
  interval_cases k <;>
    simp [retryAttempts, statusAt, ESP_OK_ne_TIMEOUT] at * <;>
    simp [*, ESP_OK_ne_TIMEOUT]

theorem isXfer_transmit (d : Option Nat) (bs : List Nat) (t : Nat) (s : esp_err_t) :
    (Event.transmit d bs t s).isXfer = true := rfl

theorem isXfer_receive (d : Option Nat) (n t : Nat) (s : esp_err_t) :
    (Event.receive d n t s).isXfer = true := rfl

theorem isReset_transmit (d : Option Nat) (bs : List Nat) (t : Nat) (s : esp_err_t) :
    (Event.transmit d bs t s).isReset = false := rfl

theorem isReset_receive (d : Option Nat) (n t : Nat) (s : esp_err_t) :
    (Event.receive d n t s).isReset = false := rfl

/-! ## The retry engine -/

open tca95xx_16bit in
/-- C1: on a port whose bus handle is live, when the transport times out on
exactly the first `k` invocations (`k ≤ 4`) and then succeeds (for `k = 4`: the
four invocations all time out), the retry engine invokes the operation exactly
`min (k + 1) 4` times and issues exactly `min k 3` bus resets; this holds for the
transmit and for the receive operation. -/
theorem C1_retry_invocations_and_resets (env : Env) (port : Nat) (w : World) (k : Nat)
    (hk : k ≤ 4)
    (hbus : ∀ n, (env.busHandle n (port % 256)).isSome = true)
    (hto : ∀ i, i < k → (env.xfer (w.xfers + i)).status = ESP_ERR_TIMEOUT)
    (hok : k < 4 → (env.xfer (w.xfers + k)).status = ESP_OK) :
    (∀ c : i2c_tx_ctx_t,
      (newEvents w (retry_i2c_op_if_timeout env port (i2c_tx_op env) c w).2.2).countP
          Event.isXfer = min (k + 1) 4 ∧
      (retry_i2c_op_if_timeout env port (i2c_tx_op env) c w).2.2.xfers = w.xfers + min (k + 1) 4 ∧
      (newEvents w (retry_i2c_op_if_timeout env port (i2c_tx_op env) c w).2.2).countP
          Event.isReset = min k 3) ∧
    (∀ c : i2c_rx_ctx_t,
      (newEvents w (retry_i2c_op_if_timeout env port (i2c_rx_op env) c w).2.2).countP
          Event.isXfer = min (k + 1) 4 ∧
      (retry_i2c_op_if_timeout env port (i2c_rx_op env) c w).2.2.xfers = w.xfers + min (k + 1) 4 ∧
      (newEvents w (retry_i2c_op_if_timeout env port (i2c_rx_op env) c w).2.2).countP
          Event.isReset = min k 3) := by
  have hA := retryAttempts_of_leading env w.xfers k hk hto hok
  have hm : min (k + 1) 4 - 1 = min k 3 := by omega
  constructor
  · intro c
    rw [retry_tx_eq, newEvents_append _ _ _ rfl,
      retryEvents_countP_isXfer _ _ _ _ _ (isXfer_transmit _ _ _),
      retryEvents_countP_isReset_live _ _ _ _ _ (isReset_transmit _ _ _) hbus, hA, hm]
    exact ⟨rfl, rfl, rfl⟩
  · intro c
    rw [retry_rx_eq, newEvents_append _ _ _ rfl,
      retryEvents_countP_isXfer _ _ _ _ _ (isXfer_receive _ _ _),
      retryEvents_countP_isReset_live _ _ _ _ _ (isReset_receive _ _ _) hbus, hA, hm]
    exact ⟨rfl, rfl, rfl⟩

open tca95xx_16bit in
/-- Witness of C1: two timeouts then success on a live bus give three
invocations and two resets. -/
theorem C1_retry_invocations_and_resets_witness :
    (newEvents bootWorld (retry_i2c_op_if_timeout
        (scriptedEnv [ESP_ERR_TIMEOUT, ESP_ERR_TIMEOUT] true) 0
        (i2c_tx_op (scriptedEnv [ESP_ERR_TIMEOUT, ESP_ERR_TIMEOUT] true))
        { dev := some 40, data := [2, 255, 255], len := 3 } bootWorld).2.2).countP
      Event.isXfer = 3 ∧
    (newEvents bootWorld (retry_i2c_op_if_timeout
        (scriptedEnv [ESP_ERR_TIMEOUT, ESP_ERR_TIMEOUT] true) 0
        (i2c_tx_op (scriptedEnv [ESP_ERR_TIMEOUT, ESP_ERR_TIMEOUT] true))
        { dev := some 40, data := [2, 255, 255], len := 3 } bootWorld).2.2).countP
      Event.isReset = 2 :=
  have h := (C1_retry_invocations_and_resets
    (scriptedEnv [ESP_ERR_TIMEOUT, ESP_ERR_TIMEOUT] true) 0 bootWorld 2 (by decide)
    (fun _ => rfl)
    (fun i hi => by
      have : i = 0 ∨ i = 1 := by omega
      rcases this with rfl | rfl <;> rfl)
    (fun _ => rfl)).1 { dev := some 40, data := [2, 255, 255], len := 3 }
  ⟨h.1, h.2.2⟩

open tca95xx_16bit in
/-- C2: when the first invocation answers a failure status other than
timeout, the retry engine invokes the operation exactly once, issues no bus
reset, does not sleep (the invocation is the only event of the call) and hands
that status back; this holds for the transmit and for the receive operation. -/
theorem C2_retry_other_failure_not_retried (env : Env) (port : Nat) (w : World)
    (hfail : (env.xfer w.xfers).status ≠ ESP_OK)
    (hnt : (env.xfer w.xfers).status ≠ ESP_ERR_TIMEOUT) :
    (∀ c : i2c_tx_ctx_t,
      let r := retry_i2c_op_if_timeout env port (i2c_tx_op env) c w
      r.1 = (env.xfer w.xfers).status ∧ r.1 ≠ ESP_OK ∧
      (newEvents w r.2.2).countP Event.isXfer = 1 ∧
      (newEvents w r.2.2).countP Event.isReset = 0 ∧
      (newEvents w r.2.2).countP Event.isDelay = 0 ∧
      (newEvents w r.2.2).length = 1 ∧ r.2.2.xfers = w.xfers + 1) ∧
    (∀ c : i2c_rx_ctx_t,
      let r := retry_i2c_op_if_timeout env port (i2c_rx_op env) c w
      r.1 = (env.xfer w.xfers).status ∧ r.1 ≠ ESP_OK ∧
      (newEvents w r.2.2).countP Event.isXfer = 1 ∧
      (newEvents w r.2.2).countP Event.isReset = 0 ∧
      (newEvents w r.2.2).countP Event.isDelay = 0 ∧
      (newEvents w r.2.2).length = 1 ∧ r.2.2.xfers = w.xfers + 1) := by
  have h0 : statusAt env w.xfers 0 ≠ ESP_ERR_TIMEOUT := by simpa [statusAt] using hnt
  have hE : ∀ xev, retryEvents env port xev w.lookups w.xfers = [xev (statusAt env w.xfers 0)] := by
    intro xev
    simp [retryEvents, h0]
  have hF : firstNonTimeoutOfFour env w.xfers = (env.xfer w.xfers).status := by
    simp [firstNonTimeoutOfFour, h0]
    simp [statusAt]
  have hA : retryAttempts env w.xfers = 1 := by simp [retryAttempts, h0]
  constructor
  · intro c
    simp only [retry_tx_eq, newEvents_mk, hE, hF, hA]
    simp [isXfer_transmit, hfail, Event.isReset, Event.isDelay]
  · intro c
    simp only [retry_rx_eq, newEvents_mk, hE, hF, hA]
    simp [isXfer_receive, hfail, Event.isReset, Event.isDelay]

open tca95xx_16bit in
/-- Witness of C2: a first answer `ESP_FAIL` is handed back with no reset. -/
theorem C2_retry_other_failure_not_retried_witness :
    (retry_i2c_op_if_timeout (scriptedEnv [ESP_FAIL] true) 0
        (i2c_tx_op (scriptedEnv [ESP_FAIL] true))
        { dev := some 40, data := [2, 255, 255], len := 3 } bootWorld).1 = ESP_FAIL ∧
    (newEvents bootWorld (retry_i2c_op_if_timeout (scriptedEnv [ESP_FAIL] true) 0
        (i2c_tx_op (scriptedEnv [ESP_FAIL] true))
        { dev := some 40, data := [2, 255, 255], len := 3 } bootWorld).2.2).length = 1 :=
  have h := (C2_retry_other_failure_not_retried (scriptedEnv [ESP_FAIL] true) 0 bootWorld
    (by decide) (by decide)).1 { dev := some 40, data := [2, 255, 255], len := 3 }
  ⟨h.1, h.2.2.2.2.2.1⟩

theorem firstNonTimeoutOfFour_eq (env : Env) (n : Nat) :
    firstNonTimeoutOfFour env n =
      firstNonTimeout ((List.range 4).map (fun i => (env.xfer (n + i)).status)) := by
  have hr : List.range 4 = [0, 1, 2, 3] := by decide
  unfold firstNonTimeoutOfFour firstNonTimeout statusAt
  rw [hr]
  simp only [List.map_cons, List.map_nil, List.find?_cons, List.find?_nil, Nat.add_zero]
  by_cases h0 : (env.xfer n).status = ESP_ERR_TIMEOUT
  · by_cases h1 : (env.xfer (n + 1)).status = ESP_ERR_TIMEOUT
    · by_cases h2 : (env.xfer (n + 2)).status = ESP_ERR_TIMEOUT
      · by_cases h3 : (env.xfer (n + 3)).status = ESP_ERR_TIMEOUT
        · simp [h0, h1, h2, h3]
        · simp [h0, h1, h2, h3]
      · simp [h0, h1, h2]
    · simp [h0, h1]
  · simp [h0]

theorem retryAttempts_le (env : Env) (n : Nat) : retryAttempts env n ≤ 4 := by
  unfold retryAttempts
  split_ifs <;> omega

open tca95xx_16bit in
/-- C3: whatever the transport answers, the retry engine hands back the
first status among its first four answers that is not a timeout, and timeout
when all four are timeouts; it invokes the operation at most four times, issues
at most three resets, and the last event of the call is an invocation of the
operation (so nothing, in particular no reset, follows the final attempt);
this holds for the transmit and for the receive operation. -/
theorem C3_retry_returns_first_non_timeout (env : Env) (port : Nat) (w : World) :
    (∀ c : i2c_tx_ctx_t,
      let r := retry_i2c_op_if_timeout env port (i2c_tx_op env) c w
      r.1 = firstNonTimeout ((List.range 4).map (fun i => (env.xfer (w.xfers + i)).status)) ∧
      (newEvents w r.2.2).countP Event.isXfer ≤ 4 ∧
      r.2.2.xfers ≤ w.xfers + 4 ∧
      (newEvents w r.2.2).countP Event.isReset ≤ 3 ∧
      (newEvents w r.2.2).getLast? =
        some (Event.transmit c.dev (c.data.take c.len) I2C_TIMEOUT_MS r.1)) ∧
    (∀ c : i2c_rx_ctx_t,
      let r := retry_i2c_op_if_timeout env port (i2c_rx_op env) c w
      r.1 = firstNonTimeout ((List.range 4).map (fun i => (env.xfer (w.xfers + i)).status)) ∧
      (newEvents w r.2.2).countP Event.isXfer ≤ 4 ∧
      r.2.2.xfers ≤ w.xfers + 4 ∧
      (newEvents w r.2.2).countP Event.isReset ≤ 3 ∧
      (newEvents w r.2.2).getLast? = some (Event.receive c.dev c.len I2C_TIMEOUT_MS r.1)) := by
  have hA := retryAttempts_le env w.xfers
  constructor
  · intro c
    have hR := retryEvents_countP_isReset_le env port
      (Event.transmit c.dev (c.data.take c.len) I2C_TIMEOUT_MS) w.lookups w.xfers
      (isReset_transmit _ _ _)
    simp only [retry_tx_eq, newEvents_mk, retryEvents_last,
      retryEvents_countP_isXfer _ _ _ _ _ (isXfer_transmit _ _ _)]
    exact ⟨firstNonTimeoutOfFour_eq env w.xfers, hA, by omega, by omega, trivial⟩
  · intro c
    have hR := retryEvents_countP_isReset_le env port
      (Event.receive c.dev c.len I2C_TIMEOUT_MS) w.lookups w.xfers
      (isReset_receive _ _ _)
    simp only [retry_rx_eq, newEvents_mk, retryEvents_last,
      retryEvents_countP_isXfer _ _ _ _ _ (isXfer_receive _ _ _)]
    exact ⟨firstNonTimeoutOfFour_eq env w.xfers, hA, by omega, by omega, trivial⟩

/-! ## Cached registers -/

theorem and_ffff (v : Nat) : v &&& 0xffff = v % 65536 :=
  Nat.and_pow_two_sub_one_eq_mod v 16

theorem and_ff (v : Nat) : v &&& 0xff = v % 256 :=
  Nat.and_pow_two_sub_one_eq_mod v 8

theorem tca_write_output_reg_ok (env : Env) (tca : tca95xx_16bit.esp_io_expander_tca95xx_16bit_t)
    (v : Nat) (w : World) (h : (tca95xx_16bit.write_output_reg env tca v w).1 = ESP_OK) :
    (tca95xx_16bit.write_output_reg env tca v w).2.1 = { tca with output := v % 65536 } := by
  simp only [tca95xx_16bit.write_output_reg, retry_tx_eq] at h ⊢
  split at h
  · rename_i hne
    exact absurd h hne
  · rename_i hne
    rw [if_neg hne]
    simp [and_ffff]

theorem tca_write_output_reg_fail (env : Env)
    (tca : tca95xx_16bit.esp_io_expander_tca95xx_16bit_t)
    (v : Nat) (w : World) (h : (tca95xx_16bit.write_output_reg env tca v w).1 ≠ ESP_OK) :
    (tca95xx_16bit.write_output_reg env tca v w).2.1 = tca := by
  simp only [tca95xx_16bit.write_output_reg, retry_tx_eq] at h ⊢
  split at h
  · rename_i hne
    rw [if_pos hne]
  · exact absurd rfl h

theorem tca_write_direction_reg_ok (env : Env)
    (tca : tca95xx_16bit.esp_io_expander_tca95xx_16bit_t)
    (v : Nat) (w : World) (h : (tca95xx_16bit.write_direction_reg env tca v w).1 = ESP_OK) :
    (tca95xx_16bit.write_direction_reg env tca v w).2.1 = { tca with direction := v % 65536 } := by
  simp only [tca95xx_16bit.write_direction_reg, retry_tx_eq] at h ⊢
  split at h
  · rename_i hne
    exact absurd h hne
  · rename_i hne
    rw [if_neg hne]
    simp [and_ffff]

theorem tca_write_direction_reg_fail (env : Env)
    (tca : tca95xx_16bit.esp_io_expander_tca95xx_16bit_t)
    (v : Nat) (w : World) (h : (tca95xx_16bit.write_direction_reg env tca v w).1 ≠ ESP_OK) :
    (tca95xx_16bit.write_direction_reg env tca v w).2.1 = tca := by
  simp only [tca95xx_16bit.write_direction_reg, retry_tx_eq] at h ⊢
  split at h
  · rename_i hne
    rw [if_pos hne]
  · exact absurd rfl h

theorem ht_write_output_reg_ok (env : Env) (ht : ht8574.esp_io_expander_ht8574_t)
    (v : Nat) (w : World) (h : (ht8574.write_output_reg env ht v w).1 = ESP_OK) :
    (ht8574.write_output_reg env ht v w).2.1 = { ht with output := v % 256 } := by
  simp only [ht8574.write_output_reg, i2c_master_transmit] at h ⊢
  split at h
  · rename_i hne
    exact absurd h hne
  · rename_i hne
    rw [if_neg hne]
    simp [and_ff]

theorem ht_write_output_reg_fail (env : Env) (ht : ht8574.esp_io_expander_ht8574_t)
    (v : Nat) (w : World) (h : (ht8574.write_output_reg env ht v w).1 ≠ ESP_OK) :
    (ht8574.write_output_reg env ht v w).2.1 = ht := by
  simp only [ht8574.write_output_reg, i2c_master_transmit] at h ⊢
  split at h
  · rename_i hne
    rw [if_pos hne]
  · exact absurd rfl h

/-- C4: in both variants, when `write_output_reg v` reports success, the
`read_output_reg` that follows reports success with `v & mask`, the mask being
`0xFFFF` for the 16-bit and `0xFF` for the 8-bit variant; this holds for every
value `v`, so for every 32-bit one. -/
theorem C4_write_output_then_read_output (env : Env) (w : World) (v : Nat) :
    (∀ tca : tca95xx_16bit.esp_io_expander_tca95xx_16bit_t,
      (tca95xx_16bit.write_output_reg env tca v w).1 = ESP_OK →
      tca95xx_16bit.read_output_reg (tca95xx_16bit.write_output_reg env tca v w).2.1 =
        (ESP_OK, v &&& 0xFFFF)) ∧
    (∀ ht : ht8574.esp_io_expander_ht8574_t,
      (ht8574.write_output_reg env ht v w).1 = ESP_OK →
      ht8574.read_output_reg (ht8574.write_output_reg env ht v w).2.1 =
        (ESP_OK, v &&& 0xFF)) := by
  constructor
  · intro tca h
    rw [tca_write_output_reg_ok env tca v w h, and_ffff]
    rfl
  · intro ht h
    rw [ht_write_output_reg_ok env ht v w h, and_ff]
    rfl

/-- Witness of C4: writing `0x12345` to a 16-bit device and `0x1A5` to an
8-bit device over a transport that answers success. -/
theorem C4_write_output_then_read_output_witness :
    tca95xx_16bit.read_output_reg (tca95xx_16bit.write_output_reg (scriptedEnv [] true)
        { io_count := 16, dir_out_bit_zero := 1, i2c_num := 0, i2c_address := 0x21,
          i2c_dev := some 40, direction := 0xFFFF, output := 0xFFFF } 0x12345 bootWorld).2.1 =
      (ESP_OK, 0x12345 &&& 0xFFFF) ∧
    ht8574.read_output_reg (ht8574.write_output_reg (scriptedEnv [] true)
        { io_count := 8, dir_out_bit_zero := 1, i2c_num := 0, i2c_address := 0x20,
          i2c_dev := some 40, direction := 0, output := 0xFF } 0x1A5 bootWorld).2.1 =
      (ESP_OK, 0x1A5 &&& 0xFF) :=
  ⟨(C4_write_output_then_read_output (scriptedEnv [] true) bootWorld 0x12345).1 _ (by decide),
   (C4_write_output_then_read_output (scriptedEnv [] true) bootWorld 0x1A5).2 _ (by decide)⟩

theorem firstNonTimeoutOfFour_all_timeout (env : Env) (n : Nat)
    (h : ∀ i, i < 4 → (env.xfer (n + i)).status = ESP_ERR_TIMEOUT) :
    firstNonTimeoutOfFour env n = ESP_ERR_TIMEOUT := by
  have h0 := h 0 (by omega)
  have h1 := h 1 (by omega)
  have h2 := h 2 (by omega)
  have h3 := h 3 (by omega)
  simp [firstNonTimeoutOfFour, statusAt, h0, h1, h2, h3] at *
  simp [h0]

/-- C5: a write that reports a status other than success leaves the device
structure, hence the output and the direction cache, as it was, so that
`read_output_reg` still reports the value from before the call: for
`write_output_reg` of the 16-bit and of the 8-bit variant and for the 16-bit
`write_direction_reg`. When the four attempts of a 16-bit write all time out
the write reports timeout and is such a failed write. -/
theorem C5_failed_write_keeps_caches (env : Env) (w : World) (v : Nat) :
    (∀ tca : tca95xx_16bit.esp_io_expander_tca95xx_16bit_t,
      (tca95xx_16bit.write_output_reg env tca v w).1 ≠ ESP_OK →
      (tca95xx_16bit.write_output_reg env tca v w).2.1 = tca ∧
      tca95xx_16bit.read_output_reg (tca95xx_16bit.write_output_reg env tca v w).2.1 =
        tca95xx_16bit.read_output_reg tca ∧
      tca95xx_16bit.read_direction_reg (tca95xx_16bit.write_output_reg env tca v w).2.1 =
        tca95xx_16bit.read_direction_reg tca) ∧
    (∀ ht : ht8574.esp_io_expander_ht8574_t,
      (ht8574.write_output_reg env ht v w).1 ≠ ESP_OK →
      (ht8574.write_output_reg env ht v w).2.1 = ht ∧
      ht8574.read_output_reg (ht8574.write_output_reg env ht v w).2.1 =
        ht8574.read_output_reg ht ∧
      ht8574.read_direction_reg (ht8574.write_output_reg env ht v w).2.1 =
        ht8574.read_direction_reg ht) ∧
    (∀ tca : tca95xx_16bit.esp_io_expander_tca95xx_16bit_t,
      (tca95xx_16bit.write_direction_reg env tca v w).1 ≠ ESP_OK →
      (tca95xx_16bit.write_direction_reg env tca v w).2.1 = tca ∧
      tca95xx_16bit.read_output_reg (tca95xx_16bit.write_direction_reg env tca v w).2.1 =
        tca95xx_16bit.read_output_reg tca ∧
      tca95xx_16bit.read_direction_reg (tca95xx_16bit.write_direction_reg env tca v w).2.1 =
        tca95xx_16bit.read_direction_reg tca) ∧
    (∀ tca : tca95xx_16bit.esp_io_expander_tca95xx_16bit_t,
      (∀ i, i < 4 → (env.xfer (w.xfers + i)).status = ESP_ERR_TIMEOUT) →
      (tca95xx_16bit.write_output_reg env tca v w).1 = ESP_ERR_TIMEOUT ∧
      (tca95xx_16bit.write_direction_reg env tca v w).1 = ESP_ERR_TIMEOUT ∧
      (tca95xx_16bit.write_output_reg env tca v w).2.1 = tca ∧
      (tca95xx_16bit.write_direction_reg env tca v w).2.1 = tca) := by
  refine ⟨?_, ?_, ?_, ?_⟩
  · intro tca h
    rw [tca_write_output_reg_fail env tca v w h]
    exact ⟨rfl, rfl, rfl⟩
  · intro ht h
    rw [ht_write_output_reg_fail env ht v w h]
    exact ⟨rfl, rfl, rfl⟩
  · intro tca h
    rw [tca_write_direction_reg_fail env tca v w h]
    exact ⟨rfl, rfl, rfl⟩
  · intro tca h
    have hT := firstNonTimeoutOfFour_all_timeout env w.xfers h
    have hne : ESP_ERR_TIMEOUT ≠ ESP_OK := by decide
    have ho : (tca95xx_16bit.write_output_reg env tca v w).1 = ESP_ERR_TIMEOUT := by
      simp only [tca95xx_16bit.write_output_reg, retry_tx_eq, hT]
      rw [if_pos hne]
    have hd : (tca95xx_16bit.write_direction_reg env tca v w).1 = ESP_ERR_TIMEOUT := by
      simp only [tca95xx_16bit.write_direction_reg, retry_tx_eq, hT]
      rw [if_pos hne]
    exact ⟨ho, hd, tca_write_output_reg_fail env tca v w (by rw [ho]; exact hne),
      tca_write_direction_reg_fail env tca v w (by rw [hd]; exact hne)⟩

/-- Witness of C5: four timeouts in a row make the 16-bit output write fail
and the cached `0xFFFF` stays; a failing 8-bit write keeps the cached `0xFF`. -/
theorem C5_failed_write_keeps_caches_witness :
    tca95xx_16bit.read_output_reg (tca95xx_16bit.write_output_reg
        (scriptedEnv [ESP_ERR_TIMEOUT, ESP_ERR_TIMEOUT, ESP_ERR_TIMEOUT, ESP_ERR_TIMEOUT] true)
        { io_count := 16, dir_out_bit_zero := 1, i2c_num := 0, i2c_address := 0x21,
          i2c_dev := some 40, direction := 0xFFFF, output := 0xFFFF } 0x1234 bootWorld).2.1 =
      (ESP_OK, 0xFFFF) ∧
    ht8574.read_output_reg (ht8574.write_output_reg (scriptedEnv [ESP_FAIL] true)
        { io_count := 8, dir_out_bit_zero := 1, i2c_num := 0, i2c_address := 0x20,
          i2c_dev := some 40, direction := 0, output := 0xFF } 0x00 bootWorld).2.1 =
      (ESP_OK, 0xFF) :=
  ⟨((C5_failed_write_keeps_caches
      (scriptedEnv [ESP_ERR_TIMEOUT, ESP_ERR_TIMEOUT, ESP_ERR_TIMEOUT, ESP_ERR_TIMEOUT] true)
      bootWorld 0x1234).1 _ (by decide)).2.1,
   ((C5_failed_write_keeps_caches (scriptedEnv [ESP_FAIL] true) bootWorld 0x00).2.1 _
      (by decide)).2.1⟩

/-! ## The caches hold the last successful write -/

theorem foldl_retryEvents (env : Env) (port : Nat) (xev : esp_err_t → Event) (l n : Nat)
    (g : Option Nat → Event → Option Nat)
    (hreset : ∀ acc k, (resetEvents env port k).foldl g acc = acc)
    (hdelay : ∀ acc t, g acc (Event.delay t) = acc)
    (hx : ∀ acc s, s ≠ ESP_OK → g acc (xev s) = acc) (acc : Option Nat) :
    (retryEvents env port xev l n).foldl g acc =
      if firstNonTimeoutOfFour env n = ESP_OK then g acc (xev ESP_OK) else acc := by
  have hT : ∀ acc, g acc (xev ESP_ERR_TIMEOUT) = acc := fun acc => hx acc _ (by decide)
  unfold retryEvents firstNonTimeoutOfFour
  by_cases h0 : statusAt env n 0 = ESP_ERR_TIMEOUT
  · by_cases h1 : statusAt env n 1 = ESP_ERR_TIMEOUT
    · by_cases h2 : statusAt env n 2 = ESP_ERR_TIMEOUT
      · simp only [h0, h1, h2, ne_eq, not_true_eq_false, if_false, List.foldl_cons,
          List.foldl_append, hT, hreset, hdelay, List.foldl_nil]
        by_cases h3 : statusAt env n 3 = ESP_OK
        · simp [h3]
        · simp [h3, hx acc _ h3]
      · simp only [h0, h1, h2, ne_eq, not_true_eq_false, not_false_eq_true, if_false, if_true,
          List.foldl_cons, List.foldl_append, hT, hreset, hdelay, List.foldl_nil]
        by_cases h3 : statusAt env n 2 = ESP_OK
        · simp [h3]
        · simp [h3, hx acc _ h3]
    · simp only [h0, h1, ne_eq, not_true_eq_false, not_false_eq_true, if_false, if_true,
        List.foldl_cons, List.foldl_append, hT, hreset, hdelay, List.foldl_nil]
      by_cases h3 : statusAt env n 1 = ESP_OK
      · simp [h3]
      · simp [h3, hx acc _ h3]
  · simp only [h0, ne_eq, not_false_eq_true, if_true, List.foldl_cons, List.foldl_nil]
    by_cases h3 : statusAt env n 0 = ESP_OK
    · simp [h3]
    · simp [h3, hx acc _ h3]

theorem foldl_resetEvents_noteWrite16 (env : Env) (port : Nat) (d : Option Nat) (reg : Nat)
    (acc : Option Nat) (k : Nat) :
    (resetEvents env port k).foldl (noteWrite16 d reg) acc = acc := by
  unfold resetEvents
  cases env.busHandle k (port % 256) <;> simp [noteWrite16]

theorem recombine_bytes (x : Nat) (hx : x < 65536) :
    ((x &&& 0xff) % 256) ||| (((x >>> 8) % 256) <<< 8) = x := by
  rw [and_ff, Nat.shiftRight_eq_div_pow, Nat.shiftLeft_eq, Nat.lor_comm]
  have h1 : x / 2 ^ 8 % 256 = x / 256 := by omega
  have h2 : x % 256 % 256 = x % 256 := by omega
  rw [h1, h2, Nat.mul_comm]
  have h3 : x % 256 < 2 ^ 8 := by omega
  rw [← Nat.mul_add_lt_is_or h3]
  omega

theorem tca_write_output_reg_trace (env : Env)
    (tca : tca95xx_16bit.esp_io_expander_tca95xx_16bit_t) (v : Nat) (w : World) :
    (tca95xx_16bit.write_output_reg env tca v w).2.2.trace =
      w.trace ++ retryEvents env tca.i2c_num
        (Event.transmit tca.i2c_dev
          [tca95xx_16bit.OUTPUT_REG_ADDR % 256, ((v &&& 0xffff) &&& 0xff) % 256,
            ((v &&& 0xffff) >>> 8) % 256] tca95xx_16bit.I2C_TIMEOUT_MS) w.lookups w.xfers := by
  simp only [tca95xx_16bit.write_output_reg, retry_tx_eq]
  split <;> rfl

theorem tca_write_direction_reg_trace (env : Env)
    (tca : tca95xx_16bit.esp_io_expander_tca95xx_16bit_t) (v : Nat) (w : World) :
    (tca95xx_16bit.write_direction_reg env tca v w).2.2.trace =
      w.trace ++ retryEvents env tca.i2c_num
        (Event.transmit tca.i2c_dev
          [tca95xx_16bit.DIRECTION_REG_ADDR % 256, ((v &&& 0xffff) &&& 0xff) % 256,
            ((v &&& 0xffff) >>> 8) % 256] tca95xx_16bit.I2C_TIMEOUT_MS) w.lookups w.xfers := by
  simp only [tca95xx_16bit.write_direction_reg, retry_tx_eq]
  split <;> rfl

theorem tca_write_output_reg_status (env : Env)
    (tca : tca95xx_16bit.esp_io_expander_tca95xx_16bit_t) (v : Nat) (w : World) :
    (tca95xx_16bit.write_output_reg env tca v w).1 = firstNonTimeoutOfFour env w.xfers := by
  simp only [tca95xx_16bit.write_output_reg, retry_tx_eq]
  split
  · rfl
  · rename_i h
    exact (not_not.mp h).symm

theorem tca_write_direction_reg_status (env : Env)
    (tca : tca95xx_16bit.esp_io_expander_tca95xx_16bit_t) (v : Nat) (w : World) :
    (tca95xx_16bit.write_direction_reg env tca v w).1 = firstNonTimeoutOfFour env w.xfers := by
  simp only [tca95xx_16bit.write_direction_reg, retry_tx_eq]
  split
  · rfl
  · rename_i h
    exact (not_not.mp h).symm

theorem foldl_noteWrite16_retry_tx (env : Env) (port : Nat) (d d' : Option Nat)
    (reg r lo hi l n : Nat) (acc : Option Nat) :
    (retryEvents env port (Event.transmit d' [r, lo, hi] tca95xx_16bit.I2C_TIMEOUT_MS) l n).foldl
        (noteWrite16 d reg) acc =
      if firstNonTimeoutOfFour env n = ESP_OK ∧ d' = d ∧ r = reg then some (lo ||| (hi <<< 8))
      else acc := by
  rw [foldl_retryEvents env port _ l n (noteWrite16 d reg)
    (fun acc k => foldl_resetEvents_noteWrite16 env port d reg acc k)
    (fun _ _ => rfl)
    (fun acc s hs => by simp [noteWrite16, hs])]
  by_cases h : firstNonTimeoutOfFour env n = ESP_OK
  · simp [h, noteWrite16]
  · simp [h]

theorem tca_write_output_reg_effect (env : Env)
    (tca : tca95xx_16bit.esp_io_expander_tca95xx_16bit_t) (v : Nat) (w : World) :
    ∃ evs, (tca95xx_16bit.write_output_reg env tca v w).2.2.trace = w.trace ++ evs ∧
      (tca95xx_16bit.write_output_reg env tca v w).2.1.i2c_dev = tca.i2c_dev ∧
      (tca95xx_16bit.write_output_reg env tca v w).2.1.i2c_num = tca.i2c_num ∧
      (tca95xx_16bit.write_output_reg env tca v w).2.1.direction = tca.direction ∧
      (∀ acc, evs.foldl (noteWrite16 tca.i2c_dev tca95xx_16bit.DIRECTION_REG_ADDR) acc = acc) ∧
      ((tca95xx_16bit.write_output_reg env tca v w).1 = ESP_OK →
        (tca95xx_16bit.write_output_reg env tca v w).2.1.output = v % 65536 ∧
        ∀ acc, evs.foldl (noteWrite16 tca.i2c_dev tca95xx_16bit.OUTPUT_REG_ADDR) acc =
          some (v % 65536)) ∧
      ((tca95xx_16bit.write_output_reg env tca v w).1 ≠ ESP_OK →
        (tca95xx_16bit.write_output_reg env tca v w).2.1 = tca ∧
        ∀ acc, evs.foldl (noteWrite16 tca.i2c_dev tca95xx_16bit.OUTPUT_REG_ADDR) acc = acc) := by
  refine ⟨_, tca_write_output_reg_trace env tca v w, ?_, ?_, ?_, ?_, ?_, ?_⟩
  · by_cases h : (tca95xx_16bit.write_output_reg env tca v w).1 = ESP_OK
    · rw [tca_write_output_reg_ok env tca v w h]
    · rw [tca_write_output_reg_fail env tca v w h]
  · by_cases h : (tca95xx_16bit.write_output_reg env tca v w).1 = ESP_OK
    · rw [tca_write_output_reg_ok env tca v w h]
    · rw [tca_write_output_reg_fail env tca v w h]
  · by_cases h : (tca95xx_16bit.write_output_reg env tca v w).1 = ESP_OK
    · rw [tca_write_output_reg_ok env tca v w h]
    · rw [tca_write_output_reg_fail env tca v w h]
  · intro acc
    rw [foldl_noteWrite16_retry_tx]
    simp [tca95xx_16bit.OUTPUT_REG_ADDR, tca95xx_16bit.DIRECTION_REG_ADDR]
  · intro h
    refine ⟨by rw [tca_write_output_reg_ok env tca v w h], ?_⟩
    intro acc
    rw [tca_write_output_reg_status] at h
    rw [foldl_noteWrite16_retry_tx, recombine_bytes _ (by rw [and_ffff]; omega), and_ffff]
    simp [h, tca95xx_16bit.OUTPUT_REG_ADDR]
  · intro h
    refine ⟨tca_write_output_reg_fail env tca v w h, ?_⟩
    intro acc
    rw [tca_write_output_reg_status] at h
    rw [foldl_noteWrite16_retry_tx]
    simp [h]

theorem tca_write_direction_reg_effect (env : Env)
    (tca : tca95xx_16bit.esp_io_expander_tca95xx_16bit_t) (v : Nat) (w : World) :
    ∃ evs, (tca95xx_16bit.write_direction_reg env tca v w).2.2.trace = w.trace ++ evs ∧
      (tca95xx_16bit.write_direction_reg env tca v w).2.1.i2c_dev = tca.i2c_dev ∧
      (tca95xx_16bit.write_direction_reg env tca v w).2.1.i2c_num = tca.i2c_num ∧
      (tca95xx_16bit.write_direction_reg env tca v w).2.1.output = tca.output ∧
      (∀ acc, evs.foldl (noteWrite16 tca.i2c_dev tca95xx_16bit.OUTPUT_REG_ADDR) acc = acc) ∧
      ((tca95xx_16bit.write_direction_reg env tca v w).1 = ESP_OK →
        (tca95xx_16bit.write_direction_reg env tca v w).2.1.direction = v % 65536 ∧
        ∀ acc, evs.foldl (noteWrite16 tca.i2c_dev tca95xx_16bit.DIRECTION_REG_ADDR) acc =
          some (v % 65536)) ∧
      ((tca95xx_16bit.write_direction_reg env tca v w).1 ≠ ESP_OK →
        (tca95xx_16bit.write_direction_reg env tca v w).2.1 = tca ∧
        ∀ acc, evs.foldl (noteWrite16 tca.i2c_dev tca95xx_16bit.DIRECTION_REG_ADDR) acc =
          acc) := by
  refine ⟨_, tca_write_direction_reg_trace env tca v w, ?_, ?_, ?_, ?_, ?_, ?_⟩
  · by_cases h : (tca95xx_16bit.write_direction_reg env tca v w).1 = ESP_OK
    · rw [tca_write_direction_reg_ok env tca v w h]
    · rw [tca_write_direction_reg_fail env tca v w h]
  · by_cases h : (tca95xx_16bit.write_direction_reg env tca v w).1 = ESP_OK
    · rw [tca_write_direction_reg_ok env tca v w h]
    · rw [tca_write_direction_reg_fail env tca v w h]
  · by_cases h : (tca95xx_16bit.write_direction_reg env tca v w).1 = ESP_OK
    · rw [tca_write_direction_reg_ok env tca v w h]
    · rw [tca_write_direction_reg_fail env tca v w h]
  · intro acc
    rw [foldl_noteWrite16_retry_tx]
    simp [tca95xx_16bit.OUTPUT_REG_ADDR, tca95xx_16bit.DIRECTION_REG_ADDR]
  · intro h
    refine ⟨by rw [tca_write_direction_reg_ok env tca v w h], ?_⟩
    intro acc
    rw [tca_write_direction_reg_status] at h
    rw [foldl_noteWrite16_retry_tx, recombine_bytes _ (by rw [and_ffff]; omega), and_ffff]
    simp [h, tca95xx_16bit.DIRECTION_REG_ADDR]
  · intro h
    refine ⟨tca_write_direction_reg_fail env tca v w h, ?_⟩
    intro acc
    rw [tca_write_direction_reg_status] at h
    rw [foldl_noteWrite16_retry_tx]
    simp [h]

theorem foldl_retryEvents_inert (env : Env) (port : Nat) (xev : esp_err_t → Event) (l n : Nat)
    (g : Option Nat → Event → Option Nat)
    (hreset : ∀ acc k, (resetEvents env port k).foldl g acc = acc)
    (hdelay : ∀ acc t, g acc (Event.delay t) = acc)
    (hx : ∀ acc s, g acc (xev s) = acc) (acc : Option Nat) :
    (retryEvents env port xev l n).foldl g acc = acc := by
  rw [foldl_retryEvents env port xev l n g hreset hdelay (fun acc s _ => hx acc s), hx]
  simp

theorem tca_read_input_reg_effect (env : Env)
    (tca : tca95xx_16bit.esp_io_expander_tca95xx_16bit_t) (w : World) :
    ∃ evs, (tca95xx_16bit.read_input_reg env tca w).2.2.trace = w.trace ++ evs ∧
      ∀ d reg acc, evs.foldl (noteWrite16 d reg) acc = acc := by
  have htx : ∀ d reg l n acc, (retryEvents env tca.i2c_num
      (Event.transmit tca.i2c_dev [tca95xx_16bit.INPUT_REG_ADDR] tca95xx_16bit.I2C_TIMEOUT_MS)
      l n).foldl (noteWrite16 d reg) acc = acc := fun d reg l n acc =>
    foldl_retryEvents_inert env _
      (Event.transmit tca.i2c_dev [tca95xx_16bit.INPUT_REG_ADDR] tca95xx_16bit.I2C_TIMEOUT_MS)
      l n _
      (fun acc k => foldl_resetEvents_noteWrite16 env _ d reg acc k) (fun _ _ => rfl)
      (fun _ _ => rfl) acc
  have hrx : ∀ d reg l n acc, (retryEvents env tca.i2c_num
      (Event.receive tca.i2c_dev 2 tca95xx_16bit.I2C_TIMEOUT_MS)
      l n).foldl (noteWrite16 d reg) acc = acc := fun d reg l n acc =>
    foldl_retryEvents_inert env _
      (Event.receive tca.i2c_dev 2 tca95xx_16bit.I2C_TIMEOUT_MS) l n _
      (fun acc k => foldl_resetEvents_noteWrite16 env _ d reg acc k) (fun _ _ => rfl)
      (fun _ _ => rfl) acc
  simp only [tca95xx_16bit.read_input_reg, retry_tx_eq, retry_rx_eq]
  split
  · exact ⟨_, rfl, fun d reg acc => by simpa using htx d reg _ _ acc⟩
  · split
    · refine ⟨_ ++ _, by simp only [List.append_assoc]; rfl, fun d reg acc => ?_⟩
      rw [List.foldl_append, hrx]
      simpa using htx d reg _ _ acc
    · refine ⟨_ ++ _, by simp only [List.append_assoc]; rfl, fun d reg acc => ?_⟩
      rw [List.foldl_append, hrx]
      simpa using htx d reg _ _ acc

theorem Accounts16_refl (a : tca95xx_16bit.esp_io_expander_tca95xx_16bit_t) :
    Accounts16 a a [] :=
  ⟨rfl, fun _ => Or.inr ⟨rfl, rfl⟩, fun _ => Or.inr ⟨rfl, rfl⟩⟩

theorem Accounts16_trans {a b c : tca95xx_16bit.esp_io_expander_tca95xx_16bit_t}
    {e1 e2 : List Event} (h1 : Accounts16 a b e1) (h2 : Accounts16 b c e2) :
    Accounts16 a c (e1 ++ e2) := by
  obtain ⟨hd1, ho1, hr1⟩ := h1
  obtain ⟨hd2, ho2, hr2⟩ := h2
  rw [hd1] at ho2 hr2
  refine ⟨hd2.trans hd1, fun acc => ?_, fun acc => ?_⟩
  · rw [List.foldl_append]
    rcases ho2 (e1.foldl (noteWrite16 a.i2c_dev tca95xx_16bit.OUTPUT_REG_ADDR) acc) with h | ⟨h, hc⟩
    · exact Or.inl h
    · rw [h, hc]
      exact ho1 acc
  · rw [List.foldl_append]
    rcases hr2 (e1.foldl (noteWrite16 a.i2c_dev tca95xx_16bit.DIRECTION_REG_ADDR) acc) with
      h | ⟨h, hc⟩
    · exact Or.inl h
    · rw [h, hc]
      exact hr1 acc

theorem tca_write_output_reg_accounts (env : Env)
    (tca : tca95xx_16bit.esp_io_expander_tca95xx_16bit_t) (v : Nat) (w : World) :
    ∃ evs, (tca95xx_16bit.write_output_reg env tca v w).2.2.trace = w.trace ++ evs ∧
      Accounts16 tca (tca95xx_16bit.write_output_reg env tca v w).2.1 evs := by
  obtain ⟨evs, ht, hd, _, hdir, hD, hok, hfail⟩ := tca_write_output_reg_effect env tca v w
  refine ⟨evs, ht, hd, fun acc => ?_, fun acc => Or.inr ⟨hD acc, hdir⟩⟩
  by_cases h : (tca95xx_16bit.write_output_reg env tca v w).1 = ESP_OK
  · left
    rw [(hok h).1]
    exact (hok h).2 acc
  · right
    exact ⟨(hfail h).2 acc, by rw [(hfail h).1]⟩

theorem tca_write_direction_reg_accounts (env : Env)
    (tca : tca95xx_16bit.esp_io_expander_tca95xx_16bit_t) (v : Nat) (w : World) :
    ∃ evs, (tca95xx_16bit.write_direction_reg env tca v w).2.2.trace = w.trace ++ evs ∧
      Accounts16 tca (tca95xx_16bit.write_direction_reg env tca v w).2.1 evs := by
  obtain ⟨evs, ht, hd, _, hout, hO, hok, hfail⟩ := tca_write_direction_reg_effect env tca v w
  refine ⟨evs, ht, hd, fun acc => Or.inr ⟨hO acc, hout⟩, fun acc => ?_⟩
  by_cases h : (tca95xx_16bit.write_direction_reg env tca v w).1 = ESP_OK
  · left
    rw [(hok h).1]
    exact (hok h).2 acc
  · right
    exact ⟨(hfail h).2 acc, by rw [(hfail h).1]⟩

theorem tca_reset_accounts (env : Env)
    (tca : tca95xx_16bit.esp_io_expander_tca95xx_16bit_t) (w : World) :
    ∃ evs, (tca95xx_16bit.reset env tca w).2.2.trace = w.trace ++ evs ∧
      Accounts16 tca (tca95xx_16bit.reset env tca w).2.1 evs := by
  obtain ⟨e1, ht1, ha1⟩ :=
    tca_write_direction_reg_accounts env tca tca95xx_16bit.DIR_REG_DEFAULT_VAL w
  obtain ⟨e2, ht2, ha2⟩ := tca_write_output_reg_accounts env
    (tca95xx_16bit.write_direction_reg env tca tca95xx_16bit.DIR_REG_DEFAULT_VAL w).2.1
    tca95xx_16bit.OUT_REG_DEFAULT_VAL
    (tca95xx_16bit.write_direction_reg env tca tca95xx_16bit.DIR_REG_DEFAULT_VAL w).2.2
  simp only [tca95xx_16bit.reset]
  split
  · exact ⟨e1, ht1, ha1⟩
  · refine ⟨e1 ++ e2, ?_, ?_⟩
    · split <;> simp only [ht2, ht1, List.append_assoc]
    · split <;> exact Accounts16_trans ha1 ha2

theorem tca_step_accounts (env : Env) (op : RegOp)
    (tca : tca95xx_16bit.esp_io_expander_tca95xx_16bit_t) (w : World) :
    ∃ evs, (tca95xx_16bit.step env op tca w).2.2.trace = w.trace ++ evs ∧
      Accounts16 tca (tca95xx_16bit.step env op tca w).2.1 evs := by
  cases op with
  | read_input =>
    obtain ⟨evs, ht, h⟩ := tca_read_input_reg_effect env tca w
    exact ⟨evs, ht, rfl, fun acc => Or.inr ⟨h _ _ acc, rfl⟩, fun acc => Or.inr ⟨h _ _ acc, rfl⟩⟩
  | write_output v => exact tca_write_output_reg_accounts env tca v w
  | read_output => exact ⟨[], by simp [tca95xx_16bit.step], Accounts16_refl tca⟩
  | write_direction v => exact tca_write_direction_reg_accounts env tca v w
  | read_direction => exact ⟨[], by simp [tca95xx_16bit.step], Accounts16_refl tca⟩
  | reset => exact tca_reset_accounts env tca w

theorem tca_run_accounts (env : Env) (ops : List RegOp) :
    ∀ (tca : tca95xx_16bit.esp_io_expander_tca95xx_16bit_t) (w : World),
      ∃ evs, (tca95xx_16bit.run env ops tca w).2.trace = w.trace ++ evs ∧
        Accounts16 tca (tca95xx_16bit.run env ops tca w).1 evs := by
  induction ops with
  | nil => exact fun tca w => ⟨[], by simp [tca95xx_16bit.run], Accounts16_refl tca⟩
  | cons op ops ih =>
    intro tca w
    obtain ⟨e1, ht1, ha1⟩ := tca_step_accounts env op tca w
    obtain ⟨e2, ht2, ha2⟩ := ih (tca95xx_16bit.step env op tca w).2.1
      (tca95xx_16bit.step env op tca w).2.2
    refine ⟨e1 ++ e2, ?_, ?_⟩
    · simp only [tca95xx_16bit.run, ht2, ht1, List.append_assoc]
    · simp only [tca95xx_16bit.run]
      exact Accounts16_trans ha1 ha2

theorem tca_reset_ok (env : Env) (tca : tca95xx_16bit.esp_io_expander_tca95xx_16bit_t)
    (w : World) (h : (tca95xx_16bit.reset env tca w).1 = ESP_OK) :
    (tca95xx_16bit.reset env tca w).2.1 = { tca with direction := 0xFFFF, output := 0xFFFF } ∧
    ∃ evs, (tca95xx_16bit.reset env tca w).2.2.trace = w.trace ++ evs ∧
      ∀ acc, evs.foldl (noteWrite16 tca.i2c_dev tca95xx_16bit.OUTPUT_REG_ADDR) acc = some 0xFFFF ∧
        evs.foldl (noteWrite16 tca.i2c_dev tca95xx_16bit.DIRECTION_REG_ADDR) acc = some 0xFFFF := by
  obtain ⟨e1, ht1, hd1, _, _, hO1, hok1, _⟩ :=
    tca_write_direction_reg_effect env tca tca95xx_16bit.DIR_REG_DEFAULT_VAL w
  obtain ⟨e2, ht2, _, _, _, hD2, hok2, _⟩ := tca_write_output_reg_effect env
    (tca95xx_16bit.write_direction_reg env tca tca95xx_16bit.DIR_REG_DEFAULT_VAL w).2.1
    tca95xx_16bit.OUT_REG_DEFAULT_VAL
    (tca95xx_16bit.write_direction_reg env tca tca95xx_16bit.DIR_REG_DEFAULT_VAL w).2.2
  rw [hd1] at hD2 hok2
  simp only [tca95xx_16bit.reset] at h ⊢
  split at h
  · rename_i hne
    exact absurd h hne
  · rename_i hd
    have hd' := not_not.mp hd
    rw [if_neg hd]
    split at h
    · rename_i hne
      exact absurd h hne
    · rename_i ho
      have ho' := not_not.mp ho
      rw [if_neg ho]
      refine ⟨?_, e1 ++ e2, by simp only [ht2, ht1, List.append_assoc], fun acc => ?_⟩
      · rw [tca_write_output_reg_ok _ _ _ _ ho', tca_write_direction_reg_ok _ _ _ _ hd']
        rfl
      · rw [List.foldl_append, List.foldl_append, (hok2 ho').2, hD2, (hok1 hd').2]
        exact ⟨rfl, rfl⟩

theorem i2c_ng_add_device_trace (env : Env) (port addr7 : Nat) (nn : Bool) (out : Option Nat)
    (w : World) :
    ∃ evs, (esp_expander_i2c_ng_add_device env port addr7 nn out w).2.2.trace = w.trace ++ evs ∧
      ∀ e ∈ evs, e.isXfer = false := by
  by_cases h1 : nn = true
  · by_cases h2 : port < env.I2C_NUM_MAX
    · cases hb : env.busHandle w.lookups (port % 256) with
      | none =>
        exact ⟨[Event.busLookup (port % 256)],
          by simp [esp_expander_i2c_ng_add_device, i2cBusHandle, h1, h2, hb],
          by simp [Event.isXfer]⟩
      | some bus =>
        by_cases h3 : (env.attach w.attaches).status = ESP_OK
        · refine ⟨[Event.busLookup (port % 256), Event.addDevice bus
            { dev_addr_length := I2C_ADDR_BIT_LEN_7, device_address := addr7,
              scl_speed_hz := toInt32 (if w.s_port_speed_hz port ≠ 0 then w.s_port_speed_hz port
                else ESP_EXPANDER_I2C_DEFAULT_SPEED_HZ) }
            (env.attach w.attaches).status], ?_, ?_⟩
          · simp [esp_expander_i2c_ng_add_device, i2cBusHandle, i2c_master_bus_add_device, h1,
              h2, hb, h3]
          · simp [Event.isXfer]
        · refine ⟨[Event.busLookup (port % 256), Event.addDevice bus
            { dev_addr_length := I2C_ADDR_BIT_LEN_7, device_address := addr7,
              scl_speed_hz := toInt32 (if w.s_port_speed_hz port ≠ 0 then w.s_port_speed_hz port
                else ESP_EXPANDER_I2C_DEFAULT_SPEED_HZ) }
            (env.attach w.attaches).status], ?_, ?_⟩
          · simp [esp_expander_i2c_ng_add_device, i2cBusHandle, i2c_master_bus_add_device, h1,
              h2, hb, h3]
          · simp [Event.isXfer]
    · exact ⟨[], by simp [esp_expander_i2c_ng_add_device, h1, h2], by simp⟩
  · exact ⟨[], by simp [esp_expander_i2c_ng_add_device, h1], by simp⟩

theorem foldl_noteWrite16_of_no_xfer (d : Option Nat) (reg : Nat) (evs : List Event)
    (h : ∀ e ∈ evs, e.isXfer = false) (acc : Option Nat) :
    evs.foldl (noteWrite16 d reg) acc = acc := by
  induction evs generalizing acc with
  | nil => rfl
  | cons e es ih =>
    have he := h e (by simp)
    rw [List.foldl_cons, ih (fun x hx => h x (by simp [hx]))]
    cases e <;> simp [noteWrite16, Event.isXfer] at he ⊢

theorem tca_new_ok (env : Env) (i2c_num i2c_address : Nat) (handle : Bool) (w : World)
    (h : (tca95xx_16bit.esp_io_expander_new_i2c_tca95xx_16bit env i2c_num i2c_address handle
      w).1 = ESP_OK) :
    ∃ tca0 evs,
      (tca95xx_16bit.esp_io_expander_new_i2c_tca95xx_16bit env i2c_num i2c_address handle w).2.1 =
        some tca0 ∧
      tca0.output = 0xFFFF ∧ tca0.direction = 0xFFFF ∧
      (tca95xx_16bit.esp_io_expander_new_i2c_tca95xx_16bit env i2c_num i2c_address handle
        w).2.2.trace = w.trace ++ evs ∧
      lastWritten16 tca0.i2c_dev tca95xx_16bit.OUTPUT_REG_ADDR evs = some 0xFFFF ∧
      lastWritten16 tca0.i2c_dev tca95xx_16bit.DIRECTION_REG_ADDR evs = some 0xFFFF := by
  have e1 : ESP_ERR_INVALID_ARG ≠ ESP_OK := by decide
  have e2 : ESP_ERR_NO_MEM ≠ ESP_OK := by decide
  obtain ⟨ea, hta, hea⟩ := i2c_ng_add_device_trace env i2c_num (i2c_address % 2 ^ 16) true none
    (calloc env w).2
  simp only [tca95xx_16bit.esp_io_expander_new_i2c_tca95xx_16bit] at h ⊢
  split at h
  · exact absurd h e1
  · rename_i c1
    rw [if_neg c1]
    split at h
    · exact absurd h e1
    · rename_i c2
      rw [if_neg c2]
      split at h
      · exact absurd h e2
      · rename_i c3
        rw [if_neg c3]
        split at h
        · rename_i c4
          exact absurd h c4
        · rename_i c4
          rw [if_neg c4]
          split at h
          · rename_i c5
            exact absurd h c5
          · rename_i c5
            rw [if_neg c5]
            obtain ⟨hr, er, htr, hf⟩ := tca_reset_ok env _ _ (not_not.mp c5)
            refine ⟨_, [Event.calloc (env.allocOk w.allocs)] ++ ea ++ er, rfl, ?_, ?_, ?_, ?_, ?_⟩
            · rw [hr]
            · rw [hr]
            · rw [htr, hta]
              simp [calloc]
            · rw [hr]
              simp only [lastWritten16, List.foldl_append]
              exact (hf _).1
            · rw [hr]
              simp only [lastWritten16, List.foldl_append]
              exact (hf _).2

theorem foldl_noteWrite8_of_no_xfer (d : Option Nat) (evs : List Event)
    (h : ∀ e ∈ evs, e.isXfer = false) (acc : Option Nat) :
    evs.foldl (noteWrite8 d) acc = acc := by
  induction evs generalizing acc with
  | nil => rfl
  | cons e es ih =>
    have he := h e (by simp)
    rw [List.foldl_cons, ih (fun x hx => h x (by simp [hx]))]
    cases e <;> simp [noteWrite8, Event.isXfer] at he ⊢

theorem ht_write_output_reg_trace (env : Env) (ht : ht8574.esp_io_expander_ht8574_t)
    (v : Nat) (w : World) :
    (ht8574.write_output_reg env ht v w).2.2.trace =
      w.trace ++ [Event.transmit ht.i2c_dev [v % 256] ht8574.I2C_TIMEOUT_MS
        (ht8574.write_output_reg env ht v w).1] := by
  simp only [ht8574.write_output_reg, i2c_master_transmit]
  split
  · simp [and_ff]
  · rename_i h
    simp [and_ff, not_not.mp h]

theorem ht_step_accounts (env : Env) (op : RegOp) (ht : ht8574.esp_io_expander_ht8574_t)
    (w : World) :
    ∃ evs, (ht8574.step env op ht w).2.2.trace = w.trace ++ evs ∧
      (ht8574.step env op ht w).2.1.i2c_dev = ht.i2c_dev ∧
      (∀ acc, evs.foldl (noteWrite8 ht.i2c_dev) acc = some (ht8574.step env op ht w).2.1.output ∨
        (evs.foldl (noteWrite8 ht.i2c_dev) acc = acc ∧
          (ht8574.step env op ht w).2.1.output = ht.output)) ∧
      (∀ acc, noteDirection acc (op, (ht8574.step env op ht w).1) =
          some (ht8574.step env op ht w).2.1.direction ∨
        (noteDirection acc (op, (ht8574.step env op ht w).1) = acc ∧
          (ht8574.step env op ht w).2.1.direction = ht.direction)) := by
  have hw : ∀ v, ∃ evs, (ht8574.write_output_reg env ht v w).2.2.trace = w.trace ++ evs ∧
      (ht8574.write_output_reg env ht v w).2.1.i2c_dev = ht.i2c_dev ∧
      (∀ acc, evs.foldl (noteWrite8 ht.i2c_dev) acc =
          some (ht8574.write_output_reg env ht v w).2.1.output ∨
        (evs.foldl (noteWrite8 ht.i2c_dev) acc = acc ∧
          (ht8574.write_output_reg env ht v w).2.1.output = ht.output)) ∧
      (ht8574.write_output_reg env ht v w).2.1.direction = ht.direction := by
    intro v
    refine ⟨_, ht_write_output_reg_trace env ht v w, ?_, ?_, ?_⟩
    · by_cases h : (ht8574.write_output_reg env ht v w).1 = ESP_OK
      · rw [ht_write_output_reg_ok env ht v w h]
      · rw [ht_write_output_reg_fail env ht v w h]
    · intro acc
      by_cases h : (ht8574.write_output_reg env ht v w).1 = ESP_OK
      · left
        rw [ht_write_output_reg_ok env ht v w h]
        simp [noteWrite8, h]
      · right
        rw [ht_write_output_reg_fail env ht v w h]
        simp [noteWrite8, h]
    · by_cases h : (ht8574.write_output_reg env ht v w).1 = ESP_OK
      · rw [ht_write_output_reg_ok env ht v w h]
      · rw [ht_write_output_reg_fail env ht v w h]
  cases op with
  | read_input =>
    refine ⟨[Event.receive ht.i2c_dev 1 ht8574.I2C_TIMEOUT_MS (env.xfer w.xfers).status], ?_, rfl,
      fun acc => Or.inr ⟨rfl, rfl⟩, fun acc => Or.inr ⟨rfl, rfl⟩⟩
    simp only [ht8574.step, ht8574.read_input_reg, i2c_master_receive]
    split <;> rfl
  | write_output v =>
    obtain ⟨evs, h1, h2, h3, h4⟩ := hw v
    exact ⟨evs, h1, h2, h3, fun acc => Or.inr ⟨rfl, h4⟩⟩
  | read_output =>
    exact ⟨[], by simp [ht8574.step], rfl, fun acc => Or.inr ⟨rfl, rfl⟩,
      fun acc => Or.inr ⟨rfl, rfl⟩⟩
  | write_direction v =>
    refine ⟨[], by simp [ht8574.step, ht8574.write_direction_reg], rfl,
      fun acc => Or.inr ⟨rfl, rfl⟩, fun acc => Or.inl ?_⟩
    simp [ht8574.step, ht8574.write_direction_reg, noteDirection, and_ff]
  | read_direction =>
    exact ⟨[], by simp [ht8574.step], rfl, fun acc => Or.inr ⟨rfl, rfl⟩,
      fun acc => Or.inr ⟨rfl, rfl⟩⟩
  | reset =>
    obtain ⟨evs, h1, h2, h3, h4⟩ := hw ht8574.OUT_REG_DEFAULT_VAL
    refine ⟨evs, ?_, ?_, ?_, fun acc => Or.inr ⟨rfl, ?_⟩⟩
    · simp only [ht8574.step, ht8574.reset]
      split <;> exact h1
    · simp only [ht8574.step, ht8574.reset]
      split <;> exact h2
    · simp only [ht8574.step, ht8574.reset]
      split <;> exact h3
    · simp only [ht8574.step, ht8574.reset]
      split <;> exact h4

theorem ht_run_accounts (env : Env) (ops : List RegOp) :
    ∀ (ht : ht8574.esp_io_expander_ht8574_t) (w : World),
      ∃ evs, (ht8574.run env ops ht w).2.2.trace = w.trace ++ evs ∧
        (ht8574.run env ops ht w).2.1.i2c_dev = ht.i2c_dev ∧
        (∀ acc, evs.foldl (noteWrite8 ht.i2c_dev) acc = some (ht8574.run env ops ht w).2.1.output ∨
          (evs.foldl (noteWrite8 ht.i2c_dev) acc = acc ∧
            (ht8574.run env ops ht w).2.1.output = ht.output)) ∧
        (∀ acc, (ht8574.run env ops ht w).1.foldl noteDirection acc =
            some (ht8574.run env ops ht w).2.1.direction ∨
          ((ht8574.run env ops ht w).1.foldl noteDirection acc = acc ∧
            (ht8574.run env ops ht w).2.1.direction = ht.direction)) := by
  induction ops with
  | nil =>
    exact fun ht w => ⟨[], by simp [ht8574.run], rfl, fun _ => Or.inr ⟨rfl, rfl⟩,
      fun _ => Or.inr ⟨rfl, rfl⟩⟩
  | cons op ops ih =>
    intro ht w
    obtain ⟨e1, ht1, hd1, ho1, hr1⟩ := ht_step_accounts env op ht w
    obtain ⟨e2, ht2, hd2, ho2, hr2⟩ := ih (ht8574.step env op ht w).2.1
      (ht8574.step env op ht w).2.2
    rw [hd1] at ho2
    refine ⟨e1 ++ e2, ?_, ?_, fun acc => ?_, fun acc => ?_⟩
    · simp only [ht8574.run, ht2, ht1, List.append_assoc]
    · simp only [ht8574.run]
      exact hd2.trans hd1
    · simp only [ht8574.run, List.foldl_append]
      rcases ho2 (e1.foldl (noteWrite8 ht.i2c_dev) acc) with h | ⟨h, hc⟩
      · exact Or.inl h
      · rw [h, hc]
        exact ho1 acc
    · simp only [ht8574.run, List.foldl_cons]
      rcases hr2 (noteDirection acc (op, (ht8574.step env op ht w).1)) with h | ⟨h, hc⟩
      · exact Or.inl h
      · rw [h, hc]
        exact hr1 acc

theorem ht_new_ok (env : Env) (i2c_num i2c_address : Nat) (handle : Bool) (w : World)
    (h : (ht8574.esp_io_expander_new_i2c_ht8574 env i2c_num i2c_address handle w).1 = ESP_OK) :
    ∃ ht0 pre,
      (ht8574.esp_io_expander_new_i2c_ht8574 env i2c_num i2c_address handle w).2.1 = some ht0 ∧
      ht0.output = 0xFF ∧ ht0.direction = 0 ∧
      (ht8574.esp_io_expander_new_i2c_ht8574 env i2c_num i2c_address handle w).2.2.trace =
        w.trace ++ (pre ++ [Event.transmit ht0.i2c_dev [0xFF] ht8574.I2C_TIMEOUT_MS ESP_OK]) ∧
      ∀ e ∈ pre, e.isXfer = false := by
  have e1 : ESP_ERR_INVALID_ARG ≠ ESP_OK := by decide
  have e2 : ESP_ERR_NO_MEM ≠ ESP_OK := by decide
  obtain ⟨ea, hta, hea⟩ := i2c_ng_add_device_trace env i2c_num (i2c_address % 2 ^ 16) true none
    (calloc env w).2
  simp only [ht8574.esp_io_expander_new_i2c_ht8574] at h ⊢
  split at h
  · exact absurd h e1
  · rename_i c1
    rw [if_neg c1]
    split at h
    · exact absurd h e1
    · rename_i c2
      rw [if_neg c2]
      split at h
      · exact absurd h e2
      · rename_i c3
        rw [if_neg c3]
        split at h
        · rename_i c4
          exact absurd h c4
        · rename_i c4
          rw [if_neg c4]
          split at h
          · rename_i c5
            exact absurd h c5
          · rename_i c5
            rw [if_neg c5]
            have hst : (ht8574.write_output_reg env
                { io_count := ht8574.IO_COUNT, dir_out_bit_zero := 1, i2c_num := i2c_num,
                  i2c_address := i2c_address,
                  i2c_dev := (esp_expander_i2c_ng_add_device env i2c_num (i2c_address % 2 ^ 16)
                    true none (calloc env w).2).2.1, direction := 0, output := 0 }
                ht8574.OUT_REG_DEFAULT_VAL
                (esp_expander_i2c_ng_add_device env i2c_num (i2c_address % 2 ^ 16) true none
                  (calloc env w).2).2.2).1 = ESP_OK := by
              have := not_not.mp c5
              simp only [ht8574.reset] at this
              split at this
              · rename_i hne
                exact absurd this hne
              · rename_i hne
                exact not_not.mp hne
            have hreset : ∀ ht w, (ht8574.write_output_reg env ht ht8574.OUT_REG_DEFAULT_VAL w).1
                = ESP_OK → ht8574.reset env ht w =
                  (ESP_OK, (ht8574.write_output_reg env ht ht8574.OUT_REG_DEFAULT_VAL w).2.1,
                    (ht8574.write_output_reg env ht ht8574.OUT_REG_DEFAULT_VAL w).2.2) := by
              intro ht w hh
              simp only [ht8574.reset]
              rw [if_neg (not_not.mpr hh)]
            rw [hreset _ _ hst, ht_write_output_reg_ok _ _ _ _ hst]
            refine ⟨_, [Event.calloc (env.allocOk w.allocs)] ++ ea, rfl, rfl, rfl, ?_, ?_⟩
            · simp only [ht_write_output_reg_trace, hst, hta]
              simp [calloc, ht8574.OUT_REG_DEFAULT_VAL]
            · intro e he
              simp only [List.mem_append, List.mem_singleton] at he
              rcases he with rfl | he
              · rfl
              · exact hea e he

/-- C6, as stated, fails for the direction cache of the 8-bit variant: a
device that was just constructed with success, and on which no register
operation was made, caches direction `0`, not the `DIR_REG_DEFAULT_VAL = 0xff`
that the source declares. -/
theorem C6_counterexample_ht8574_direction :
    (ht8574.esp_io_expander_new_i2c_ht8574 (scriptedEnv [] true) 0 0x20 true bootWorld).1 =
      ESP_OK ∧
    ∃ ht0,
      (ht8574.esp_io_expander_new_i2c_ht8574 (scriptedEnv [] true) 0 0x20 true bootWorld).2.1 =
        some ht0 ∧
      (ht8574.run (scriptedEnv [] true) [] ht0
        (ht8574.esp_io_expander_new_i2c_ht8574 (scriptedEnv [] true) 0 0x20 true
          bootWorld).2.2).2.1.direction ≠
        (lastDirectionWrite (ht8574.run (scriptedEnv [] true) [] ht0
          (ht8574.esp_io_expander_new_i2c_ht8574 (scriptedEnv [] true) 0 0x20 true
            bootWorld).2.2).1).getD ht8574.DIR_REG_DEFAULT_VAL :=
  ⟨by decide, _, rfl, by decide⟩

/-- C6, amended: after a successful construction and any sequence of
register operations, whatever the transport answers, the output cache of
either variant and the direction cache of the 16-bit variant equal the value
of the last successful transmit to that register since the construction began
(the power-up default if there were none), and the direction cache of the
8-bit variant equals the masked value of the last successful
`write_direction` call, or `0` if there was none. -/
theorem C6_caches_hold_last_successful_write (env : Env) (i2c_num i2c_address : Nat)
    (handle : Bool) (w : World) (ops : List RegOp) :
    (∀ tca0,
      (tca95xx_16bit.esp_io_expander_new_i2c_tca95xx_16bit env i2c_num i2c_address handle
        w).1 = ESP_OK →
      (tca95xx_16bit.esp_io_expander_new_i2c_tca95xx_16bit env i2c_num i2c_address handle
        w).2.1 = some tca0 →
      let r := tca95xx_16bit.run env ops tca0
        (tca95xx_16bit.esp_io_expander_new_i2c_tca95xx_16bit env i2c_num i2c_address handle
          w).2.2
      r.1.output = (lastWritten16 r.1.i2c_dev tca95xx_16bit.OUTPUT_REG_ADDR
        (newEvents w r.2)).getD tca95xx_16bit.OUT_REG_DEFAULT_VAL ∧
      r.1.direction = (lastWritten16 r.1.i2c_dev tca95xx_16bit.DIRECTION_REG_ADDR
        (newEvents w r.2)).getD tca95xx_16bit.DIR_REG_DEFAULT_VAL) ∧
    (∀ ht0,
      (ht8574.esp_io_expander_new_i2c_ht8574 env i2c_num i2c_address handle w).1 = ESP_OK →
      (ht8574.esp_io_expander_new_i2c_ht8574 env i2c_num i2c_address handle w).2.1 = some ht0 →
      let r := ht8574.run env ops ht0
        (ht8574.esp_io_expander_new_i2c_ht8574 env i2c_num i2c_address handle w).2.2
      r.2.1.output = (lastWritten8 r.2.1.i2c_dev (newEvents w r.2.2)).getD
        ht8574.OUT_REG_DEFAULT_VAL ∧
      r.2.1.direction = (lastDirectionWrite r.1).getD 0) := by
  constructor
  · intro tca0 hok hsome
    obtain ⟨t, pre, hs, ho, hd, htr, hlo, hld⟩ := tca_new_ok env i2c_num i2c_address handle w hok
    rw [hsome] at hs
    cases Option.some.inj hs
    obtain ⟨evs, hrt, hdev, hao, had⟩ := tca_run_accounts env ops tca0
      (tca95xx_16bit.esp_io_expander_new_i2c_tca95xx_16bit env i2c_num i2c_address handle w).2.2
    have hne : newEvents w (tca95xx_16bit.run env ops tca0
        (tca95xx_16bit.esp_io_expander_new_i2c_tca95xx_16bit env i2c_num i2c_address handle
          w).2.2).2 = pre ++ evs :=
      newEvents_append _ _ _ (by rw [hrt, htr, List.append_assoc])
    simp only [hne, hdev, lastWritten16, List.foldl_append]
    simp only [lastWritten16] at hlo hld
    rw [hlo, hld]
    constructor
    · rcases hao (some 0xFFFF) with h | ⟨h, hc⟩
      · rw [h]
        rfl
      · rw [h, hc, ho]
        rfl
    · rcases had (some 0xFFFF) with h | ⟨h, hc⟩
      · rw [h]
        rfl
      · rw [h, hc, hd]
        rfl
  · intro ht0 hok hsome
    obtain ⟨t, pre, hs, ho, hd, htr, hpre⟩ := ht_new_ok env i2c_num i2c_address handle w hok
    rw [hsome] at hs
    cases Option.some.inj hs
    obtain ⟨evs, hrt, hdev, hao, had⟩ := ht_run_accounts env ops ht0
      (ht8574.esp_io_expander_new_i2c_ht8574 env i2c_num i2c_address handle w).2.2
    have hne : newEvents w (ht8574.run env ops ht0
        (ht8574.esp_io_expander_new_i2c_ht8574 env i2c_num i2c_address handle w).2.2).2.2 =
        (pre ++ [Event.transmit ht0.i2c_dev [0xFF] ht8574.I2C_TIMEOUT_MS ESP_OK]) ++ evs :=
      newEvents_append _ _ _ (by rw [hrt, htr, List.append_assoc])
    simp only [hne, hdev, lastWritten8, lastDirectionWrite, List.foldl_append]
    rw [foldl_noteWrite8_of_no_xfer _ _ hpre]
    constructor
    · rcases hao (List.foldl (noteWrite8 ht0.i2c_dev) none
          [Event.transmit ht0.i2c_dev [0xFF] ht8574.I2C_TIMEOUT_MS ESP_OK]) with h | ⟨h, hc⟩
      · rw [h]
        rfl
      · rw [h, hc, ho]
        simp [noteWrite8]
    · rcases had none with h | ⟨h, hc⟩
      · rw [h]
        rfl
      · rw [h, hc, hd]
        rfl

/-- Witness of C6: construction, a write of the output register that times
out four times, then a successful write of the direction register. -/
theorem C6_caches_hold_last_successful_write_witness :
    (tca95xx_16bit.run flakyEnv flakyOps
        { io_count := 16, dir_out_bit_zero := 1, i2c_num := 0, i2c_address := 0x21,
          i2c_dev := some 40, direction := 0xFFFF, output := 0xFFFF }
        (tca95xx_16bit.esp_io_expander_new_i2c_tca95xx_16bit flakyEnv 0 0x21 true
          bootWorld).2.2).1.output =
      (lastWritten16 (tca95xx_16bit.run flakyEnv flakyOps
        { io_count := 16, dir_out_bit_zero := 1, i2c_num := 0, i2c_address := 0x21,
          i2c_dev := some 40, direction := 0xFFFF, output := 0xFFFF }
        (tca95xx_16bit.esp_io_expander_new_i2c_tca95xx_16bit flakyEnv 0 0x21 true
          bootWorld).2.2).1.i2c_dev tca95xx_16bit.OUTPUT_REG_ADDR
        (newEvents bootWorld (tca95xx_16bit.run flakyEnv flakyOps
        { io_count := 16, dir_out_bit_zero := 1, i2c_num := 0, i2c_address := 0x21,
          i2c_dev := some 40, direction := 0xFFFF, output := 0xFFFF }
        (tca95xx_16bit.esp_io_expander_new_i2c_tca95xx_16bit flakyEnv 0 0x21 true
          bootWorld).2.2).2)).getD tca95xx_16bit.OUT_REG_DEFAULT_VAL :=
  ((C6_caches_hold_last_successful_write flakyEnv 0 0x21 true bootWorld flakyOps).1
    { io_count := 16, dir_out_bit_zero := 1, i2c_num := 0, i2c_address := 0x21,
      i2c_dev := some 40, direction := 0xFFFF, output := 0xFFFF } (by decide) (by decide)).1

/-! ## The 16-bit input read -/

theorem resetEvents_not_xfer (env : Env) (port l : Nat) :
    ∀ e ∈ resetEvents env port l, e.isXfer = false := by
  unfold resetEvents
  cases env.busHandle l (port % 256) <;> simp [Event.isXfer]

theorem retryEvents_xfer_mem (env : Env) (port : Nat) (xev : esp_err_t → Event) (l n : Nat) :
    ∀ e ∈ retryEvents env port xev l n, e.isXfer = true → ∃ s, e = xev s := by
  intro e he hx
  have hr : ∀ k, e ∈ resetEvents env port k → False := fun k hk => by
    have := resetEvents_not_xfer env port k e hk
    rw [hx] at this
    exact Bool.noConfusion this
  have hd : ∀ t, e = Event.delay t → False := fun t ht => by
    rw [ht] at hx
    exact Bool.noConfusion hx
  unfold retryEvents at he
  split_ifs at he <;>
    simp only [List.mem_cons, List.mem_append, List.mem_singleton, List.not_mem_nil,
      or_false] at he
  · exact ⟨_, he⟩
  · rcases he with h | h | h | h
    · exact ⟨_, h⟩
    · exact (hr _ h).elim
    · exact (hd _ h).elim
    · exact ⟨_, h⟩
  · rcases he with h | h | h | h | h | h | h
    · exact ⟨_, h⟩
    · exact (hr _ h).elim
    · exact (hd _ h).elim
    · exact ⟨_, h⟩
    · exact (hr _ h).elim
    · exact (hd _ h).elim
    · exact ⟨_, h⟩
  · rcases he with h | h | h | h | h | h | h | h | h | h
    · exact ⟨_, h⟩
    · exact (hr _ h).elim
    · exact (hd _ h).elim
    · exact ⟨_, h⟩
    · exact (hr _ h).elim
    · exact (hd _ h).elim
    · exact ⟨_, h⟩
    · exact (hr _ h).elim
    · exact (hd _ h).elim
    · exact ⟨_, h⟩

theorem retryEvents_countP_isReceive_tx (env : Env) (port : Nat) (d : Option Nat)
    (bs : List Nat) (t l n : Nat) :
    (retryEvents env port (Event.transmit d bs t) l n).countP Event.isReceive = 0 := by
  rw [List.countP_eq_zero]
  intro e he hrec
  have hx : e.isXfer = true := by
    cases e <;> simp [Event.isReceive, Event.isXfer] at hrec ⊢
  obtain ⟨s, rfl⟩ := retryEvents_xfer_mem env port _ l n e he hx
  simp [Event.isReceive] at hrec

/-- C7: in the 16-bit `read_input_reg` the first failing step ends the
read. When the retried selector transmit reports a status other than success,
that status is the result, nothing is stored through `value`, the call ends in
the state the transmit left and no receive was invoked; when the transmit
succeeds and the retried two-byte receive reports a status other than
success, that status is the result and nothing is stored through `value`. -/
theorem C7_read_input_first_failure_aborts (env : Env)
    (tca : tca95xx_16bit.esp_io_expander_tca95xx_16bit_t) (w : World) :
    let t := tca95xx_16bit.retry_i2c_op_if_timeout env tca.i2c_num (tca95xx_16bit.i2c_tx_op env)
      { dev := tca.i2c_dev, data := [tca95xx_16bit.INPUT_REG_ADDR], len := 1 } w
    let r := tca95xx_16bit.retry_i2c_op_if_timeout env tca.i2c_num (tca95xx_16bit.i2c_rx_op env)
      { dev := tca.i2c_dev, data := [0, 0], len := 2 } t.2.2
    (t.1 ≠ ESP_OK →
      tca95xx_16bit.read_input_reg env tca w = (t.1, none, t.2.2) ∧
      (newEvents w (tca95xx_16bit.read_input_reg env tca w).2.2).countP Event.isReceive = 0) ∧
    (t.1 = ESP_OK → r.1 ≠ ESP_OK →
      tca95xx_16bit.read_input_reg env tca w = (r.1, none, r.2.2)) ∧
    ((tca95xx_16bit.read_input_reg env tca w).1 ≠ ESP_OK →
      (tca95xx_16bit.read_input_reg env tca w).2.1 = none) := by
  refine ⟨?_, ?_, ?_⟩
  · intro h
    have h' := h
    simp only [retry_tx_eq] at h'
    simp only [tca95xx_16bit.read_input_reg, retry_tx_eq, if_pos h', newEvents_mk]
    exact ⟨trivial, retryEvents_countP_isReceive_tx _ _ _ _ _ _ _⟩
  · intro h1 h2
    have h1' := h1
    simp only [retry_tx_eq] at h1'
    have h2' := h2
    simp only [retry_tx_eq, retry_rx_eq] at h2'
    simp only [tca95xx_16bit.read_input_reg, retry_tx_eq, retry_rx_eq,
      if_neg (not_not.mpr h1'), if_pos h2']
  · intro h
    simp only [tca95xx_16bit.read_input_reg] at h ⊢
    split at h
    · rename_i h1
      rw [if_pos h1]
    · rename_i h1
      rw [if_neg h1]
      split at h
      · rename_i h2
        rw [if_pos h2]
      · exact absurd rfl h

/-- Witness of C7: a selector transmit answered `ESP_FAIL` ends the read
with nothing stored and no receive. -/
theorem C7_read_input_first_failure_aborts_witness :
    (tca95xx_16bit.read_input_reg (scriptedEnv [ESP_FAIL] true) sampleTca bootWorld).2.1 = none ∧
    (newEvents bootWorld (tca95xx_16bit.read_input_reg (scriptedEnv [ESP_FAIL] true) sampleTca
      bootWorld).2.2).countP Event.isReceive = 0 :=
  have h := (C7_read_input_first_failure_aborts (scriptedEnv [ESP_FAIL] true) sampleTca
    bootWorld).1 (by decide)
  ⟨congrArg (fun x => x.2.1) h.1, h.2⟩

theorem fillBuffer_length (buf ds : List Nat) : (fillBuffer buf ds).length = buf.length := by
  simp [fillBuffer]
  omega

theorem rxFill_length (env : Env) (len : Nat) (buf : List Nat) (i : Nat) :
    (rxFill env len buf i).length = buf.length :=
  fillBuffer_length _ _

theorem retryAttempts_pos (env : Env) (n : Nat) : 1 ≤ retryAttempts env n := by
  unfold retryAttempts
  split_ifs <;> omega

theorem retryBuffer_last (env : Env) (len : Nat) (buf : List Nat) (n : Nat) :
    ∃ buf', buf'.length = buf.length ∧
      retryBuffer env len buf n = rxFill env len buf' (n + retryAttempts env n - 1) := by
  unfold retryBuffer retryAttempts
  split_ifs
  · exact ⟨buf, rfl, rfl⟩
  · exact ⟨_, rxFill_length env len buf n, rfl⟩
  · exact ⟨_, (rxFill_length env len _ (n + 1)).trans (rxFill_length env len buf n), rfl⟩
  · exact ⟨_, (rxFill_length env len _ (n + 2)).trans
      ((rxFill_length env len _ (n + 1)).trans (rxFill_length env len buf n)), rfl⟩

theorem rxFill_two (env : Env) (buf : List Nat) (i b0 b1 : Nat) (hlen : buf.length = 2)
    (hd : (env.xfer i).data = [b0, b1]) (h0 : b0 < 256) (h1 : b1 < 256) :
    rxFill env 2 buf i = [b0, b1] := by
  match buf, hlen with
  | [x, y], _ =>
    simp [rxFill, fillBuffer, hd, Nat.mod_eq_of_lt h0, Nat.mod_eq_of_lt h1]

theorem or_shift_bytes (b0 b1 : Nat) (h0 : b0 < 256) :
    b0 ||| (b1 <<< 8) = b0 + 256 * b1 := by
  have h3 : b0 < 2 ^ 8 := by omega
  rw [Nat.shiftLeft_eq, Nat.lor_comm, Nat.mul_comm, ← Nat.mul_add_lt_is_or h3]
  omega

theorem tca_read_input_reg_ok_events (env : Env)
    (tca : tca95xx_16bit.esp_io_expander_tca95xx_16bit_t) (w : World)
    (hok : (tca95xx_16bit.read_input_reg env tca w).1 = ESP_OK) :
    ∃ e1 e2, newEvents w (tca95xx_16bit.read_input_reg env tca w).2.2 = e1 ++ e2 ∧
      e1.head? = some (Event.transmit tca.i2c_dev [0x00] tca95xx_16bit.I2C_TIMEOUT_MS
        (env.xfer w.xfers).status) ∧
      e1.getLast? = some (Event.transmit tca.i2c_dev [0x00] tca95xx_16bit.I2C_TIMEOUT_MS
        ESP_OK) ∧
      (∀ e ∈ e1, e.isXfer = true →
        ∃ st, e = Event.transmit tca.i2c_dev [0x00] tca95xx_16bit.I2C_TIMEOUT_MS st) ∧
      e2.head? = some (Event.receive tca.i2c_dev 2 tca95xx_16bit.I2C_TIMEOUT_MS
        (env.xfer (w.xfers + e1.countP Event.isXfer)).status) ∧
      e2.getLast? = some (Event.receive tca.i2c_dev 2 tca95xx_16bit.I2C_TIMEOUT_MS ESP_OK) ∧
      (∀ e ∈ e2, e.isXfer = true →
        ∃ st, e = Event.receive tca.i2c_dev 2 tca95xx_16bit.I2C_TIMEOUT_MS st) := by
  simp only [tca95xx_16bit.read_input_reg, retry_tx_eq, retry_rx_eq] at hok ⊢
  split at hok
  · rename_i c1
    exact absurd hok c1
  · rename_i c1
    rw [if_neg c1]
    split at hok
    · rename_i c2
      exact absurd hok c2
    · rename_i c2
      rw [if_neg c2]
      simp only [List.append_assoc, newEvents_mk]
      refine ⟨_, _, rfl, rfl, ?_, ?_, ?_, ?_, ?_⟩
      · rw [retryEvents_last, not_not.mp c1]
        rfl
      · intro e he hx
        obtain ⟨s, hs⟩ := retryEvents_xfer_mem _ _ _ _ _ e he hx
        exact ⟨s, hs⟩
      · rw [retryEvents_countP_isXfer _ _ _ _ _ (isXfer_transmit _ _ _)]
        rfl
      · rw [retryEvents_last, not_not.mp c2]
      · intro e he hx
        obtain ⟨s, hs⟩ := retryEvents_xfer_mem _ _ _ _ _ e he hx
        exact ⟨s, hs⟩

/-- C8: when the 16-bit `read_input_reg` reports success and the receive
that succeeded (the last transport call of the read) delivered the bytes `b0`
then `b1`, the value stored through `value` is `b0 | (b1 << 8)`, which is
`b0 + 256 * b1` and below 65536; every transmit of the read carries the single
byte `0x00`, and the read ends with the two-byte receive that succeeded. The
selector is transmitted, and before any receive: the events of the read are a
selector phase followed by a receive phase; the selector phase begins with a
transmit of the single byte `0x00` (the first event of the read), ends with
the transmit of `0x00` that succeeded, and all its transport calls are such
transmits; the receive phase begins with a two-byte receive, and all its
transport calls are two-byte receives. -/
theorem C8_read_input_value (env : Env) (tca : tca95xx_16bit.esp_io_expander_tca95xx_16bit_t)
    (w : World) (b0 b1 : Nat)
    (hok : (tca95xx_16bit.read_input_reg env tca w).1 = ESP_OK)
    (hdata : (env.xfer ((tca95xx_16bit.read_input_reg env tca w).2.2.xfers - 1)).data = [b0, b1])
    (h0 : b0 < 256) (h1 : b1 < 256) :
    (tca95xx_16bit.read_input_reg env tca w).2.1 = some (b0 ||| (b1 <<< 8)) ∧
    b0 ||| (b1 <<< 8) = b0 + 256 * b1 ∧
    b0 + 256 * b1 < 65536 ∧
    (∀ e ∈ newEvents w (tca95xx_16bit.read_input_reg env tca w).2.2, e.isTransmit = true →
      ∃ st, e = Event.transmit tca.i2c_dev [0x00] tca95xx_16bit.I2C_TIMEOUT_MS st) ∧
    (newEvents w (tca95xx_16bit.read_input_reg env tca w).2.2).getLast? =
      some (Event.receive tca.i2c_dev 2 tca95xx_16bit.I2C_TIMEOUT_MS ESP_OK) ∧
    (newEvents w (tca95xx_16bit.read_input_reg env tca w).2.2).head? =
      some (Event.transmit tca.i2c_dev [0x00] tca95xx_16bit.I2C_TIMEOUT_MS
        (env.xfer w.xfers).status) ∧
    1 ≤ (newEvents w (tca95xx_16bit.read_input_reg env tca w).2.2).countP Event.isTransmit ∧
    (∃ e1 e2, newEvents w (tca95xx_16bit.read_input_reg env tca w).2.2 = e1 ++ e2 ∧
      e1.head? = some (Event.transmit tca.i2c_dev [0x00] tca95xx_16bit.I2C_TIMEOUT_MS
        (env.xfer w.xfers).status) ∧
      e1.getLast? = some (Event.transmit tca.i2c_dev [0x00] tca95xx_16bit.I2C_TIMEOUT_MS
        ESP_OK) ∧
      (∀ e ∈ e1, e.isXfer = true →
        ∃ st, e = Event.transmit tca.i2c_dev [0x00] tca95xx_16bit.I2C_TIMEOUT_MS st) ∧
      e2.head? = some (Event.receive tca.i2c_dev 2 tca95xx_16bit.I2C_TIMEOUT_MS
        (env.xfer (w.xfers + e1.countP Event.isXfer)).status) ∧
      e2.getLast? = some (Event.receive tca.i2c_dev 2 tca95xx_16bit.I2C_TIMEOUT_MS ESP_OK) ∧
      (∀ e ∈ e2, e.isXfer = true →
        ∃ st, e = Event.receive tca.i2c_dev 2 tca95xx_16bit.I2C_TIMEOUT_MS st)) := by
  obtain ⟨e1, e2, hsplit, hh1, hl1, hx1, hh2, hl2, hx2⟩ :=
    tca_read_input_reg_ok_events env tca w hok
  have hhead : (newEvents w (tca95xx_16bit.read_input_reg env tca w).2.2).head? =
      some (Event.transmit tca.i2c_dev [0x00] tca95xx_16bit.I2C_TIMEOUT_MS
        (env.xfer w.xfers).status) := by
    rw [hsplit]
    cases e1 with
    | nil => simp at hh1
    | cons a t => simpa using hh1
  have hcount : 1 ≤ (newEvents w (tca95xx_16bit.read_input_reg env tca w).2.2).countP
      Event.isTransmit := by
    cases hne : newEvents w (tca95xx_16bit.read_input_reg env tca w).2.2 with
    | nil => rw [hne] at hhead; simp at hhead
    | cons a t =>
      rw [hne] at hhead
      simp only [List.head?_cons, Option.some.injEq] at hhead
      rw [hhead, List.countP_cons]
      simp [Event.isTransmit]
  refine ⟨?_, or_shift_bytes b0 b1 h0, by omega, ?_, ?_, hhead, hcount,
    ⟨e1, e2, hsplit, hh1, hl1, hx1, hh2, hl2, hx2⟩⟩
  · simp only [tca95xx_16bit.read_input_reg, retry_tx_eq, retry_rx_eq] at hok hdata ⊢
    split at hok
    · rename_i c1
      exact absurd hok c1
    · rename_i c1
      rw [if_neg c1] at hdata ⊢
      split at hok
      · rename_i c2
        exact absurd hok c2
      · rename_i c2
        rw [if_neg c2] at hdata ⊢
        obtain ⟨buf', hlen, hbuf⟩ := retryBuffer_last env 2 [0, 0]
          (w.xfers + retryAttempts env w.xfers)
        simp only at hdata
        rw [hbuf, rxFill_two env buf' _ b0 b1 hlen hdata h0 h1]
        have hb : (b1 <<< 8) % 4294967296 = b1 <<< 8 := by
          rw [Nat.shiftLeft_eq]
          omega
        simp [hb, Nat.lor_comm]
  · intro e he htx
    have hx : e.isXfer = true := by
      cases e <;> simp [Event.isTransmit, Event.isXfer] at htx ⊢
    simp only [tca95xx_16bit.read_input_reg, retry_tx_eq, retry_rx_eq] at he
    split at he
    · rw [newEvents_mk] at he
      obtain ⟨s, hs⟩ := retryEvents_xfer_mem _ _ _ _ _ e he hx
      exact ⟨s, hs⟩
    · have hmem : e ∈ retryEvents env tca.i2c_num
          (Event.transmit tca.i2c_dev (List.take 1 [tca95xx_16bit.INPUT_REG_ADDR])
            tca95xx_16bit.I2C_TIMEOUT_MS) w.lookups w.xfers ++
          retryEvents env tca.i2c_num (Event.receive tca.i2c_dev 2 tca95xx_16bit.I2C_TIMEOUT_MS)
            (w.lookups + (retryAttempts env w.xfers - 1))
            (w.xfers + retryAttempts env w.xfers) := by
        split at he <;>
          simpa only [List.append_assoc, newEvents_mk] using he
      rcases List.mem_append.mp hmem with h | h
      · obtain ⟨s, hs⟩ := retryEvents_xfer_mem _ _ _ _ _ e h hx
        exact ⟨s, hs⟩
      · obtain ⟨s, hs⟩ := retryEvents_xfer_mem _ _ _ _ _ e h hx
        rw [hs] at htx
        exact Bool.noConfusion htx
  · simp only [tca95xx_16bit.read_input_reg, retry_tx_eq, retry_rx_eq] at hok ⊢
    split at hok
    · rename_i c1
      exact absurd hok c1
    · rename_i c1
      rw [if_neg c1]
      split at hok
      · rename_i c2
        exact absurd hok c2
      · rename_i c2
        rw [if_neg c2]
        simp only [List.append_assoc, newEvents_mk]
        rw [List.getLast?_append, retryEvents_last, not_not.mp c2]
        rfl

/-- Witness of C8: the transport delivers `0x34` then `0x12`, the value read
is `0x1234`, and the read begins with the transmit of the selector `0x00`. -/
theorem C8_read_input_value_witness :
    (tca95xx_16bit.read_input_reg (scriptedEnv [] true) sampleTca bootWorld).2.1 =
      some (0x34 ||| (0x12 <<< 8)) ∧
    0x34 ||| (0x12 <<< 8) = 0x34 + 256 * 0x12 ∧
    (newEvents bootWorld
        (tca95xx_16bit.read_input_reg (scriptedEnv [] true) sampleTca bootWorld).2.2).head? =
      some (Event.transmit sampleTca.i2c_dev [0x00] tca95xx_16bit.I2C_TIMEOUT_MS
        ((scriptedEnv [] true).xfer bootWorld.xfers).status) :=
  have h := C8_read_input_value (scriptedEnv [] true) sampleTca bootWorld 0x34 0x12
    (by decide) (by decide) (by decide) (by decide)
  ⟨h.1, h.2.1, h.2.2.2.2.2.1⟩

/-! ## Reset and construction -/

theorem isXfer_of_isTransmit (e : Event) (h : e.isTransmit = true) : e.isXfer = true := by
  cases e <;> simp [Event.isTransmit, Event.isXfer] at h ⊢

theorem tca_write_direction_default_events (env : Env)
    (tca : tca95xx_16bit.esp_io_expander_tca95xx_16bit_t) (w : World) :
    ∃ evs, (tca95xx_16bit.write_direction_reg env tca tca95xx_16bit.DIR_REG_DEFAULT_VAL
        w).2.2.trace = w.trace ++ evs ∧
      ∀ e ∈ evs, e.isXfer = true →
        ∃ st, e = Event.transmit tca.i2c_dev [0x06, 0xFF, 0xFF] tca95xx_16bit.I2C_TIMEOUT_MS st := by
  refine ⟨_, tca_write_direction_reg_trace env tca _ w, fun e he hx => ?_⟩
  obtain ⟨s, hs⟩ := retryEvents_xfer_mem _ _ _ _ _ e he hx
  exact ⟨s, hs⟩

theorem tca_write_output_default_events (env : Env)
    (tca : tca95xx_16bit.esp_io_expander_tca95xx_16bit_t) (w : World) :
    ∃ evs, (tca95xx_16bit.write_output_reg env tca tca95xx_16bit.OUT_REG_DEFAULT_VAL
        w).2.2.trace = w.trace ++ evs ∧
      ∀ e ∈ evs, e.isXfer = true →
        ∃ st, e = Event.transmit tca.i2c_dev [0x02, 0xFF, 0xFF] tca95xx_16bit.I2C_TIMEOUT_MS st := by
  refine ⟨_, tca_write_output_reg_trace env tca _ w, fun e he hx => ?_⟩
  obtain ⟨s, hs⟩ := retryEvents_xfer_mem _ _ _ _ _ e he hx
  exact ⟨s, hs⟩

theorem tca_reset_of_direction_fail (env : Env)
    (tca : tca95xx_16bit.esp_io_expander_tca95xx_16bit_t) (w : World)
    (h : (tca95xx_16bit.write_direction_reg env tca tca95xx_16bit.DIR_REG_DEFAULT_VAL w).1 ≠
      ESP_OK) :
    tca95xx_16bit.reset env tca w =
      tca95xx_16bit.write_direction_reg env tca tca95xx_16bit.DIR_REG_DEFAULT_VAL w := by
  simp only [tca95xx_16bit.reset]
  rw [if_pos h]

theorem tca_reset_of_direction_ok (env : Env)
    (tca : tca95xx_16bit.esp_io_expander_tca95xx_16bit_t) (w : World)
    (h : (tca95xx_16bit.write_direction_reg env tca tca95xx_16bit.DIR_REG_DEFAULT_VAL w).1 =
      ESP_OK) :
    tca95xx_16bit.reset env tca w =
      tca95xx_16bit.write_output_reg env
        (tca95xx_16bit.write_direction_reg env tca tca95xx_16bit.DIR_REG_DEFAULT_VAL w).2.1
        tca95xx_16bit.OUT_REG_DEFAULT_VAL
        (tca95xx_16bit.write_direction_reg env tca tca95xx_16bit.DIR_REG_DEFAULT_VAL w).2.2 := by
  simp only [tca95xx_16bit.reset]
  rw [if_neg (not_not.mpr h)]
  split
  · rfl
  · rename_i h2
    have h2' := not_not.mp h2
    refine Prod.ext h2'.symm rfl

theorem retryEvents_head (env : Env) (port : Nat) (xev : esp_err_t → Event) (l n : Nat) :
    (retryEvents env port xev l n).head? = some (xev (statusAt env n 0)) := rfl

/-- C9: the 16-bit `reset` begins with the write of `0xFFFF` to the
direction register (register address `0x06`). When that write reports a status
other than success, `reset` ends there with that status: every transport call
of the reset is a transmit of `[0x06, 0xFF, 0xFF]`, so no transmit to the output
register (address `0x02`) is made. When it reports success, `reset` continues
with the write of `0xFFFF` to the output register: the events of the reset are
those of the direction write, ending with its successful transmit, followed by
those of the output write, which begin with a transmit of `[0x02, 0xFF, 0xFF]`.
A construction that attached its device and whose direction write then fails
reports the status of that write, stores nothing through the caller's handle,
and makes no transmit to the output register. -/
theorem C9_reset_direction_first (env : Env)
    (tca : tca95xx_16bit.esp_io_expander_tca95xx_16bit_t) (w : World)
    (i2c_num i2c_address : Nat) :
    (let d := tca95xx_16bit.write_direction_reg env tca tca95xx_16bit.DIR_REG_DEFAULT_VAL w
     (d.1 ≠ ESP_OK →
        tca95xx_16bit.reset env tca w = d ∧
        (∀ e ∈ newEvents w (tca95xx_16bit.reset env tca w).2.2, e.isXfer = true →
          ∃ st, e = Event.transmit tca.i2c_dev [0x06, 0xFF, 0xFF]
            tca95xx_16bit.I2C_TIMEOUT_MS st) ∧
        (∀ e ∈ newEvents w (tca95xx_16bit.reset env tca w).2.2, ∀ dv bs t st,
          e ≠ Event.transmit dv (tca95xx_16bit.OUTPUT_REG_ADDR :: bs) t st)) ∧
     (d.1 = ESP_OK →
        tca95xx_16bit.reset env tca w =
          tca95xx_16bit.write_output_reg env d.2.1 tca95xx_16bit.OUT_REG_DEFAULT_VAL d.2.2 ∧
        ∃ e1 e2 st, newEvents w (tca95xx_16bit.reset env tca w).2.2 = e1 ++ e2 ∧
          newEvents w d.2.2 = e1 ∧
          e1.getLast? = some (Event.transmit tca.i2c_dev [0x06, 0xFF, 0xFF]
            tca95xx_16bit.I2C_TIMEOUT_MS ESP_OK) ∧
          e2.head? = some (Event.transmit tca.i2c_dev [0x02, 0xFF, 0xFF]
            tca95xx_16bit.I2C_TIMEOUT_MS st) ∧
          (∀ e ∈ e1, e.isXfer = true → ∃ s, e = Event.transmit tca.i2c_dev [0x06, 0xFF, 0xFF]
            tca95xx_16bit.I2C_TIMEOUT_MS s) ∧
          (∀ e ∈ e2, e.isXfer = true → ∃ s, e = Event.transmit tca.i2c_dev [0x02, 0xFF, 0xFF]
            tca95xx_16bit.I2C_TIMEOUT_MS s))) ∧
    (let a := esp_expander_i2c_ng_add_device env i2c_num (i2c_address % 2 ^ 16) true none
        (calloc env w).2
     let d := tca95xx_16bit.write_direction_reg env
        { io_count := tca95xx_16bit.IO_COUNT, dir_out_bit_zero := 1, i2c_num := i2c_num,
          i2c_address := i2c_address, i2c_dev := a.2.1, direction := 0, output := 0 }
        tca95xx_16bit.DIR_REG_DEFAULT_VAL a.2.2
     i2c_num < env.I2C_NUM_MAX → (calloc env w).1 = true → a.1 = ESP_OK → d.1 ≠ ESP_OK →
        (tca95xx_16bit.esp_io_expander_new_i2c_tca95xx_16bit env i2c_num i2c_address true w).1 =
          d.1 ∧
        (tca95xx_16bit.esp_io_expander_new_i2c_tca95xx_16bit env i2c_num i2c_address true
          w).2.1 = none ∧
        (∀ e ∈ newEvents w (tca95xx_16bit.esp_io_expander_new_i2c_tca95xx_16bit env i2c_num
            i2c_address true w).2.2, ∀ dv bs t st,
          e ≠ Event.transmit dv (tca95xx_16bit.OUTPUT_REG_ADDR :: bs) t st)) := by
  have hno : ∀ (evs : List Event) (dev : Option Nat),
      (∀ e ∈ evs, e.isXfer = true → ∃ st, e = Event.transmit dev [0x06, 0xFF, 0xFF]
        tca95xx_16bit.I2C_TIMEOUT_MS st) →
      ∀ e ∈ evs, ∀ dv bs t st,
        e ≠ Event.transmit dv (tca95xx_16bit.OUTPUT_REG_ADDR :: bs) t st := by
    intro evs dev h e he dv bs t st heq
    obtain ⟨s, hs⟩ := h e he (by rw [heq]; rfl)
    rw [heq] at hs
    simp [tca95xx_16bit.OUTPUT_REG_ADDR] at hs
  constructor
  · intro d
    obtain ⟨e1, ht1, hx1⟩ := tca_write_direction_default_events env tca w
    constructor
    · intro h
      have hr := tca_reset_of_direction_fail env tca w h
      have hne : newEvents w (tca95xx_16bit.reset env tca w).2.2 = e1 :=
        newEvents_append _ _ _ (by rw [hr, ht1])
      rw [hne]
      exact ⟨hr, hx1, hno e1 _ hx1⟩
    · intro h
      have hr := tca_reset_of_direction_ok env tca w h
      obtain ⟨e2, ht2, hx2⟩ := tca_write_output_default_events env d.2.1 d.2.2
      have hdev : d.2.1.i2c_dev = tca.i2c_dev := by
        show (tca95xx_16bit.write_direction_reg env tca _ w).2.1.i2c_dev = _
        rw [tca_write_direction_reg_ok env tca _ w h]
      have hne : newEvents w (tca95xx_16bit.reset env tca w).2.2 = e1 ++ e2 :=
        newEvents_append _ _ _ (by rw [hr, ht2, ht1, List.append_assoc])
      have hl : e1.getLast? = some (Event.transmit tca.i2c_dev [0x06, 0xFF, 0xFF]
          tca95xx_16bit.I2C_TIMEOUT_MS ESP_OK) := by
        have hst := tca_write_direction_reg_status env tca tca95xx_16bit.DIR_REG_DEFAULT_VAL w
        have := tca_write_direction_reg_trace env tca tca95xx_16bit.DIR_REG_DEFAULT_VAL w
        rw [ht1] at this
        rw [List.append_cancel_left this, retryEvents_last, ← hst, h]
        rfl
      have hh : ∃ st, e2.head? = some (Event.transmit tca.i2c_dev [0x02, 0xFF, 0xFF]
          tca95xx_16bit.I2C_TIMEOUT_MS st) := by
        have := tca_write_output_reg_trace env d.2.1 tca95xx_16bit.OUT_REG_DEFAULT_VAL d.2.2
        rw [ht2] at this
        rw [List.append_cancel_left this, retryEvents_head, hdev]
        exact ⟨_, rfl⟩
      obtain ⟨st, hst⟩ := hh
      rw [hdev] at hx2
      exact ⟨hr, e1, e2, st, hne, newEvents_append _ _ _ ht1, hl, hst, hx1, hx2⟩
  · intro a d h1 h2 h3 h4
    obtain ⟨ea, hta, hea⟩ := i2c_ng_add_device_trace env i2c_num (i2c_address % 2 ^ 16) true none
      (calloc env w).2
    obtain ⟨e1, ht1, hx1⟩ := tca_write_direction_default_events env
      { io_count := tca95xx_16bit.IO_COUNT, dir_out_bit_zero := 1, i2c_num := i2c_num,
        i2c_address := i2c_address, i2c_dev := a.2.1, direction := 0, output := 0 } a.2.2
    have hr := tca_reset_of_direction_fail env _ _ h4
    have hc : (tca95xx_16bit.esp_io_expander_new_i2c_tca95xx_16bit env i2c_num i2c_address true
        w) = (d.1, none, free d.2.2) := by
      simp only [tca95xx_16bit.esp_io_expander_new_i2c_tca95xx_16bit]
      rw [if_neg (not_not.mpr h1), if_neg (by simp), if_neg (not_not.mpr h2),
        if_neg (not_not.mpr h3), hr, if_pos h4]
    rw [hc]
    refine ⟨rfl, rfl, ?_⟩
    have hne : newEvents w (free d.2.2) =
        [Event.calloc (env.allocOk w.allocs)] ++ ea ++ e1 ++ [Event.free] :=
      newEvents_append _ _ _ (by
        have hd2 : d.2.2.trace = a.2.2.trace ++ e1 := ht1
        have ha2 : a.2.2.trace = (calloc env w).2.trace ++ ea := hta
        show d.2.2.trace ++ [Event.free] = _
        rw [hd2, ha2]
        simp only [calloc, List.append_assoc])
    intro e he dv bs t st heq
    simp only [hne, List.mem_append, List.mem_singleton] at he
    rcases he with ((he | he) | he) | he
    · rw [heq] at he
      exact Event.noConfusion he
    · have := hea e he
      rw [heq] at this
      exact Bool.noConfusion this
    · exact hno e1 _ hx1 e he dv bs t st heq
    · rw [heq] at he
      exact Event.noConfusion he

/-- Witness of C9: the transport answers `ESP_FAIL` to the direction write
of a construction, which then reports `ESP_FAIL` and stores no handle. -/
theorem C9_reset_direction_first_witness :
    (tca95xx_16bit.esp_io_expander_new_i2c_tca95xx_16bit (scriptedEnv [ESP_FAIL] true) 0 0x21
      true bootWorld).1 = ESP_FAIL ∧
    (tca95xx_16bit.esp_io_expander_new_i2c_tca95xx_16bit (scriptedEnv [ESP_FAIL] true) 0 0x21
      true bootWorld).2.1 = none :=
  have h := (C9_reset_direction_first (scriptedEnv [ESP_FAIL] true) sampleTca bootWorld 0
    0x21).2 (by decide) (by decide) (by decide) (by decide)
  ⟨h.1, h.2.1⟩

theorem filter_isXfer_of_none (evs : List Event) (h : ∀ e ∈ evs, e.isXfer = false) :
    evs.filter Event.isXfer = [] := by
  rw [List.filter_eq_nil_iff]
  intro e he
  rw [h e he]
  exact Bool.false_ne_true

/-- C10: right after a successful construction, the 16-bit device reports
`0xFFFF` for `read_output_reg` and for `read_direction_reg`; the 8-bit device
reports `0xFF` for `read_output_reg` and `0`, the value the allocation left, for
`read_direction_reg`, and the only transport transfer its construction made is
one transmit of the single byte `0xFF`. A `write_output_reg 0x00` on that 8-bit
device that reports success makes `read_output_reg` report `0x00`. -/
theorem C10_state_after_construction (env : Env) (i2c_num i2c_address : Nat) (handle : Bool)
    (w : World) :
    (∀ tca0,
      (tca95xx_16bit.esp_io_expander_new_i2c_tca95xx_16bit env i2c_num i2c_address handle
        w).1 = ESP_OK →
      (tca95xx_16bit.esp_io_expander_new_i2c_tca95xx_16bit env i2c_num i2c_address handle
        w).2.1 = some tca0 →
      tca95xx_16bit.read_output_reg tca0 = (ESP_OK, 0xFFFF) ∧
      tca95xx_16bit.read_direction_reg tca0 = (ESP_OK, 0xFFFF)) ∧
    ((tca95xx_16bit.esp_io_expander_new_i2c_tca95xx_16bit env i2c_num i2c_address handle
        w).1 = ESP_OK →
      (tca95xx_16bit.esp_io_expander_new_i2c_tca95xx_16bit env i2c_num i2c_address handle
        w).2.1.isSome = true) ∧
    (∀ ht0,
      (ht8574.esp_io_expander_new_i2c_ht8574 env i2c_num i2c_address handle w).1 = ESP_OK →
      (ht8574.esp_io_expander_new_i2c_ht8574 env i2c_num i2c_address handle w).2.1 = some ht0 →
      ht8574.read_output_reg ht0 = (ESP_OK, 0xFF) ∧
      ht8574.read_direction_reg ht0 = (ESP_OK, 0) ∧
      (newEvents w (ht8574.esp_io_expander_new_i2c_ht8574 env i2c_num i2c_address handle
          w).2.2).filter Event.isXfer =
        [Event.transmit ht0.i2c_dev [0xFF] ht8574.I2C_TIMEOUT_MS ESP_OK] ∧
      ∀ w', (ht8574.write_output_reg env ht0 0x00 w').1 = ESP_OK →
        ht8574.read_output_reg (ht8574.write_output_reg env ht0 0x00 w').2.1 = (ESP_OK, 0x00)) ∧
    ((ht8574.esp_io_expander_new_i2c_ht8574 env i2c_num i2c_address handle w).1 = ESP_OK →
      (ht8574.esp_io_expander_new_i2c_ht8574 env i2c_num i2c_address handle w).2.1.isSome =
        true) := by
  refine ⟨?_, ?_, ?_, ?_⟩
  · intro tca0 hok hsome
    obtain ⟨t, _, hs, ho, hd, _, _, _⟩ := tca_new_ok env i2c_num i2c_address handle w hok
    rw [hsome] at hs
    cases Option.some.inj hs
    simp only [tca95xx_16bit.read_output_reg, tca95xx_16bit.read_direction_reg, ho, hd]
    exact ⟨trivial, trivial⟩
  · intro hok
    obtain ⟨t, _, hs, _⟩ := tca_new_ok env i2c_num i2c_address handle w hok
    rw [hs]
    rfl
  · intro ht0 hok hsome
    obtain ⟨t, pre, hs, ho, hd, htr, hpre⟩ := ht_new_ok env i2c_num i2c_address handle w hok
    rw [hsome] at hs
    cases Option.some.inj hs
    refine ⟨?_, ?_, ?_, ?_⟩
    · simp only [ht8574.read_output_reg, ho]
    · simp only [ht8574.read_direction_reg, hd]
    · rw [newEvents_append _ _ _ htr, List.filter_append, filter_isXfer_of_none pre hpre]
      rfl
    · intro w' hw
      rw [ht_write_output_reg_ok env ht0 0 w' hw]
      rfl
  · intro hok
    obtain ⟨t, _, hs, _⟩ := ht_new_ok env i2c_num i2c_address handle w hok
    rw [hs]
    rfl

/-- Witness of C10: the 8-bit construction at address `0x20` over a
transport that answers success. -/
theorem C10_state_after_construction_witness :
    ht8574.read_output_reg sampleHt = (ESP_OK, 0xFF) ∧
    ht8574.read_direction_reg sampleHt = (ESP_OK, 0) ∧
    tca95xx_16bit.read_output_reg sampleTca = (ESP_OK, 0xFFFF) :=
  have h8 := (C10_state_after_construction (scriptedEnv [] true) 0 0x20 true bootWorld).2.2.1
    sampleHt (by decide) (by decide)
  have h16 := (C10_state_after_construction (scriptedEnv [] true) 0 0x21 true bootWorld).1
    sampleTca (by decide) (by decide)
  ⟨h8.1, h8.2.1, h16.1⟩

/-! ## Construction: error paths -/

theorem tca_new_eq_of_reset_fail (env : Env) (i2c_num i2c_address : Nat) (w : World)
    (h1 : i2c_num < env.I2C_NUM_MAX) (h2 : (calloc env w).1 = true)
    (h3 : (esp_expander_i2c_ng_add_device env i2c_num (i2c_address % 2 ^ 16) true none
      (calloc env w).2).1 = ESP_OK)
    (h4 : (tca95xx_16bit.reset env
      { io_count := tca95xx_16bit.IO_COUNT, dir_out_bit_zero := 1, i2c_num := i2c_num,
        i2c_address := i2c_address,
        i2c_dev := (esp_expander_i2c_ng_add_device env i2c_num (i2c_address % 2 ^ 16) true none
          (calloc env w).2).2.1, direction := 0, output := 0 }
      (esp_expander_i2c_ng_add_device env i2c_num (i2c_address % 2 ^ 16) true none
        (calloc env w).2).2.2).1 ≠ ESP_OK) :
    tca95xx_16bit.esp_io_expander_new_i2c_tca95xx_16bit env i2c_num i2c_address true w =
      ((tca95xx_16bit.reset env
        { io_count := tca95xx_16bit.IO_COUNT, dir_out_bit_zero := 1, i2c_num := i2c_num,
          i2c_address := i2c_address,
          i2c_dev := (esp_expander_i2c_ng_add_device env i2c_num (i2c_address % 2 ^ 16) true none
            (calloc env w).2).2.1, direction := 0, output := 0 }
        (esp_expander_i2c_ng_add_device env i2c_num (i2c_address % 2 ^ 16) true none
          (calloc env w).2).2.2).1, none,
       free (tca95xx_16bit.reset env
        { io_count := tca95xx_16bit.IO_COUNT, dir_out_bit_zero := 1, i2c_num := i2c_num,
          i2c_address := i2c_address,
          i2c_dev := (esp_expander_i2c_ng_add_device env i2c_num (i2c_address % 2 ^ 16) true none
            (calloc env w).2).2.1, direction := 0, output := 0 }
        (esp_expander_i2c_ng_add_device env i2c_num (i2c_address % 2 ^ 16) true none
          (calloc env w).2).2.2).2.2) := by
  simp only [tca95xx_16bit.esp_io_expander_new_i2c_tca95xx_16bit]
  rw [if_neg (not_not.mpr h1), if_neg (by simp), if_neg (not_not.mpr h2),
    if_neg (not_not.mpr h3), if_pos h4]

theorem tca_write_output_reg_attached (env : Env)
    (tca : tca95xx_16bit.esp_io_expander_tca95xx_16bit_t) (v : Nat) (w : World) :
    (tca95xx_16bit.write_output_reg env tca v w).2.2.attached = w.attached ∧
    (tca95xx_16bit.write_output_reg env tca v w).2.2.s_port_speed_hz = w.s_port_speed_hz := by
  simp only [tca95xx_16bit.write_output_reg, retry_tx_eq]
  split <;> exact ⟨rfl, rfl⟩

theorem tca_write_direction_reg_attached (env : Env)
    (tca : tca95xx_16bit.esp_io_expander_tca95xx_16bit_t) (v : Nat) (w : World) :
    (tca95xx_16bit.write_direction_reg env tca v w).2.2.attached = w.attached ∧
    (tca95xx_16bit.write_direction_reg env tca v w).2.2.s_port_speed_hz = w.s_port_speed_hz := by
  simp only [tca95xx_16bit.write_direction_reg, retry_tx_eq]
  split <;> exact ⟨rfl, rfl⟩

theorem tca_reset_attached (env : Env) (tca : tca95xx_16bit.esp_io_expander_tca95xx_16bit_t)
    (w : World) :
    (tca95xx_16bit.reset env tca w).2.2.attached = w.attached := by
  simp only [tca95xx_16bit.reset]
  split
  · exact (tca_write_direction_reg_attached env tca _ w).1
  · split <;>
      exact ((tca_write_output_reg_attached env _ _ _).1).trans
        (tca_write_direction_reg_attached env tca _ w).1

theorem ht_write_output_reg_attached (env : Env) (ht : ht8574.esp_io_expander_ht8574_t)
    (v : Nat) (w : World) :
    (ht8574.write_output_reg env ht v w).2.2.attached = w.attached := by
  simp only [ht8574.write_output_reg, i2c_master_transmit]
  split <;> rfl

theorem ht_reset_attached (env : Env) (ht : ht8574.esp_io_expander_ht8574_t) (w : World) :
    (ht8574.reset env ht w).2.2.attached = w.attached := by
  simp only [ht8574.reset]
  split <;> exact ht_write_output_reg_attached env ht _ w

theorem i2c_ng_add_device_ok (env : Env) (port addr7 : Nat) (out : Option Nat) (w : World)
    (h : (esp_expander_i2c_ng_add_device env port addr7 true out w).1 = ESP_OK) :
    (esp_expander_i2c_ng_add_device env port addr7 true out w).2.1 =
      some (env.attach w.attaches).dev ∧
    (esp_expander_i2c_ng_add_device env port addr7 true out w).2.2.attached =
      (env.attach w.attaches).dev :: w.attached := by
  have e1 : ESP_ERR_INVALID_ARG ≠ ESP_OK := by decide
  have e2 : ESP_ERR_INVALID_STATE ≠ ESP_OK := by decide
  by_cases h2 : port < env.I2C_NUM_MAX
  · cases hb : env.busHandle w.lookups (port % 256) with
    | none =>
      simp [esp_expander_i2c_ng_add_device, i2cBusHandle, h2, hb] at h
      exact absurd h e2
    | some bus =>
      by_cases h3 : (env.attach w.attaches).status = ESP_OK
      · simp [esp_expander_i2c_ng_add_device, i2cBusHandle, i2c_master_bus_add_device, h2,
          hb, h3]
      · simp [esp_expander_i2c_ng_add_device, i2cBusHandle, i2c_master_bus_add_device, h2,
          hb, h3] at h
  · simp [esp_expander_i2c_ng_add_device, h2] at h
    exact absurd h e1

theorem tca_new_reset_fail_keeps_device (env : Env) (i2c_num i2c_address : Nat) (w : World)
    (h1 : i2c_num < env.I2C_NUM_MAX) (h2 : (calloc env w).1 = true)
    (h3 : (esp_expander_i2c_ng_add_device env i2c_num (i2c_address % 2 ^ 16) true none
      (calloc env w).2).1 = ESP_OK)
    (h4 : (tca95xx_16bit.reset env
      { io_count := tca95xx_16bit.IO_COUNT, dir_out_bit_zero := 1, i2c_num := i2c_num,
        i2c_address := i2c_address,
        i2c_dev := (esp_expander_i2c_ng_add_device env i2c_num (i2c_address % 2 ^ 16) true none
          (calloc env w).2).2.1, direction := 0, output := 0 }
      (esp_expander_i2c_ng_add_device env i2c_num (i2c_address % 2 ^ 16) true none
        (calloc env w).2).2.2).1 ≠ ESP_OK) :
    (tca95xx_16bit.esp_io_expander_new_i2c_tca95xx_16bit env i2c_num i2c_address true
      w).2.1 = none ∧
    (tca95xx_16bit.esp_io_expander_new_i2c_tca95xx_16bit env i2c_num i2c_address true
      w).2.2.attached = (env.attach w.attaches).dev :: w.attached := by
  rw [tca_new_eq_of_reset_fail env i2c_num i2c_address w h1 h2 h3 h4]
  refine ⟨rfl, ?_⟩
  show (tca95xx_16bit.reset env _ _).2.2.attached = _
  rw [tca_reset_attached, (i2c_ng_add_device_ok env _ _ _ _ h3).2]
  rfl

theorem ht_new_eq_of_reset_fail (env : Env) (i2c_num i2c_address : Nat) (w : World)
    (h1 : i2c_num < env.I2C_NUM_MAX) (h2 : (calloc env w).1 = true)
    (h3 : (esp_expander_i2c_ng_add_device env i2c_num (i2c_address % 2 ^ 16) true none
      (calloc env w).2).1 = ESP_OK)
    (h4 : (ht8574.reset env
      { io_count := ht8574.IO_COUNT, dir_out_bit_zero := 1, i2c_num := i2c_num,
        i2c_address := i2c_address,
        i2c_dev := (esp_expander_i2c_ng_add_device env i2c_num (i2c_address % 2 ^ 16) true none
          (calloc env w).2).2.1, direction := 0, output := 0 }
      (esp_expander_i2c_ng_add_device env i2c_num (i2c_address % 2 ^ 16) true none
        (calloc env w).2).2.2).1 ≠ ESP_OK) :
    ht8574.esp_io_expander_new_i2c_ht8574 env i2c_num i2c_address true w =
      ((ht8574.reset env
        { io_count := ht8574.IO_COUNT, dir_out_bit_zero := 1, i2c_num := i2c_num,
          i2c_address := i2c_address,
          i2c_dev := (esp_expander_i2c_ng_add_device env i2c_num (i2c_address % 2 ^ 16) true none
            (calloc env w).2).2.1, direction := 0, output := 0 }
        (esp_expander_i2c_ng_add_device env i2c_num (i2c_address % 2 ^ 16) true none
          (calloc env w).2).2.2).1, none,
       free (ht8574.reset env
        { io_count := ht8574.IO_COUNT, dir_out_bit_zero := 1, i2c_num := i2c_num,
          i2c_address := i2c_address,
          i2c_dev := (esp_expander_i2c_ng_add_device env i2c_num (i2c_address % 2 ^ 16) true none
            (calloc env w).2).2.1, direction := 0, output := 0 }
        (esp_expander_i2c_ng_add_device env i2c_num (i2c_address % 2 ^ 16) true none
          (calloc env w).2).2.2).2.2) := by
  simp only [ht8574.esp_io_expander_new_i2c_ht8574]
  rw [if_neg (not_not.mpr h1), if_neg (by simp), if_neg (not_not.mpr h2),
    if_neg (not_not.mpr h3), if_pos h4]

theorem ht_new_reset_fail_keeps_device (env : Env) (i2c_num i2c_address : Nat) (w : World)
    (h1 : i2c_num < env.I2C_NUM_MAX) (h2 : (calloc env w).1 = true)
    (h3 : (esp_expander_i2c_ng_add_device env i2c_num (i2c_address % 2 ^ 16) true none
      (calloc env w).2).1 = ESP_OK)
    (h4 : (ht8574.reset env
      { io_count := ht8574.IO_COUNT, dir_out_bit_zero := 1, i2c_num := i2c_num,
        i2c_address := i2c_address,
        i2c_dev := (esp_expander_i2c_ng_add_device env i2c_num (i2c_address % 2 ^ 16) true none
          (calloc env w).2).2.1, direction := 0, output := 0 }
      (esp_expander_i2c_ng_add_device env i2c_num (i2c_address % 2 ^ 16) true none
        (calloc env w).2).2.2).1 ≠ ESP_OK) :
    (ht8574.esp_io_expander_new_i2c_ht8574 env i2c_num i2c_address true w).2.1 = none ∧
    (ht8574.esp_io_expander_new_i2c_ht8574 env i2c_num i2c_address true w).2.2.attached =
      (env.attach w.attaches).dev :: w.attached := by
  rw [ht_new_eq_of_reset_fail env i2c_num i2c_address w h1 h2 h3 h4]
  refine ⟨rfl, ?_⟩
  show (ht8574.reset env _ _).2.2.attached = _
  rw [ht_reset_attached, (i2c_ng_add_device_ok env _ _ _ _ h3).2]
  rfl

/-- C11, the defect: both constructors, run on a live bus where the attach
succeeds (device handle `40`) and the first transmit of the reset is answered
`ESP_FAIL`, report `ESP_FAIL` and store no handle, but no device is detached:
the trace of the call holds an attach and no detach, and the device `40` is
still registered at the transport afterwards although none was before. -/
theorem C11_reset_failure_leaves_device_attached :
    ((tca95xx_16bit.esp_io_expander_new_i2c_tca95xx_16bit (scriptedEnv [ESP_FAIL] true) 0 0x21
        true bootWorld).1 = ESP_FAIL ∧
      (tca95xx_16bit.esp_io_expander_new_i2c_tca95xx_16bit (scriptedEnv [ESP_FAIL] true) 0 0x21
        true bootWorld).2.1 = none ∧
      (newEvents bootWorld (tca95xx_16bit.esp_io_expander_new_i2c_tca95xx_16bit
        (scriptedEnv [ESP_FAIL] true) 0 0x21 true bootWorld).2.2).countP Event.isAddDevice = 1 ∧
      (newEvents bootWorld (tca95xx_16bit.esp_io_expander_new_i2c_tca95xx_16bit
        (scriptedEnv [ESP_FAIL] true) 0 0x21 true bootWorld).2.2).countP Event.isRmDevice = 0 ∧
      bootWorld.attached = [] ∧
      (tca95xx_16bit.esp_io_expander_new_i2c_tca95xx_16bit (scriptedEnv [ESP_FAIL] true) 0 0x21
        true bootWorld).2.2.attached = [40]) ∧
    ((ht8574.esp_io_expander_new_i2c_ht8574 (scriptedEnv [ESP_FAIL] true) 0 0x20 true
        bootWorld).1 = ESP_FAIL ∧
      (ht8574.esp_io_expander_new_i2c_ht8574 (scriptedEnv [ESP_FAIL] true) 0 0x20 true
        bootWorld).2.1 = none ∧
      (newEvents bootWorld (ht8574.esp_io_expander_new_i2c_ht8574 (scriptedEnv [ESP_FAIL] true)
        0 0x20 true bootWorld).2.2).countP Event.isAddDevice = 1 ∧
      (newEvents bootWorld (ht8574.esp_io_expander_new_i2c_ht8574 (scriptedEnv [ESP_FAIL] true)
        0 0x20 true bootWorld).2.2).countP Event.isRmDevice = 0 ∧
      bootWorld.attached = [] ∧
      (ht8574.esp_io_expander_new_i2c_ht8574 (scriptedEnv [ESP_FAIL] true) 0 0x20 true
        bootWorld).2.2.attached = [40]) := by
  decide

/-- C12: for a bus id that is not below `I2C_NUM_MAX`, whatever the address
and whether or not the handle pointer is null, both constructors report
invalid-argument, store nothing through the handle and leave the state as it
was: no allocation, no bus lookup, no attach, no transmit, no receive. -/
theorem C12_new_rejects_bad_bus_id (env : Env) (i2c_num i2c_address : Nat) (handle : Bool)
    (w : World) (hbad : env.I2C_NUM_MAX ≤ i2c_num) :
    tca95xx_16bit.esp_io_expander_new_i2c_tca95xx_16bit env i2c_num i2c_address handle w =
      (ESP_ERR_INVALID_ARG, none, w) ∧
    newEvents w (tca95xx_16bit.esp_io_expander_new_i2c_tca95xx_16bit env i2c_num i2c_address
      handle w).2.2 = [] ∧
    ht8574.esp_io_expander_new_i2c_ht8574 env i2c_num i2c_address handle w =
      (ESP_ERR_INVALID_ARG, none, w) ∧
    newEvents w (ht8574.esp_io_expander_new_i2c_ht8574 env i2c_num i2c_address handle w).2.2 =
      [] := by
  have hlt : ¬ i2c_num < env.I2C_NUM_MAX := by omega
  have h16 : tca95xx_16bit.esp_io_expander_new_i2c_tca95xx_16bit env i2c_num i2c_address
      handle w = (ESP_ERR_INVALID_ARG, none, w) := by
    simp only [tca95xx_16bit.esp_io_expander_new_i2c_tca95xx_16bit]
    rw [if_pos hlt]
  have h8 : ht8574.esp_io_expander_new_i2c_ht8574 env i2c_num i2c_address handle w =
      (ESP_ERR_INVALID_ARG, none, w) := by
    simp only [ht8574.esp_io_expander_new_i2c_ht8574]
    rw [if_pos hlt]
  rw [h16, h8]
  exact ⟨rfl, newEvents_self w, rfl, newEvents_self w⟩

/-- Witness of C12: bus id `2` on a platform with two ports. -/
theorem C12_new_rejects_bad_bus_id_witness :
    tca95xx_16bit.esp_io_expander_new_i2c_tca95xx_16bit (scriptedEnv [] true) 2 0x21 true
      bootWorld = (ESP_ERR_INVALID_ARG, none, bootWorld) ∧
    ht8574.esp_io_expander_new_i2c_ht8574 (scriptedEnv [] true) 2 0x20 true bootWorld =
      (ESP_ERR_INVALID_ARG, none, bootWorld) :=
  have h := C12_new_rejects_bad_bus_id (scriptedEnv [] true) 2 0x21 true bootWorld (by decide)
  have h' := C12_new_rejects_bad_bus_id (scriptedEnv [] true) 2 0x20 true bootWorld (by decide)
  ⟨h.1, h'.2.2.1⟩

/-! ## The bridge -/

/-- C13: `esp_expander_i2c_ng_add_device` on a port below `I2C_NUM_MAX`
whose bus lookup answers absent, with a non-null output pointer, reports
invalid-state, asks the transport for no device (the lookup is the only event,
the registered devices are unchanged) and leaves what the output pointer points
to as it was; with a null output pointer, or with a port that is not below
`I2C_NUM_MAX`, it reports invalid-argument and leaves the state as it was, so
that no bus lookup is made. -/
theorem C13_add_device_rejections (env : Env) (port addr7 : Nat) (out : Option Nat)
    (w : World) :
    (port < env.I2C_NUM_MAX → env.busHandle w.lookups (port % 256) = none →
      (esp_expander_i2c_ng_add_device env port addr7 true out w).1 = ESP_ERR_INVALID_STATE ∧
      (esp_expander_i2c_ng_add_device env port addr7 true out w).2.1 = out ∧
      newEvents w (esp_expander_i2c_ng_add_device env port addr7 true out w).2.2 =
        [Event.busLookup (port % 256)] ∧
      (esp_expander_i2c_ng_add_device env port addr7 true out w).2.2.attached = w.attached ∧
      (esp_expander_i2c_ng_add_device env port addr7 true out w).2.2.attaches = w.attaches) ∧
    esp_expander_i2c_ng_add_device env port addr7 false out w = (ESP_ERR_INVALID_ARG, out, w) ∧
    (∀ nn, env.I2C_NUM_MAX ≤ port →
      esp_expander_i2c_ng_add_device env port addr7 nn out w = (ESP_ERR_INVALID_ARG, out, w)) := by
  refine ⟨?_, ?_, ?_⟩
  · intro h1 h2
    have : esp_expander_i2c_ng_add_device env port addr7 true out w =
        (ESP_ERR_INVALID_STATE, out,
          { w with lookups := w.lookups + 1,
                   trace := w.trace ++ [Event.busLookup (port % 256)] }) := by
      simp [esp_expander_i2c_ng_add_device, i2cBusHandle, h1, h2]
    rw [this]
    exact ⟨rfl, rfl, newEvents_mk _ _ _ _ _ _ _ _ _, rfl, rfl⟩
  · simp [esp_expander_i2c_ng_add_device]
  · intro nn h
    have hlt : ¬ port < env.I2C_NUM_MAX := by omega
    cases nn <;> simp [esp_expander_i2c_ng_add_device, hlt]

/-- Witness of C13: port `0` of a platform whose bus was never brought up. -/
theorem C13_add_device_rejections_witness :
    (esp_expander_i2c_ng_add_device (scriptedEnv [] false) 0 0x20 true none bootWorld).1 =
      ESP_ERR_INVALID_STATE ∧
    (esp_expander_i2c_ng_add_device (scriptedEnv [] false) 0 0x20 true none bootWorld).2.1 =
      none :=
  have h := (C13_add_device_rejections (scriptedEnv [] false) 0 0x20 none bootWorld).1
    (by decide) rfl
  ⟨h.1, h.2.1⟩

/-! ## Backoff -/

theorem retryEvents_backoff (env : Env) (port : Nat) (xev : esp_err_t → Event) (l n : Nat) :
    retryEvents env port xev l n =
      backoffRounds env port xev l (List.take (retryAttempts env n - 1) [2, 5, 10]) ++
        [xev (firstNonTimeoutOfFour env n)] := by
  unfold retryEvents retryAttempts firstNonTimeoutOfFour
  by_cases h0 : statusAt env n 0 = ESP_ERR_TIMEOUT
  · by_cases h1 : statusAt env n 1 = ESP_ERR_TIMEOUT
    · by_cases h2 : statusAt env n 2 = ESP_ERR_TIMEOUT
      · simp [h0, h1, h2, backoffRounds]
      · simp [h0, h1, h2, backoffRounds]
    · simp [h0, h1, backoffRounds]
  · simp [h0, backoffRounds]

theorem retryAttempts_of_leading_ne (env : Env) (n k : Nat)
    (hto : ∀ i, i < min k 3 → (env.xfer (n + i)).status = ESP_ERR_TIMEOUT)
    (hnt : k < 3 → (env.xfer (n + k)).status ≠ ESP_ERR_TIMEOUT) :
    retryAttempts env n - 1 = min k 3 := by
  have h0 := hto 0
  have h1 := hto 1
  have h2 := hto 2
  by_cases hk : 3 ≤ k
  · have hm : min k 3 = 3 := by omega
    rw [hm] at h0 h1 h2 ⊢
    have h0' := h0 (by omega)
    have h1' := h1 (by omega)
    have h2' := h2 (by omega)
    simp at h0'
    simp [retryAttempts, statusAt, h0', h1', h2']
  · have hk' : k < 3 := by omega
    have hn := hnt hk'
    interval_cases k
    · simp at hn
      simp [retryAttempts, statusAt, hn]
    · simp at h0
      simp [retryAttempts, statusAt, h0, hn]
    · simp at h0 h1
      simp [retryAttempts, statusAt, h0, h1, hn]

theorem filter_isDelay_resetEvents (env : Env) (port l : Nat) :
    (resetEvents env port l).filter Event.isDelay = [] := by
  unfold resetEvents
  cases env.busHandle l (port % 256) <;> simp [Event.isDelay]

theorem sum_sleepTicks_resetEvents (env : Env) (port l : Nat) :
    ((resetEvents env port l).map Event.sleepTicks).sum = 0 := by
  unfold resetEvents
  cases env.busHandle l (port % 256) <;> simp [Event.sleepTicks]

theorem filter_isDelay_backoffRounds (env : Env) (port : Nat) (xev : esp_err_t → Event)
    (hx : ∀ s, (xev s).isDelay = false) (sched : List Nat) :
    ∀ l, (backoffRounds env port xev l sched).filter Event.isDelay =
      sched.map (fun ms => Event.delay (env.pdMS_TO_TICKS ms)) := by
  induction sched with
  | nil => intro l; rfl
  | cons ms rest ih =>
    intro l
    simp only [backoffRounds, List.filter_cons, List.filter_append, hx,
      filter_isDelay_resetEvents, ih, isDelay_delay, List.map_cons]
    simp

theorem sum_sleepTicks_backoffRounds (env : Env) (port : Nat) (xev : esp_err_t → Event)
    (hx : ∀ s, (xev s).sleepTicks = 0) (sched : List Nat) :
    ∀ l, ((backoffRounds env port xev l sched).map Event.sleepTicks).sum =
      (sched.map env.pdMS_TO_TICKS).sum := by
  induction sched with
  | nil => intro l; rfl
  | cons ms rest ih =>
    intro l
    simp only [backoffRounds, List.map_cons, List.map_append, List.sum_cons, List.sum_append,
      hx, sum_sleepTicks_resetEvents, ih]
    simp [Event.sleepTicks]

theorem sum_take_schedule (k : Nat) :
    (List.take (min k 3) [2, 5, 10]).sum ≤ 17 ∧
    ((List.take (min k 3) [2, 5, 10]).sum = 17 ↔ 3 ≤ k) := by
  by_cases hk : 3 ≤ k
  · have hm : min k 3 = 3 := by omega
    rw [hm]
    simp [hk]
  · have hk' : k < 3 := by omega
    interval_cases k <;> simp

theorem isDelay_transmit (d : Option Nat) (bs : List Nat) (t : Nat) (s : esp_err_t) :
    (Event.transmit d bs t s).isDelay = false := rfl

theorem isDelay_receive (d : Option Nat) (n t : Nat) (s : esp_err_t) :
    (Event.receive d n t s).isDelay = false := rfl

theorem sleepTicks_transmit (d : Option Nat) (bs : List Nat) (t : Nat) (s : esp_err_t) :
    (Event.transmit d bs t s).sleepTicks = 0 := rfl

theorem sleepTicks_receive (d : Option Nat) (n t : Nat) (s : esp_err_t) :
    (Event.receive d n t s).sleepTicks = 0 := rfl

theorem backoff_facts (env : Env) (port : Nat) (xev : esp_err_t → Event) (l n k : Nat)
    (hxd : ∀ s, (xev s).isDelay = false) (hxs : ∀ s, (xev s).sleepTicks = 0)
    (hto : ∀ i, i < min k 3 → (env.xfer (n + i)).status = ESP_ERR_TIMEOUT)
    (hnt : k < 3 → (env.xfer (n + k)).status ≠ ESP_ERR_TIMEOUT) :
    retryEvents env port xev l n =
      backoffRounds env port xev l (List.take (min k 3) [2, 5, 10]) ++
        [xev (firstNonTimeoutOfFour env n)] ∧
    (retryEvents env port xev l n).filter Event.isDelay =
      (List.take (min k 3) [2, 5, 10]).map (fun ms => Event.delay (env.pdMS_TO_TICKS ms)) ∧
    ((retryEvents env port xev l n).map Event.sleepTicks).sum =
      ((List.take (min k 3) [2, 5, 10]).map env.pdMS_TO_TICKS).sum ∧
    ((∀ ms, env.pdMS_TO_TICKS ms = ms) →
      ((retryEvents env port xev l n).map Event.sleepTicks).sum ≤ 17 ∧
      (((retryEvents env port xev l n).map Event.sleepTicks).sum = 17 ↔
        ∀ i, i < 3 → (env.xfer (n + i)).status = ESP_ERR_TIMEOUT)) := by
  have hA := retryAttempts_of_leading_ne env n k hto hnt
  have hE := retryEvents_backoff env port xev l n
  rw [hA] at hE
  have hS : ((retryEvents env port xev l n).map Event.sleepTicks).sum =
      ((List.take (min k 3) [2, 5, 10]).map env.pdMS_TO_TICKS).sum := by
    rw [hE, List.map_append, List.sum_append, sum_sleepTicks_backoffRounds env port xev hxs]
    simp [hxs]
  refine ⟨hE, ?_, hS, ?_⟩
  · rw [hE, List.filter_append, filter_isDelay_backoffRounds env port xev hxd]
    simp [hxd]
  · intro hid
    have hmap : (List.take (min k 3) [2, 5, 10]).map env.pdMS_TO_TICKS =
        List.take (min k 3) [2, 5, 10] := by
      have : env.pdMS_TO_TICKS = id := funext hid
      rw [this, List.map_id]
    rw [hS, hmap]
    refine ⟨(sum_take_schedule k).1, (sum_take_schedule k).2.trans ⟨?_, ?_⟩⟩
    · intro hk i hi
      exact hto i (by omega)
    · intro hall
      by_contra hk
      exact hnt (by omega) (hall k (by omega))

open tca95xx_16bit in
/-- C14: let `k` be the number of leading timeouts of the transport (every
`k ≥ 3` stands for three or more). The events of `retry_i2c_op_if_timeout` are
`min k 3` rounds, one per entry of the first `min k 3` entries of the schedule
`[2, 5, 10]` ms, each made of the invocation that timed out, then the lookup and
reset of the bus, then `vTaskDelay (pdMS_TO_TICKS ms)`, followed by the final
invocation. So the sleeps are, in order, those of the first `min k 3` entries
of `[2, 5, 10]` ms, each after the reset for its timeout and before the next
invocation. Their total in ticks is the sum of `pdMS_TO_TICKS` over these
entries; on a platform where a tick is a millisecond it is at most 17 and is
17 exactly when the first three invocations time out. This holds for the
transmit and for the receive operation. -/
theorem C14_backoff_sleeps (env : Env) (port : Nat) (w : World) (k : Nat)
    (hto : ∀ i, i < min k 3 → (env.xfer (w.xfers + i)).status = ESP_ERR_TIMEOUT)
    (hnt : k < 3 → (env.xfer (w.xfers + k)).status ≠ ESP_ERR_TIMEOUT) :
    (∀ c : i2c_tx_ctx_t,
      let r := retry_i2c_op_if_timeout env port (i2c_tx_op env) c w
      newEvents w r.2.2 =
        backoffRounds env port (Event.transmit c.dev (c.data.take c.len) I2C_TIMEOUT_MS)
          w.lookups (List.take (min k 3) [2, 5, 10]) ++
          [Event.transmit c.dev (c.data.take c.len) I2C_TIMEOUT_MS r.1] ∧
      (newEvents w r.2.2).filter Event.isDelay =
        (List.take (min k 3) [2, 5, 10]).map (fun ms => Event.delay (env.pdMS_TO_TICKS ms)) ∧
      ((newEvents w r.2.2).map Event.sleepTicks).sum =
        ((List.take (min k 3) [2, 5, 10]).map env.pdMS_TO_TICKS).sum ∧
      ((∀ ms, env.pdMS_TO_TICKS ms = ms) →
        ((newEvents w r.2.2).map Event.sleepTicks).sum ≤ 17 ∧
        (((newEvents w r.2.2).map Event.sleepTicks).sum = 17 ↔
          ∀ i, i < 3 → (env.xfer (w.xfers + i)).status = ESP_ERR_TIMEOUT))) ∧
    (∀ c : i2c_rx_ctx_t,
      let r := retry_i2c_op_if_timeout env port (i2c_rx_op env) c w
      newEvents w r.2.2 =
        backoffRounds env port (Event.receive c.dev c.len I2C_TIMEOUT_MS)
          w.lookups (List.take (min k 3) [2, 5, 10]) ++
          [Event.receive c.dev c.len I2C_TIMEOUT_MS r.1] ∧
      (newEvents w r.2.2).filter Event.isDelay =
        (List.take (min k 3) [2, 5, 10]).map (fun ms => Event.delay (env.pdMS_TO_TICKS ms)) ∧
      ((newEvents w r.2.2).map Event.sleepTicks).sum =
        ((List.take (min k 3) [2, 5, 10]).map env.pdMS_TO_TICKS).sum ∧
      ((∀ ms, env.pdMS_TO_TICKS ms = ms) →
        ((newEvents w r.2.2).map Event.sleepTicks).sum ≤ 17 ∧
        (((newEvents w r.2.2).map Event.sleepTicks).sum = 17 ↔
          ∀ i, i < 3 → (env.xfer (w.xfers + i)).status = ESP_ERR_TIMEOUT))) := by
  constructor
  · intro c
    simp only [retry_tx_eq, newEvents_mk]
    exact backoff_facts env port _ w.lookups w.xfers k (isDelay_transmit _ _ _)
      (sleepTicks_transmit _ _ _) hto hnt
  · intro c
    simp only [retry_rx_eq, newEvents_mk]
    exact backoff_facts env port _ w.lookups w.xfers k (isDelay_receive _ _ _)
      (sleepTicks_receive _ _ _) hto hnt

open tca95xx_16bit in
/-- Witness of C14: two timeouts then success on a 1 kHz tick give the
sleeps `2` and `5`. -/
theorem C14_backoff_sleeps_witness :
    (newEvents bootWorld (retry_i2c_op_if_timeout
        (scriptedEnv [ESP_ERR_TIMEOUT, ESP_ERR_TIMEOUT] true) 0
        (i2c_tx_op (scriptedEnv [ESP_ERR_TIMEOUT, ESP_ERR_TIMEOUT] true))
        { dev := some 40, data := [2, 255, 255], len := 3 } bootWorld).2.2).filter
      Event.isDelay = [Event.delay 2, Event.delay 5] :=
  ((C14_backoff_sleeps (scriptedEnv [ESP_ERR_TIMEOUT, ESP_ERR_TIMEOUT] true) 0 bootWorld 2
    (fun i hi => by
      have : i = 0 ∨ i = 1 := by
        have h2 : min 2 3 = 2 := rfl
        omega
      rcases this with rfl | rfl <;> rfl)
    (fun _ => by decide)).1 { dev := some 40, data := [2, 255, 255], len := 3 }).2.1

/-! ## The 8-bit direction register -/

/-- C15: in the 8-bit variant `write_direction_reg v` reports success for
every value `v` (so for every 32-bit one), leaves the state outside the device
as it was (no transport operation, no event), keeps the output cache and every
other field of the device except the direction cache, and the
`read_direction_reg` that follows reports success with `v & 0xFF`. -/
theorem C15_ht8574_write_direction_cache_only (env : Env) (ht : ht8574.esp_io_expander_ht8574_t)
    (v : Nat) (w : World) :
    (ht8574.write_direction_reg ht v w).1 = ESP_OK ∧
    (ht8574.write_direction_reg ht v w).2.2 = w ∧
    newEvents w (ht8574.write_direction_reg ht v w).2.2 = [] ∧
    (ht8574.write_direction_reg ht v w).2.1.output = ht.output ∧
    (ht8574.write_direction_reg ht v w).2.1 = { ht with direction := v &&& 0xFF } ∧
    ht8574.read_output_reg (ht8574.write_direction_reg ht v w).2.1 = ht8574.read_output_reg ht ∧
    ht8574.read_direction_reg (ht8574.write_direction_reg ht v w).2.1 = (ESP_OK, v &&& 0xFF) ∧
    (ht8574.step env (RegOp.write_direction v) ht w).2.2 = w := by
  have hm : (v &&& 0xFF) % 2 ^ 8 = v &&& 0xFF := by
    rw [show (0xFF : Nat) = 0xff from rfl, and_ff]
    omega
  refine ⟨rfl, rfl, newEvents_self w, rfl, ?_, rfl, ?_, rfl⟩
  · simp only [ht8574.write_direction_reg]
    rw [show (0xff : Nat) = 0xFF from rfl, hm]
  · simp only [ht8574.write_direction_reg, ht8574.read_direction_reg]
    rw [show (0xff : Nat) = 0xFF from rfl, hm]

/-! ## The speed cache -/

theorem i2c_ng_add_device_speed (env : Env) (port addr7 : Nat) (nn : Bool) (out : Option Nat)
    (w : World) :
    (esp_expander_i2c_ng_add_device env port addr7 nn out w).2.2.s_port_speed_hz =
      w.s_port_speed_hz := by
  by_cases h1 : nn = true
  · by_cases h2 : port < env.I2C_NUM_MAX
    · cases hb : env.busHandle w.lookups (port % 256) with
      | none => simp [esp_expander_i2c_ng_add_device, i2cBusHandle, h1, h2, hb]
      | some bus =>
        by_cases h3 : (env.attach w.attaches).status = ESP_OK
        · simp [esp_expander_i2c_ng_add_device, i2cBusHandle, i2c_master_bus_add_device, h1,
            h2, hb, h3]
        · simp [esp_expander_i2c_ng_add_device, i2cBusHandle, i2c_master_bus_add_device, h1,
            h2, hb, h3]
    · simp [esp_expander_i2c_ng_add_device, h1, h2]
  · simp [esp_expander_i2c_ng_add_device, h1]

theorem init_from_legacy_config_speed (env : Env) (port : Nat) (cfg : i2c_config_t) (w : World)
    (hport : port < env.I2C_NUM_MAX) :
    (esp_expander_i2c_ng_init_from_legacy_config env port (some cfg) w).1 =
      (if env.initOk w.inits then ESP_OK else ESP_FAIL) ∧
    (esp_expander_i2c_ng_init_from_legacy_config env port (some cfg) w).2.s_port_speed_hz =
      (if cfg.mode = I2C_MODE_MASTER then Function.update w.s_port_speed_hz port cfg.clk_speed
       else w.s_port_speed_hz) := by
  by_cases hm : cfg.mode = I2C_MODE_MASTER
  · simp [esp_expander_i2c_ng_init_from_legacy_config, i2cInit, hport, hm]
  · simp [esp_expander_i2c_ng_init_from_legacy_config, i2cInit, hport, hm]

theorem BridgeCall_exec_speed (env : Env) (p : Nat) (c : BridgeCall) (w : World) :
    (c.exec env w).s_port_speed_hz p = (c.recorded env p).getD (w.s_port_speed_hz p) := by
  cases c with
  | init_from_legacy_config port cfg =>
    cases cfg with
    | none => rfl
    | some cfg =>
      by_cases hport : port < env.I2C_NUM_MAX
      · simp only [BridgeCall.exec, BridgeCall.recorded,
          (init_from_legacy_config_speed env port cfg w hport).2]
        by_cases hm : cfg.mode = I2C_MODE_MASTER
        · by_cases hp : port = p
          · subst hp
            simp [hm, hport]
          · have hp' : p ≠ port := fun h => hp h.symm
            simp [hm, hp, Function.update_noteq hp']
        · simp [hm]
      · simp [BridgeCall.exec, BridgeCall.recorded, esp_expander_i2c_ng_init_from_legacy_config,
          hport]
  | get_speed_hz port => rfl
  | add_device port addr7 nn =>
    simp only [BridgeCall.exec, BridgeCall.recorded, i2c_ng_add_device_speed]
    rfl
  | deinit port => rfl

theorem foldl_recorded_getD (env : Env) (p : Nat) (calls : List BridgeCall) :
    ∀ (acc : Option Nat) (d : Nat),
      (calls.foldl (fun acc c => match c.recorded env p with
        | some s => some s
        | none => acc) acc).getD d =
      (lastRecorded env p calls).getD (acc.getD d) := by
  unfold lastRecorded
  induction calls with
  | nil => intro acc d; rfl
  | cons c cs ih =>
    intro acc d
    simp only [List.foldl_cons]
    rw [ih, ih (match c.recorded env p with
      | some s => some s
      | none => none)]
    cases c.recorded env p <;> rfl

theorem runBridge_speed (env : Env) (p : Nat) (calls : List BridgeCall) :
    ∀ w : World, (runBridge env calls w).s_port_speed_hz p =
      (lastRecorded env p calls).getD (w.s_port_speed_hz p) := by
  induction calls with
  | nil => intro w; rfl
  | cons c cs ih =>
    intro w
    simp only [runBridge]
    rw [ih, BridgeCall_exec_speed]
    have := foldl_recorded_getD env p cs (match c.recorded env p with
      | some s => some s
      | none => none) (w.s_port_speed_hz p)
    simp only [lastRecorded, List.foldl_cons] at this ⊢
    rw [this]
    cases c.recorded env p <;> rfl

/-- C16, as stated, fails for a configuration whose mode is not master: on
port `0` of a two-port platform, in the state before any call,
`init_from_legacy_config` with a non-null 400 kHz configuration of another mode
is followed by a `get_speed_hz` that returns `0`, not `400000`. -/
theorem C16_counterexample_non_master_config :
    0 < (scriptedEnv [] true).I2C_NUM_MAX ∧
    sampleSlaveCfg.clk_speed = 400000 ∧
    esp_expander_i2c_ng_get_speed_hz (scriptedEnv [] true) 0
      (esp_expander_i2c_ng_init_from_legacy_config (scriptedEnv [] true) 0 (some sampleSlaveCfg)
        bootWorld).2 = 0 ∧
    esp_expander_i2c_ng_get_speed_hz (scriptedEnv [] true) 0
      (esp_expander_i2c_ng_init_from_legacy_config (scriptedEnv [] true) 0 (some sampleSlaveCfg)
        bootWorld).2 ≠ sampleSlaveCfg.clk_speed := by
  decide

/-- C16, amended: for a port below `I2C_NUM_MAX` and a non-null
configuration whose mode is master, `get_speed_hz` after
`init_from_legacy_config` returns the clock speed of the configuration; for a
configuration of another mode it returns what it returned before the call.
After any sequence of bridge calls `get_speed_hz` returns `0` for a port that
is not below `I2C_NUM_MAX` and otherwise the speed last recorded for the port,
or the entry the sequence started from when none was recorded; that is `0`
when the entry started at `0`, as the static array does. -/
theorem C16_get_speed_hz_after_init (env : Env) (port : Nat) (cfg : i2c_config_t) (w : World)
    (calls : List BridgeCall) :
    (port < env.I2C_NUM_MAX → cfg.mode = I2C_MODE_MASTER →
      esp_expander_i2c_ng_get_speed_hz env port
        (esp_expander_i2c_ng_init_from_legacy_config env port (some cfg) w).2 = cfg.clk_speed) ∧
    (port < env.I2C_NUM_MAX → cfg.mode ≠ I2C_MODE_MASTER →
      esp_expander_i2c_ng_get_speed_hz env port
        (esp_expander_i2c_ng_init_from_legacy_config env port (some cfg) w).2 =
        esp_expander_i2c_ng_get_speed_hz env port w) ∧
    esp_expander_i2c_ng_get_speed_hz env port (runBridge env calls w) =
      (if env.I2C_NUM_MAX ≤ port then 0
       else (lastRecorded env port calls).getD (w.s_port_speed_hz port)) ∧
    (lastRecorded env port calls = none → w.s_port_speed_hz port = 0 →
      esp_expander_i2c_ng_get_speed_hz env port (runBridge env calls w) = 0) ∧
    (env.I2C_NUM_MAX ≤ port → esp_expander_i2c_ng_get_speed_hz env port w = 0) := by
  have hrun : esp_expander_i2c_ng_get_speed_hz env port (runBridge env calls w) =
      (if env.I2C_NUM_MAX ≤ port then 0
       else (lastRecorded env port calls).getD (w.s_port_speed_hz port)) := by
    simp only [esp_expander_i2c_ng_get_speed_hz, runBridge_speed, ge_iff_le]
  refine ⟨?_, ?_, hrun, ?_, ?_⟩
  · intro hport hm
    have hge : ¬ port ≥ env.I2C_NUM_MAX := by omega
    simp only [esp_expander_i2c_ng_get_speed_hz, if_neg hge,
      (init_from_legacy_config_speed env port cfg w hport).2, if_pos hm, Function.update_same]
  · intro hport hm
    simp only [esp_expander_i2c_ng_get_speed_hz,
      (init_from_legacy_config_speed env port cfg w hport).2, if_neg hm]
  · intro hnone hzero
    rw [hrun, hnone, hzero]
    simp
  · intro hge
    simp only [esp_expander_i2c_ng_get_speed_hz]
    rw [if_pos hge]

/-- Witness of C16: a 400 kHz master configuration on port `0`. -/
theorem C16_get_speed_hz_after_init_witness :
    esp_expander_i2c_ng_get_speed_hz (scriptedEnv [] true) 0
      (esp_expander_i2c_ng_init_from_legacy_config (scriptedEnv [] true) 0 (some sampleMasterCfg)
        bootWorld).2 = 400000 :=
  (C16_get_speed_hz_after_init (scriptedEnv [] true) 0 sampleMasterCfg bootWorld []).1
    (by decide) rfl

theorem asUint32_toInt32 (x : Nat) (hx : x < 2 ^ 32) :
    asUint32 (toInt32 x) = x ∧ (x < 2 ^ 31 → toInt32 x = (x : Int)) := by
  unfold asUint32 toInt32
  have hm : x % 2 ^ 32 = x := Nat.mod_eq_of_lt hx
  rw [hm]
  constructor
  · split
    · omega
    · omega
  · intro h
    rw [if_pos h]

/-- C17: when `esp_expander_i2c_ng_add_device` is given a non-null output
pointer and a port below `I2C_NUM_MAX` whose bus lookup answers a live bus, its
events are that lookup and one request to the transport to create a device on
that bus; the requested configuration has 7-bit addressing, device address
`addr7` and, read as the `uint32_t` the field is, the clock speed recorded for
the port, or `100000` when the recorded speed is `0` (for a speed below `2^31`
the `int` the source casts to is that speed itself); the status reported is
the status the transport answered to the request. The recorded speed is a
`uint32_t`. -/
theorem C17_add_device_configuration (env : Env) (port addr7 : Nat) (out : Option Nat)
    (w : World) (bus : Nat)
    (hport : port < env.I2C_NUM_MAX)
    (hbus : env.busHandle w.lookups (port % 256) = some bus)
    (hrange : w.s_port_speed_hz port < 2 ^ 32) :
    (esp_expander_i2c_ng_add_device env port addr7 true out w).1 =
      (env.attach w.attaches).status ∧
    ∃ cfg : i2c_device_config_t,
      newEvents w (esp_expander_i2c_ng_add_device env port addr7 true out w).2.2 =
        [Event.busLookup (port % 256),
          Event.addDevice bus cfg (env.attach w.attaches).status] ∧
      cfg.dev_addr_length = I2C_ADDR_BIT_LEN_7 ∧
      cfg.device_address = addr7 ∧
      asUint32 cfg.scl_speed_hz =
        (if w.s_port_speed_hz port = 0 then 100000 else w.s_port_speed_hz port) ∧
      ((if w.s_port_speed_hz port = 0 then 100000 else w.s_port_speed_hz port) < 2 ^ 31 →
        cfg.scl_speed_hz =
          ((if w.s_port_speed_hz port = 0 then 100000 else w.s_port_speed_hz port : Nat) : Int)) := by
  have hsp : (if w.s_port_speed_hz port ≠ 0 then w.s_port_speed_hz port
      else ESP_EXPANDER_I2C_DEFAULT_SPEED_HZ) =
      (if w.s_port_speed_hz port = 0 then 100000 else w.s_port_speed_hz port) := by
    by_cases h : w.s_port_speed_hz port = 0
    · simp [h, ESP_EXPANDER_I2C_DEFAULT_SPEED_HZ]
    · simp [h]
  have hlt : (if w.s_port_speed_hz port = 0 then 100000 else w.s_port_speed_hz port) < 2 ^ 32 := by
    split
    · norm_num
    · exact hrange
  have hc := asUint32_toInt32 _ hlt
  by_cases h3 : (env.attach w.attaches).status = ESP_OK
  · refine ⟨?_,
      { dev_addr_length := I2C_ADDR_BIT_LEN_7
        device_address := addr7
        scl_speed_hz := toInt32 (if w.s_port_speed_hz port = 0 then 100000
          else w.s_port_speed_hz port) }, ?_, rfl, rfl, hc.1, hc.2⟩
    · simp [esp_expander_i2c_ng_add_device, i2cBusHandle, i2c_master_bus_add_device, hport,
        hbus, h3]
    · rw [← hsp]
      simp [esp_expander_i2c_ng_add_device, i2cBusHandle, i2c_master_bus_add_device, hport,
        hbus, h3, newEvents]
  · refine ⟨?_,
      { dev_addr_length := I2C_ADDR_BIT_LEN_7
        device_address := addr7
        scl_speed_hz := toInt32 (if w.s_port_speed_hz port = 0 then 100000
          else w.s_port_speed_hz port) }, ?_, rfl, rfl, hc.1, hc.2⟩
    · simp [esp_expander_i2c_ng_add_device, i2cBusHandle, i2c_master_bus_add_device, hport,
        hbus, h3]
    · rw [← hsp]
      simp [esp_expander_i2c_ng_add_device, i2cBusHandle, i2c_master_bus_add_device, hport,
        hbus, h3, newEvents]

/-- Witness of C17: no speed was recorded for port `0`, the device is
requested at the default speed and the transport's success is reported. -/
theorem C17_add_device_configuration_witness :
    (esp_expander_i2c_ng_add_device (scriptedEnv [] true) 0 0x20 true none bootWorld).1 =
      ((scriptedEnv [] true).attach bootWorld.attaches).status ∧
    newEvents bootWorld
        (esp_expander_i2c_ng_add_device (scriptedEnv [] true) 0 0x20 true none bootWorld).2.2 =
      [Event.busLookup 0,
        Event.addDevice 7 { dev_addr_length := 0, device_address := 0x20, scl_speed_hz := 100000 }
          ESP_OK] :=
  ⟨(C17_add_device_configuration (scriptedEnv [] true) 0 0x20 none bootWorld 7 (by decide) rfl
      (by decide)).1, by decide⟩

/-! ## Bytes on the wire -/

theorem wire_bytes (v : Nat) :
    ((v &&& 0xffff) &&& 0xff) % 256 = v &&& 0xFF ∧
    ((v &&& 0xffff) >>> 8) % 256 = (v >>> 8) &&& 0xFF ∧
    (v &&& 0xFFFF) &&& 0xffff = v &&& 0xffff := by
  have h1 : ∀ x : Nat, x &&& 0xFF = x % 256 := and_ff
  have h2 : ∀ x : Nat, x &&& 0xFFFF = x % 65536 := and_ffff
  simp only [h1, h2, Nat.shiftRight_eq_div_pow]
  refine ⟨by omega, by omega, by omega⟩

/-- C18: in the 16-bit variant every transport call made by
`write_output_reg v` is a transmit of exactly the three bytes
`[0x02, v & 0xFF, (v >> 8) & 0xFF]` and every transport call made by
`write_direction_reg v` is a transmit of exactly
`[0x06, v & 0xFF, (v >> 8) & 0xFF]`, and each makes at least one. Bits of `v`
above bit 15 have no effect at all: the call with `v` and the call with
`v & 0xFFFF` give the same result. The two data bytes are below 256 and
recombine as `low | (high << 8)` to `v & 0xFFFF`. -/
theorem C18_write_wire_bytes (env : Env) (tca : tca95xx_16bit.esp_io_expander_tca95xx_16bit_t)
    (v : Nat) (w : World) :
    (∀ e ∈ newEvents w (tca95xx_16bit.write_output_reg env tca v w).2.2, e.isXfer = true →
      ∃ st, e = Event.transmit tca.i2c_dev [0x02, v &&& 0xFF, (v >>> 8) &&& 0xFF]
        tca95xx_16bit.I2C_TIMEOUT_MS st) ∧
    (∀ e ∈ newEvents w (tca95xx_16bit.write_direction_reg env tca v w).2.2, e.isXfer = true →
      ∃ st, e = Event.transmit tca.i2c_dev [0x06, v &&& 0xFF, (v >>> 8) &&& 0xFF]
        tca95xx_16bit.I2C_TIMEOUT_MS st) ∧
    1 ≤ (newEvents w (tca95xx_16bit.write_output_reg env tca v w).2.2).countP Event.isXfer ∧
    1 ≤ (newEvents w (tca95xx_16bit.write_direction_reg env tca v w).2.2).countP Event.isXfer ∧
    tca95xx_16bit.write_output_reg env tca v w =
      tca95xx_16bit.write_output_reg env tca (v &&& 0xFFFF) w ∧
    tca95xx_16bit.write_direction_reg env tca v w =
      tca95xx_16bit.write_direction_reg env tca (v &&& 0xFFFF) w ∧
    v &&& 0xFF < 256 ∧ (v >>> 8) &&& 0xFF < 256 ∧
    (v &&& 0xFF) ||| (((v >>> 8) &&& 0xFF) <<< 8) = v &&& 0xFFFF := by
  obtain ⟨hb1, hb2, hb3⟩ := wire_bytes v
  have hlo : v &&& 0xFF < 256 := by
    rw [show (0xFF : Nat) = 0xff from rfl, and_ff]
    omega
  have hhi : (v >>> 8) &&& 0xFF < 256 := by
    rw [show (0xFF : Nat) = 0xff from rfl, and_ff]
    omega
  have hto := tca_write_output_reg_trace env tca v w
  have htd := tca_write_direction_reg_trace env tca v w
  rw [hb1, hb2] at hto htd
  refine ⟨?_, ?_, ?_, ?_, ?_, ?_, hlo, hhi, ?_⟩
  · intro e he hx
    rw [newEvents_append _ _ _ hto] at he
    obtain ⟨s, hs⟩ := retryEvents_xfer_mem _ _ _ _ _ e he hx
    exact ⟨s, hs⟩
  · intro e he hx
    rw [newEvents_append _ _ _ htd] at he
    obtain ⟨s, hs⟩ := retryEvents_xfer_mem _ _ _ _ _ e he hx
    exact ⟨s, hs⟩
  · rw [newEvents_append _ _ _ hto,
      retryEvents_countP_isXfer _ _ _ _ _ (isXfer_transmit _ _ _)]
    exact retryAttempts_pos env w.xfers
  · rw [newEvents_append _ _ _ htd,
      retryEvents_countP_isXfer _ _ _ _ _ (isXfer_transmit _ _ _)]
    exact retryAttempts_pos env w.xfers
  · simp only [tca95xx_16bit.write_output_reg, hb3]
  · simp only [tca95xx_16bit.write_direction_reg, hb3]
  · have h := recombine_bytes (v &&& 0xffff) (by rw [and_ffff]; omega)
    rw [hb1, hb2] at h
    exact h

/-- Witness of C18: the value `0x12345` goes out as `[0x02, 0x45, 0x23]`. -/
theorem C18_write_wire_bytes_witness :
    ∃ st, Event.transmit (some 40) [0x02, 0x45, 0x23] 150 ESP_OK =
      Event.transmit sampleTca.i2c_dev [0x02, 0x12345 &&& 0xFF, (0x12345 >>> 8) &&& 0xFF]
        tca95xx_16bit.I2C_TIMEOUT_MS st :=
  (C18_write_wire_bytes (scriptedEnv [] true) sampleTca 0x12345 bootWorld).1
    (Event.transmit (some 40) [0x02, 0x45, 0x23] 150 ESP_OK) (by decide) rfl

/-! ## Retry without a live bus -/

theorem statusAt_congr {envD envL : Env} (hx : envD.xfer = envL.xfer) (n i : Nat) :
    statusAt envD n i = statusAt envL n i := by
  simp [statusAt, hx]

theorem retryAttempts_congr {envD envL : Env} (hx : envD.xfer = envL.xfer) (n : Nat) :
    retryAttempts envD n = retryAttempts envL n := by
  simp only [retryAttempts, statusAt_congr hx]

theorem firstNonTimeoutOfFour_congr {envD envL : Env} (hx : envD.xfer = envL.xfer) (n : Nat) :
    firstNonTimeoutOfFour envD n = firstNonTimeoutOfFour envL n := by
  simp only [firstNonTimeoutOfFour, statusAt_congr hx]

theorem retryBuffer_congr {envD envL : Env} (hx : envD.xfer = envL.xfer) (len : Nat)
    (buf : List Nat) (n : Nat) :
    retryBuffer envD len buf n = retryBuffer envL len buf n := by
  simp only [retryBuffer, rxFill, statusAt_congr hx, hx]

theorem resetEvents_dead (env : Env) (port l : Nat)
    (hdead : ∀ n, env.busHandle n (port % 256) = none) :
    resetEvents env port l = [Event.busLookup (port % 256)] := by
  simp [resetEvents, hdead]

theorem resetEvents_filter_not_reset (env : Env) (port l : Nat) :
    (resetEvents env port l).filter (fun e => !e.isReset) = [Event.busLookup (port % 256)] := by
  unfold resetEvents
  cases env.busHandle l (port % 256) <;> simp [Event.isReset]

theorem retryEvents_dead (envD envL : Env) (port : Nat) (xev : esp_err_t → Event) (l n : Nat)
    (hx : envD.xfer = envL.xfer) (ht : envD.pdMS_TO_TICKS = envL.pdMS_TO_TICKS)
    (hdead : ∀ n, envD.busHandle n (port % 256) = none)
    (hxr : ∀ s, (xev s).isReset = false) :
    retryEvents envD port xev l n =
      (retryEvents envL port xev l n).filter (fun e => !e.isReset) := by
  simp only [retryEvents, statusAt_congr hx, ht, resetEvents_dead envD port _ hdead]
  split_ifs <;>
    simp [List.filter_append, List.filter_cons, hxr, resetEvents_filter_not_reset, isReset_delay]

theorem filter_isXfer_filter_not_reset (evs : List Event) :
    (evs.filter (fun e => !e.isReset)).filter Event.isXfer = evs.filter Event.isXfer := by
  rw [List.filter_filter]
  apply List.filter_congr
  intro e _
  cases e <;> rfl

theorem filter_isDelay_filter_not_reset (evs : List Event) :
    (evs.filter (fun e => !e.isReset)).filter Event.isDelay = evs.filter Event.isDelay := by
  rw [List.filter_filter]
  apply List.filter_congr
  intro e _
  cases e <;> rfl

theorem countP_isReset_filter_not_reset (evs : List Event) :
    (evs.filter (fun e => !e.isReset)).countP Event.isReset = 0 := by
  rw [List.countP_eq_zero]
  intro e he
  have := (List.mem_filter.mp he).2
  simpa using this

open tca95xx_16bit in
/-- C19: take a platform `envD` on which every lookup of the port's bus
answers absent and any platform `envL` (one with a live bus in particular) whose
transport answers the same and whose tick conversion is the same. From the
same state, `retry_i2c_op_if_timeout` on `envD` issues no bus reset, and its
events are exactly those of the run on `envL` with the bus resets left out: the
same invocations, the same sleeps, the same status, the same context, the same
number of transport calls. This holds for the transmit and for the receive
operation. -/
theorem C19_retry_without_live_bus (envD envL : Env) (port : Nat) (w : World)
    (hx : envD.xfer = envL.xfer) (ht : envD.pdMS_TO_TICKS = envL.pdMS_TO_TICKS)
    (hdead : ∀ n, envD.busHandle n (port % 256) = none) :
    (∀ c : i2c_tx_ctx_t,
      let rD := retry_i2c_op_if_timeout envD port (i2c_tx_op envD) c w
      let rL := retry_i2c_op_if_timeout envL port (i2c_tx_op envL) c w
      (newEvents w rD.2.2).countP Event.isReset = 0 ∧
      rD.1 = rL.1 ∧ rD.2.1 = rL.2.1 ∧ rD.2.2.xfers = rL.2.2.xfers ∧
      (newEvents w rD.2.2).filter Event.isXfer = (newEvents w rL.2.2).filter Event.isXfer ∧
      (newEvents w rD.2.2).filter Event.isDelay = (newEvents w rL.2.2).filter Event.isDelay ∧
      newEvents w rD.2.2 = (newEvents w rL.2.2).filter (fun e => !e.isReset)) ∧
    (∀ c : i2c_rx_ctx_t,
      let rD := retry_i2c_op_if_timeout envD port (i2c_rx_op envD) c w
      let rL := retry_i2c_op_if_timeout envL port (i2c_rx_op envL) c w
      (newEvents w rD.2.2).countP Event.isReset = 0 ∧
      rD.1 = rL.1 ∧ rD.2.1 = rL.2.1 ∧ rD.2.2.xfers = rL.2.2.xfers ∧
      (newEvents w rD.2.2).filter Event.isXfer = (newEvents w rL.2.2).filter Event.isXfer ∧
      (newEvents w rD.2.2).filter Event.isDelay = (newEvents w rL.2.2).filter Event.isDelay ∧
      newEvents w rD.2.2 = (newEvents w rL.2.2).filter (fun e => !e.isReset)) := by
  constructor
  · intro c
    have hE := retryEvents_dead envD envL port
      (Event.transmit c.dev (c.data.take c.len) I2C_TIMEOUT_MS) w.lookups w.xfers hx ht hdead
      (isReset_transmit _ _ _)
    simp only [retry_tx_eq, newEvents_mk, hE, firstNonTimeoutOfFour_congr hx,
      retryAttempts_congr hx, countP_isReset_filter_not_reset, filter_isXfer_filter_not_reset,
      filter_isDelay_filter_not_reset]
    exact ⟨trivial, trivial, trivial, trivial, trivial, trivial, trivial⟩
  · intro c
    have hE := retryEvents_dead envD envL port
      (Event.receive c.dev c.len I2C_TIMEOUT_MS) w.lookups w.xfers hx ht hdead
      (isReset_receive _ _ _)
    simp only [retry_rx_eq, newEvents_mk, hE, firstNonTimeoutOfFour_congr hx,
      retryAttempts_congr hx, retryBuffer_congr hx, countP_isReset_filter_not_reset,
      filter_isXfer_filter_not_reset, filter_isDelay_filter_not_reset]
    exact ⟨trivial, trivial, trivial, trivial, trivial, trivial, trivial⟩

open tca95xx_16bit in
/-- Witness of C19: four timeouts without a live bus give no reset and the
status of the run with a live bus. -/
theorem C19_retry_without_live_bus_witness :
    (newEvents bootWorld (retry_i2c_op_if_timeout
        (scriptedEnv [ESP_ERR_TIMEOUT, ESP_ERR_TIMEOUT, ESP_ERR_TIMEOUT, ESP_ERR_TIMEOUT] false) 0
        (i2c_tx_op
          (scriptedEnv [ESP_ERR_TIMEOUT, ESP_ERR_TIMEOUT, ESP_ERR_TIMEOUT, ESP_ERR_TIMEOUT] false))
        { dev := some 40, data := [2, 255, 255], len := 3 } bootWorld).2.2).countP
      Event.isReset = 0 ∧
    (retry_i2c_op_if_timeout
        (scriptedEnv [ESP_ERR_TIMEOUT, ESP_ERR_TIMEOUT, ESP_ERR_TIMEOUT, ESP_ERR_TIMEOUT] false) 0
        (i2c_tx_op
          (scriptedEnv [ESP_ERR_TIMEOUT, ESP_ERR_TIMEOUT, ESP_ERR_TIMEOUT, ESP_ERR_TIMEOUT] false))
        { dev := some 40, data := [2, 255, 255], len := 3 } bootWorld).1 =
      (retry_i2c_op_if_timeout
        (scriptedEnv [ESP_ERR_TIMEOUT, ESP_ERR_TIMEOUT, ESP_ERR_TIMEOUT, ESP_ERR_TIMEOUT] true) 0
        (i2c_tx_op
          (scriptedEnv [ESP_ERR_TIMEOUT, ESP_ERR_TIMEOUT, ESP_ERR_TIMEOUT, ESP_ERR_TIMEOUT] true))
        { dev := some 40, data := [2, 255, 255], len := 3 } bootWorld).1 :=
  have h := (C19_retry_without_live_bus
    (scriptedEnv [ESP_ERR_TIMEOUT, ESP_ERR_TIMEOUT, ESP_ERR_TIMEOUT, ESP_ERR_TIMEOUT] false)
    (scriptedEnv [ESP_ERR_TIMEOUT, ESP_ERR_TIMEOUT, ESP_ERR_TIMEOUT, ESP_ERR_TIMEOUT] true)
    0 bootWorld rfl rfl (fun _ => rfl)).1 { dev := some 40, data := [2, 255, 255], len := 3 }
  ⟨h.1, h.2.1⟩

/-! ## Frame of the speed cache -/

/-- C20: `init_from_legacy_config` with a non-null configuration and a port
below `I2C_NUM_MAX` reports success or `ESP_FAIL` as `i2cInit` answers, and
whatever that answer is, the entry of its port in the speed cache is the clock
speed of the configuration when the mode is master and is unchanged when the
mode is not master; the entry of every other port is unchanged. In particular
a failing `i2cInit` with a master configuration gives `ESP_FAIL` with the entry
updated. With a null configuration, or a port that is not below
`I2C_NUM_MAX`, it reports invalid-argument and leaves the whole state as it
was. `deinit` reports success and leaves the whole state as it was. -/
theorem C20_speed_cache_frame (env : Env) (port q : Nat) (cfg : i2c_config_t) (w : World) :
    (port < env.I2C_NUM_MAX →
      (esp_expander_i2c_ng_init_from_legacy_config env port (some cfg) w).1 =
        (if env.initOk w.inits then ESP_OK else ESP_FAIL) ∧
      (cfg.mode = I2C_MODE_MASTER →
        (esp_expander_i2c_ng_init_from_legacy_config env port (some cfg) w).2.s_port_speed_hz
          port = cfg.clk_speed) ∧
      (cfg.mode ≠ I2C_MODE_MASTER →
        (esp_expander_i2c_ng_init_from_legacy_config env port (some cfg) w).2.s_port_speed_hz =
          w.s_port_speed_hz) ∧
      (q ≠ port →
        (esp_expander_i2c_ng_init_from_legacy_config env port (some cfg) w).2.s_port_speed_hz q =
          w.s_port_speed_hz q) ∧
      (cfg.mode = I2C_MODE_MASTER → env.initOk w.inits = false →
        (esp_expander_i2c_ng_init_from_legacy_config env port (some cfg) w).1 = ESP_FAIL ∧
        (esp_expander_i2c_ng_init_from_legacy_config env port (some cfg) w).2.s_port_speed_hz
          port = cfg.clk_speed)) ∧
    esp_expander_i2c_ng_init_from_legacy_config env port none w = (ESP_ERR_INVALID_ARG, w) ∧
    (env.I2C_NUM_MAX ≤ port → ∀ c : Option i2c_config_t,
      esp_expander_i2c_ng_init_from_legacy_config env port c w = (ESP_ERR_INVALID_ARG, w)) ∧
    esp_expander_i2c_ng_deinit port w = (ESP_OK, w) := by
  refine ⟨?_, rfl, ?_, rfl⟩
  · intro hport
    obtain ⟨hst, hsp⟩ := init_from_legacy_config_speed env port cfg w hport
    have hm1 : cfg.mode = I2C_MODE_MASTER →
        (esp_expander_i2c_ng_init_from_legacy_config env port (some cfg) w).2.s_port_speed_hz
          port = cfg.clk_speed := by
      intro hm
      rw [hsp, if_pos hm, Function.update_same]
    refine ⟨hst, hm1, ?_, ?_, ?_⟩
    · intro hm
      rw [hsp, if_neg hm]
    · intro hq
      rw [hsp]
      split
      · exact Function.update_noteq hq _ _
      · rfl
    · intro hm hfail
      refine ⟨?_, hm1 hm⟩
      rw [hst, hfail]
      rfl
  · intro hge c
    have hlt : ¬ port < env.I2C_NUM_MAX := by omega
    cases c with
    | none => rfl
    | some c => simp [esp_expander_i2c_ng_init_from_legacy_config, hlt]

/-- Witness of C20: `i2cInit` fails, the call reports `ESP_FAIL`, and the
entry of port `0` holds the 400 kHz of the master configuration. -/
theorem C20_speed_cache_frame_witness :
    (esp_expander_i2c_ng_init_from_legacy_config failingInitEnv 0 (some sampleMasterCfg)
      bootWorld).1 = ESP_FAIL ∧
    (esp_expander_i2c_ng_init_from_legacy_config failingInitEnv 0 (some sampleMasterCfg)
      bootWorld).2.s_port_speed_hz 0 = sampleMasterCfg.clk_speed :=
  ((C20_speed_cache_frame failingInitEnv 0 1 sampleMasterCfg bootWorld).1 (by decide)).2.2.2.2
    rfl rfl
